import Mathlib

/-! goscribe: configuration, action registry, completion request and run

A shallow embedding of `main.go` and `default_config.go`: the configuration
pipeline (`validateConfig`, `findAction`, `loadConfigActions`), the built-in
default configuration, `createDefaultConfig` and `storeAPIKey`,
`processWithOpenAI`, and the body of `main` from the loaded configuration to
the summary, together with the properties the specification states about them.

Modelling conventions.

* Go `string` is `String`; paths and texts are handled character by character
  where the source handles bytes, which agrees on the ASCII characters tested.
* Go `int` (`MaxTokens`, loop indices) is `Int`; no arithmetic is done on it.
* Go `float64` is `Float64` below: the three bit fields of IEEE-754 binary64,
  with the IEEE comparisons (every comparison with a NaN is false).
* `error` is `Option GoError` (`none` is `nil`); an error built by
  `fmt.Errorf` is kept as its format string and its arguments.
* What a function prints with `fmt.Printf` is returned as a list of
  `Printed` records (`Output` in `main`), in order.
* The package variable `postActions` is passed in and returned explicitly.
* Calls that leave the repository (`os`, `yaml`, `net/http`, `json.Unmarshal`)
  are parameters (`Env`, `Sys`, `Net`, `RunEnv`); `filepath.Ext`,
  `strings.TrimSuffix`, `fmt.Sprintf` and `json.Marshal` of the request are
  modelled from the standard library.
* `yaml.Unmarshal` is moreover modelled, as `yamlUnmarshal`, for documents laid
  out as the built-in default configuration is, so that what is said of the
  default configuration is said of the text `getDefaultConfigContent` returns.
-/

namespace Goscribe

/-! ## float64 -/

/-- IEEE-754 binary64 value (Go `float64`), given by its sign bit, its 11-bit
biased exponent and its 52-bit fraction. -/
structure Float64 where
  sign : Bool
  exponent : Fin 2048
  fraction : Fin 4503599627370496
deriving DecidableEq, Repr

namespace Float64

/-- NaN: all exponent bits set and a non-zero fraction. -/
def isNaN (x : Float64) : Bool :=
  x.exponent.val == 2047 && x.fraction.val != 0

/-- The magnitude bits as a signed integer. On values that are not NaN the
numeric order of binary64 is the order of these integers (sign-magnitude
encoding); `+0` and `-0` both give `0`. -/
def key (x : Float64) : Int :=
  if x.sign then -((x.exponent.val * 4503599627370496 + x.fraction.val : Nat) : Int)
  else ((x.exponent.val * 4503599627370496 + x.fraction.val : Nat) : Int)

/-- Go `x < y` on float64. -/
def lt (x y : Float64) : Bool :=
  !x.isNaN && !y.isNaN && decide (x.key < y.key)

/-- Go `x > y` on float64. -/
def gt (x y : Float64) : Bool :=
  !x.isNaN && !y.isNaN && decide (y.key < x.key)

/-- Go `x <= y` on float64. -/
def le (x y : Float64) : Bool :=
  !x.isNaN && !y.isNaN && decide (x.key ≤ y.key)

/-- Go `x == y` on float64. -/
def eq (x y : Float64) : Bool :=
  !x.isNaN && !y.isNaN && decide (x.key = y.key)

/-- The constant `0` converted to float64. -/
def zero : Float64 := ⟨false, 0, 0⟩

/-- The constant `2` converted to float64 (bits 0x4000000000000000). -/
def two : Float64 := ⟨false, 1024, 0⟩

/-- The float64 `0.5` (bits 0x3FE0000000000000). -/
def half : Float64 := ⟨false, 1022, 0⟩

/-- The float64 `2.5` (bits 0x4004000000000000). -/
def twoPointFive : Float64 := ⟨false, 1024, 1125899906842624⟩

/-- The float64 nearest to `2.1` (bits 0x4000CCCCCCCCCCCD). -/
def twoPointOne : Float64 := ⟨false, 1024, 225179981368525⟩

/-- The float64 nearest to `-0.1` (bits 0xBFB999999999999A). -/
def minusPointOne : Float64 := ⟨true, 1019, 2702159776422298⟩

/-- The float64 `-0` (bits 0x8000000000000000). -/
def negZero : Float64 := ⟨true, 0, 0⟩

/-- The quiet NaN that `math.NaN()` returns (bits 0x7FF8000000000001). -/
def nan : Float64 := ⟨false, 2047, 2251799813685249⟩

end Float64

/-! ## Data model -/

/-- Go `PostAction`. The field `Type` is spelled `Type_`. -/
structure PostAction where
  ID : String
  Name : String
  Description : String
  Type_ : String
  Prompt : String
  Model : String
  Temperature : Float64
  MaxTokens : Int
deriving DecidableEq, Repr

/-- Go `Config`. -/
structure Config where
  OpenAIAPIKey : String
  PostActions : List PostAction
deriving DecidableEq, Repr

/-- An argument of a `fmt` formatting call. -/
inductive FmtArg where
  | str (s : String)
  | int (n : Int)
  | float (x : Float64)
deriving DecidableEq, Repr

/-- A Go `error` value: `errorf` is `fmt.Errorf(format, args...)` without
`%w`, `wrap` is `fmt.Errorf(format, err)` whose format ends in `%w`, and
`external` is an error produced by a library outside the repository. -/
inductive GoError where
  | errorf (format : String) (args : List FmtArg)
  | wrap (format : String) (inner : GoError)
  | external (msg : String)
deriving DecidableEq, Repr

/-- One `fmt.Printf(format, args...)` call on standard output. -/
structure Printed where
  format : String
  args : List FmtArg
deriving DecidableEq, Repr

/-! ## validateConfig -/

/-- The map literal `validTypes` of `validateConfig`, as its key set. -/
def validTypes : List String := ["openai"]

/-- The map literal `validModels` of `validateConfig`, as its key set. -/
def validModels : List String :=
  ["gpt-3.5-turbo", "gpt-4", "gpt-4-turbo", "gpt-4o", "gpt-4o-mini"]

/-- The `for i, action := range config.PostActions` loop of `validateConfig`,
from index `i` on, with `seenIDs` the keys set to `true` so far. Returns the
error (or `nil`) and the warnings printed. -/
def validateActions : Nat → List String → List PostAction → Option GoError × List Printed
  | _, _, [] => (none, [])
  | i, seenIDs, action :: rest =>
    if action.ID = "" then
      (some (.errorf "action at index %d is missing 'id' field" [.int i]), [])
    else if action.Name = "" then
      (some (.errorf "action '%s' is missing 'name' field" [.str action.ID]), [])
    else if action.Type_ = "" then
      (some (.errorf "action '%s' is missing 'type' field" [.str action.ID]), [])
    else if action.Prompt = "" then
      (some (.errorf "action '%s' is missing 'prompt' field" [.str action.ID]), [])
    else if action.Model = "" then
      (some (.errorf "action '%s' is missing 'model' field" [.str action.ID]), [])
    else if action.ID ∈ seenIDs then
      (some (.errorf "duplicate action ID '%s' found" [.str action.ID]), [])
    else if action.Type_ ∉ validTypes then
      (some (.errorf "action '%s' has invalid type '%s' (valid: openai)"
        [.str action.ID, .str action.Type_]), [])
    else if action.Temperature.lt Float64.zero || action.Temperature.gt Float64.two then
      (some (.errorf "action '%s' has invalid temperature %.2f (must be between 0 and 2)"
        [.str action.ID, .float action.Temperature]), [])
    else if action.MaxTokens ≤ 0 then
      (some (.errorf "action '%s' has invalid max_tokens %d (must be > 0)"
        [.str action.ID, .int action.MaxTokens]), [])
    else
      let warning : List Printed :=
        if action.Type_ = "openai" ∧ action.Model ∉ validModels then
          [⟨"Warning: action '%s' uses model '%s' which may not be valid\n",
            [.str action.ID, .str action.Model]⟩]
        else []
      let r := validateActions (i + 1) (action.ID :: seenIDs) rest
      (r.1, warning ++ r.2)

/-- Go `validateConfig`: the error returned and the warnings printed. -/
def validateConfig (config : Config) : Option GoError × List Printed :=
  if config.PostActions.length = 0 then
    (some (.errorf "no post-processing actions defined in config" []), [])
  else
    validateActions 0 [] config.PostActions

/-! ## findAction -/

/-- The loop of `findAction` from index `i` on: the index of the element the
returned pointer refers to, or `none` for `nil`. -/
def findActionFrom (id : String) : Nat → List PostAction → Option Nat
  | _, [] => none
  | i, action :: rest =>
    if action.ID = id then some i else findActionFrom id (i + 1) rest

/-- Go `findAction`: the pointer `&postActions[i]` is the index `i`. -/
def findAction (postActions : List PostAction) (id : String) : Option Nat :=
  findActionFrom id 0 postActions

/-! ## loadConfigActions -/

/-- The two library calls of `loadConfigActions`: `os.ReadFile` and
`yaml.Unmarshal` into a zero `Config`. -/
structure Env where
  ReadFile : String → Except GoError String
  Unmarshal : String → Except GoError Config

/-- What a call of `loadConfigActions` leaves behind: the two return values,
the registry after the call and what was printed. -/
structure LoadResult where
  apiKey : String
  err : Option GoError
  postActions : List PostAction
  stdout : List Printed
deriving DecidableEq, Repr

/-- Go `loadConfigActions`, run with registry content `postActions`. -/
def loadConfigActions (env : Env) (postActions : List PostAction) (configPath : String) :
    LoadResult :=
  match env.ReadFile configPath with
  | .error err => ⟨"", some (.wrap "failed to read config file: %w" err), postActions, []⟩
  | .ok data =>
    match env.Unmarshal data with
    | .error err => ⟨"", some (.wrap "failed to parse YAML config: %w" err), postActions, []⟩
    | .ok config =>
      match validateConfig config with
      | (some err, out) =>
        ⟨"", some (.wrap "config validation failed: %w" err), postActions, out⟩
      | (none, out) =>
        ⟨config.OpenAIAPIKey, none, config.PostActions,
          out ++ [⟨"Loaded %d action(s) from config file\n", [.int config.PostActions.length]⟩]⟩

/-- The float64 nearest to `0.2` (bits 0x3FC999999999999A). -/
def Float64.pointTwo : Float64 := ⟨false, 1020, 2702159776422298⟩

/-- The float64 nearest to `0.3` (bits 0x3FD3333333333333). -/
def Float64.pointThree : Float64 := ⟨false, 1021, 900719925474099⟩

/-- The float64 nearest to `0.4` (bits 0x3FD999999999999A). -/
def Float64.pointFour : Float64 := ⟨false, 1021, 2702159776422298⟩

/-! ## The built-in default configuration -/

/-- The lines of the raw string literal that Go `getDefaultConfigContent`
returns, each with its newline. -/
def defaultConfigLines : List String :=
  [
    "# goscribe configuration file\n",
    "# All built-in post-processing actions for audio transcription\n",
    "\n",
    "# OpenAI API Key (optional - can also be passed via -k flag)\n",
    "# If set here, you don't need to provide -k flag every time\n",
    "openai_api_key: \"\"\n",
    "\n",
    "post_actions:\n",
    "  - id: \"openai-meeting-summary\"\n",
    "    name: \"Smart Meeting Summary\"\n",
    "    description: \"AI-powered comprehensive meeting summary with key decisions and action items\"\n",
    "    type: \"openai\"\n",
    "    prompt: |\n",
    "      Analyze this meeting transcript and create a comprehensive summary with the following sections:\n",
    "\n",
    "      1. **Key Decisions Made**\n",
    "      2. **Action Items** (with responsible parties if mentioned)\n",
    "      3. **Important Discussion Points**\n",
    "      4. **Next Steps**\n",
    "\n",
    "      Format the output with clear headings and bullet points for easy reading.\n",
    "    model: \"gpt-3.5-turbo\"\n",
    "    temperature: 0.3\n",
    "    max_tokens: 1500\n",
    "\n",
    "  - id: \"openai-action-items\"\n",
    "    name: \"Action Items Extractor\"\n",
    "    description: \"Extract and organize all action items, tasks, and assignments\"\n",
    "    type: \"openai\"\n",
    "    prompt: |\n",
    "      Extract all action items, tasks, deadlines, and assignments from this transcript. For each item, identify:\n",
    "\n",
    "      - The specific task or action required\n",
    "      - Who is responsible (if mentioned)\n",
    "      - Any deadlines or timeframes mentioned\n",
    "      - Priority level (if indicated)\n",
    "\n",
    "      Format as a prioritized task list with checkboxes.\n",
    "    model: \"gpt-3.5-turbo\"\n",
    "    temperature: 0.2\n",
    "    max_tokens: 1000\n",
    "\n",
    "  - id: \"openai-executive-brief\"\n",
    "    name: \"Executive Brief\"\n",
    "    description: \"Concise executive summary for leadership review\"\n",
    "    type: \"openai\"\n",
    "    prompt: |\n",
    "      Create a concise executive summary of this transcript suitable for leadership review. Focus on:\n",
    "\n",
    "      - Strategic decisions and their business impact\n",
    "      - Financial implications or budget discussions\n",
    "      - Risk factors or opportunities identified\n",
    "      - Key performance metrics or outcomes\n",
    "      - Critical next steps requiring leadership attention\n",
    "\n",
    "      Keep it under 300 words and use business-appropriate language.\n",
    "    model: \"gpt-4\"\n",
    "    temperature: 0.2\n",
    "    max_tokens: 800\n",
    "\n",
    "  - id: \"openai-key-insights\"\n",
    "    name: \"Key Insights\"\n",
    "    description: \"Identify important insights, conclusions, and strategic points\"\n",
    "    type: \"openai\"\n",
    "    prompt: |\n",
    "      Identify and extract the most important insights, conclusions, and strategic points from this transcript. Focus on:\n",
    "\n",
    "      - Novel ideas or innovative solutions discussed\n",
    "      - Important data points or metrics mentioned\n",
    "      - Strategic implications for the business\n",
    "      - Risk factors or challenges identified\n",
    "      - Opportunities for improvement or growth\n",
    "\n",
    "      Present as numbered insights with brief explanations.\n",
    "    model: \"gpt-3.5-turbo\"\n",
    "    temperature: 0.4\n",
    "    max_tokens: 1200\n",
    "\n",
    "  - id: \"openai-qa-format\"\n",
    "    name: \"Q&A Generator\"\n",
    "    description: \"Convert transcript into structured question and answer format\"\n",
    "    type: \"openai\"\n",
    "    prompt: |\n",
    "      Convert this transcript into a comprehensive Q&A format that captures all important questions asked and answers provided. Include:\n",
    "\n",
    "      - All direct questions and their answers\n",
    "      - Implied questions from the discussion\n",
    "      - Key topics addressed even if not explicitly asked\n",
    "\n",
    "      Format with clear Q: and A: markers for easy reading.\n",
    "    model: \"gpt-3.5-turbo\"\n",
    "    temperature: 0.3\n",
    "    max_tokens: 2000\n",
    "\n",
    "  - id: \"openai-tech-meeting\"\n",
    "    name: \"Technical Meeting Summary\"\n",
    "    description: \"Summarize technical discussions with architecture decisions and implementation details\"\n",
    "    type: \"openai\"\n",
    "    prompt: |\n",
    "      Analyze this technical meeting transcript and provide:\n",
    "\n",
    "      1. **Technical Decisions Made** (architecture, technology choices, design patterns)\n",
    "      2. **Implementation Details** (specific approaches, libraries, tools mentioned)\n",
    "      3. **Technical Challenges Identified** (blockers, performance issues, technical debt)\n",
    "      4. **Code/System Changes Required**\n",
    "      5. **Technical Action Items** (with owners if mentioned)\n",
    "      6. **Open Technical Questions**\n",
    "\n",
    "      Use technical terminology appropriately and include any code snippets, API endpoints, or system components mentioned.\n",
    "    model: \"gpt-4\"\n",
    "    temperature: 0.2\n",
    "    max_tokens: 2000\n",
    "\n",
    "  - id: \"openai-one-on-one\"\n",
    "    name: \"1:1 Meeting Notes\"\n",
    "    description: \"Structure manager/employee 1:1 discussions with feedback and growth areas\"\n",
    "    type: \"openai\"\n",
    "    prompt: |\n",
    "      Structure this 1:1 meeting transcript into clear sections:\n",
    "\n",
    "      1. **Performance Feedback** (positive and constructive)\n",
    "      2. **Goals & Objectives Discussed**\n",
    "      3. **Career Development Topics** (growth opportunities, skills to develop)\n",
    "      4. **Challenges/Blockers Mentioned**\n",
    "      5. **Support Needed from Manager**\n",
    "      6. **Action Items for Employee**\n",
    "      7. **Action Items for Manager**\n",
    "      8. **Follow-up Items for Next 1:1**\n",
    "\n",
    "      Maintain a professional and constructive tone throughout.\n",
    "    model: \"gpt-3.5-turbo\"\n",
    "    temperature: 0.3\n",
    "    max_tokens: 1500\n",
    "\n",
    "  - id: \"openai-hr-meeting\"\n",
    "    name: \"HR Meeting Summary\"\n",
    "    description: \"Summarize HR discussions with policy updates and employee matters\"\n",
    "    type: \"openai\"\n",
    "    prompt: |\n",
    "      Summarize this HR meeting focusing on:\n",
    "\n",
    "      1. **Policy Updates or Changes** (what changed and why)\n",
    "      2. **Employee Benefits/Compensation Discussion**\n",
    "      3. **Performance/Development Topics**\n",
    "      4. **Compliance or Legal Matters Mentioned**\n",
    "      5. **Next Steps & Required Documentation**\n",
    "      6. **Important Dates/Deadlines**\n",
    "      7. **Questions to Follow Up On**\n",
    "\n",
    "      Maintain confidentiality-appropriate language and focus on actionable information.\n",
    "    model: \"gpt-3.5-turbo\"\n",
    "    temperature: 0.2\n",
    "    max_tokens: 1200\n",
    "\n",
    "  - id: \"openai-project-kickoff\"\n",
    "    name: \"Project Kickoff Summary\"\n",
    "    description: \"Capture project objectives, scope, timeline, and team structure\"\n",
    "    type: \"openai\"\n",
    "    prompt: |\n",
    "      Create a comprehensive project kickoff summary from this transcript:\n",
    "\n",
    "      1. **Project Overview** (goals, objectives, success criteria)\n",
    "      2. **Project Scope** (what's included and explicitly excluded)\n",
    "      3. **Timeline & Milestones** (key dates and deliverables)\n",
    "      4. **Team Structure** (roles, responsibilities, stakeholders)\n",
    "      5. **Resources & Budget** (if mentioned)\n",
    "      6. **Dependencies & Risks Identified**\n",
    "      7. **Communication Plan** (meetings, reporting, tools)\n",
    "      8. **Immediate Next Steps**\n",
    "\n",
    "      Format for easy reference as a project charter.\n",
    "    model: \"gpt-4\"\n",
    "    temperature: 0.2\n",
    "    max_tokens: 2000\n",
    "\n",
    "  - id: \"openai-standup\"\n",
    "    name: \"Daily Standup Summary\"\n",
    "    description: \"Quick summary of daily standup with blockers and progress\"\n",
    "    type: \"openai\"\n",
    "    prompt: |\n",
    "      Summarize this standup meeting in a concise format:\n",
    "\n",
    "      **Progress Updates:**\n",
    "      - List what each person completed or is working on\n",
    "\n",
    "      **Blockers:**\n",
    "      - Highlight any impediments or issues raised\n",
    "\n",
    "      **Today's Focus:**\n",
    "      - Key priorities for the day\n",
    "\n",
    "      **Help Needed:**\n",
    "      - Any requests for assistance or collaboration\n",
    "\n",
    "      Keep it brief and actionable - suitable for quick reference.\n",
    "    model: \"gpt-3.5-turbo\"\n",
    "    temperature: 0.2\n",
    "    max_tokens: 800\n",
    "\n",
    "  - id: \"openai-company-webinar\"\n",
    "    name: \"Company Webinar Summary\"\n",
    "    description: \"Internal communication summary with key announcements and updates\"\n",
    "    type: \"openai\"\n",
    "    prompt: |\n",
    "      Summarize this internal company webinar/communication:\n",
    "\n",
    "      1. **Major Announcements** (company news, changes, initiatives)\n",
    "      2. **Strategic Direction** (company goals, vision, priorities)\n",
    "      3. **Organizational Changes** (leadership, structure, process updates)\n",
    "      4. **Key Metrics/Results Shared** (financial, growth, performance)\n",
    "      5. **Employee Impact** (what this means for employees)\n",
    "      6. **Q&A Highlights** (important questions and answers)\n",
    "      7. **Important Dates & Deadlines**\n",
    "      8. **Resources/Links Mentioned**\n",
    "\n",
    "      Write in an informative tone suitable for sharing with those who missed the session.\n",
    "    model: \"gpt-3.5-turbo\"\n",
    "    temperature: 0.3\n",
    "    max_tokens: 1800\n",
    "\n",
    "  - id: \"openai-client-meeting\"\n",
    "    name: \"Client Meeting Notes\"\n",
    "    description: \"Client-focused summary with requirements and commitments\"\n",
    "    type: \"openai\"\n",
    "    prompt: |\n",
    "      Create professional client meeting notes covering:\n",
    "\n",
    "      1. **Meeting Attendees & Purpose**\n",
    "      2. **Client Requirements/Requests** (detailed list)\n",
    "      3. **Solutions/Proposals Discussed**\n",
    "      4. **Agreements & Commitments Made** (by both parties)\n",
    "      5. **Timeline & Deliverables**\n",
    "      6. **Budget/Pricing Discussion** (if applicable)\n",
    "      7. **Client Concerns/Feedback**\n",
    "      8. **Action Items** (clearly marked who does what)\n",
    "      9. **Next Meeting/Follow-up Plans**\n",
    "\n",
    "      Use professional client-facing language.\n",
    "    model: \"gpt-3.5-turbo\"\n",
    "    temperature: 0.2\n",
    "    max_tokens: 1500\n",
    "\n",
    "  - id: \"openai-retrospective\"\n",
    "    name: \"Sprint Retrospective\"\n",
    "    description: \"Agile retrospective with what went well, what didn't, and improvements\"\n",
    "    type: \"openai\"\n",
    "    prompt: |\n",
    "      Structure this retrospective meeting using the standard format:\n",
    "\n",
    "      **What Went Well ‚úÖ**\n",
    "      - List positive outcomes and successes\n",
    "\n",
    "      **What Didn't Go Well ‚ùå**\n",
    "      - Challenges, issues, or pain points encountered\n",
    "\n",
    "      **Action Items for Improvement üéØ**\n",
    "      - Specific, actionable improvements to implement\n",
    "      - Assign owners if mentioned\n",
    "\n",
    "      **Appreciations üôè**\n",
    "      - Team member shoutouts and recognition\n",
    "\n",
    "      **Carry Forward**\n",
    "      - Items to revisit in next retrospective\n",
    "\n",
    "      Focus on constructive and actionable feedback.\n",
    "    model: \"gpt-3.5-turbo\"\n",
    "    temperature: 0.3\n",
    "    max_tokens: 1200\n",
    "\n",
    "  - id: \"openai-brainstorm\"\n",
    "    name: \"Brainstorming Session\"\n",
    "    description: \"Capture all ideas, evaluate them, and identify top candidates\"\n",
    "    type: \"openai\"\n",
    "    prompt: |\n",
    "      Organize this brainstorming session output:\n",
    "\n",
    "      1. **All Ideas Generated** (comprehensive list with brief descriptions)\n",
    "      2. **Ideas by Category** (group related concepts)\n",
    "      3. **Top Ideas Selected** (most promising with rationale)\n",
    "      4. **Ideas Requiring More Research**\n",
    "      5. **Ideas to Prototype/Test**\n",
    "      6. **Ideas Parked for Future**\n",
    "      7. **Next Steps** (how to move forward with selected ideas)\n",
    "\n",
    "      Preserve creative language while organizing for clarity.\n",
    "    model: \"gpt-3.5-turbo\"\n",
    "    temperature: 0.4\n",
    "    max_tokens: 1800\n",
    "\n",
    "  - id: \"openai-training-session\"\n",
    "    name: \"Training Session Notes\"\n",
    "    description: \"Educational content summary with key learnings and resources\"\n",
    "    type: \"openai\"\n",
    "    prompt: |\n",
    "      Create comprehensive training session notes:\n",
    "\n",
    "      1. **Topic/Subject Overview**\n",
    "      2. **Key Concepts Covered** (main learning objectives)\n",
    "      3. **Important Details & Examples**\n",
    "      4. **Step-by-Step Processes** (if applicable)\n",
    "      5. **Common Mistakes/Pitfalls to Avoid**\n",
    "      6. **Best Practices Highlighted**\n",
    "      7. **Resources/Documentation Links Mentioned**\n",
    "      8. **Practice Exercises or Homework**\n",
    "      9. **Questions Asked & Answers**\n",
    "      10. **Follow-up/Additional Learning Needed**\n",
    "\n",
    "      Format as study notes for future reference.\n",
    "    model: \"gpt-4\"\n",
    "    temperature: 0.2\n",
    "    max_tokens: 2000\n",
    "\n",
    "  - id: \"openai-decision-record\"\n",
    "    name: \"Decision Record (ADR Style)\"\n",
    "    description: \"Architecture Decision Record format for important technical choices\"\n",
    "    type: \"openai\"\n",
    "    prompt: |\n",
    "      Create an Architecture Decision Record (ADR) from this discussion:\n",
    "\n",
    "      **Status:** [Decision made/pending/superseded]\n",
    "\n",
    "      **Context:**\n",
    "      What is the issue we're trying to solve? What are the driving factors?\n",
    "\n",
    "      **Decision:**\n",
    "      What is the change that we're actually proposing/doing?\n",
    "\n",
    "      **Consequences:**\n",
    "      - Positive outcomes and benefits\n",
    "      - Negative consequences and trade-offs\n",
    "      - Risks and mitigations\n",
    "\n",
    "      **Alternatives Considered:**\n",
    "      What other options were discussed and why weren't they chosen?\n",
    "\n",
    "      **Implementation Notes:**\n",
    "      Any technical details about how this will be implemented.\n",
    "\n",
    "      Use clear technical language suitable for documentation.\n",
    "    model: \"gpt-4\"\n",
    "    temperature: 0.2\n",
    "    max_tokens: 1500\n",
    "\n",
    "  - id: \"openai-interview-notes\"\n",
    "    name: \"Interview Summary\"\n",
    "    description: \"Candidate interview notes with assessment and feedback\"\n",
    "    type: \"openai\"\n",
    "    prompt: |\n",
    "      Create structured interview notes:\n",
    "\n",
    "      1. **Candidate Information** (name, role, date if mentioned)\n",
    "      2. **Technical Skills Assessment**\n",
    "         - Skills demonstrated\n",
    "         - Technical question responses\n",
    "         - Problem-solving approach\n",
    "      3. **Soft Skills & Culture Fit**\n",
    "         - Communication style\n",
    "         - Team collaboration indicators\n",
    "         - Cultural alignment\n",
    "      4. **Strengths Identified**\n",
    "      5. **Areas of Concern**\n",
    "      6. **Notable Responses** (impressive answers or red flags)\n",
    "      7. **Questions Candidate Asked** (shows their interests/priorities)\n",
    "      8. **Overall Impression**\n",
    "      9. **Recommendation** (if decision was discussed)\n",
    "      10. **Next Steps**\n",
    "\n",
    "      Maintain objectivity and professionalism.\n",
    "    model: \"gpt-3.5-turbo\"\n",
    "    temperature: 0.2\n",
    "    max_tokens: 1500\n",
    "\n",
    "  - id: \"openai-incident-postmortem\"\n",
    "    name: \"Incident Postmortem\"\n",
    "    description: \"Document incident details, root cause, and prevention measures\"\n",
    "    type: \"openai\"\n",
    "    prompt: |\n",
    "      Create a comprehensive incident postmortem:\n",
    "\n",
    "      **Incident Summary**\n",
    "      - What happened and when\n",
    "      - Impact (users affected, downtime, etc.)\n",
    "      - Severity level\n",
    "\n",
    "      **Timeline**\n",
    "      - Detection time\n",
    "      - Key events during incident\n",
    "      - Resolution time\n",
    "\n",
    "      **Root Cause Analysis**\n",
    "      - What caused the incident\n",
    "      - Contributing factors\n",
    "\n",
    "      **Resolution Steps Taken**\n",
    "      - Immediate fixes applied\n",
    "      - How normal service was restored\n",
    "\n",
    "      **What Went Well**\n",
    "      - Effective responses and processes\n",
    "\n",
    "      **What Could Be Improved**\n",
    "      - Gaps in monitoring, process, or response\n",
    "\n",
    "      **Action Items**\n",
    "      - Preventive measures\n",
    "      - Process improvements\n",
    "      - Technical changes needed\n",
    "      - Owners and deadlines\n",
    "\n",
    "      **Lessons Learned**\n",
    "\n",
    "      Use blameless postmortem approach.\n",
    "    model: \"gpt-4\"\n",
    "    temperature: 0.2\n",
    "    max_tokens: 2000\n"]

/-- Go `getDefaultConfigContent`: the raw string literal it returns. -/
def getDefaultConfigContent : String :=
  String.join defaultConfigLines

/-- The Config that the document `getDefaultConfigContent` decodes to: the key
`openai_api_key`, and one `PostAction` for each item of `post_actions`, in order;
a `prompt` is the literal block scalar, its lines without their six-space indent
and each ended by a newline. -/
def defaultConfig : Config :=
  ⟨"", [
    { ID := "openai-meeting-summary",
      Name := "Smart Meeting Summary",
      Description := "AI-powered comprehensive meeting summary with key decisions and action items",
      Type_ := "openai",
      Prompt := String.join [
        "Analyze this meeting transcript and create a comprehensive summary with the following sections:\n",
        "\n",
        "1. **Key Decisions Made**\n",
        "2. **Action Items** (with responsible parties if mentioned)\n",
        "3. **Important Discussion Points**\n",
        "4. **Next Steps**\n",
        "\n",
        "Format the output with clear headings and bullet points for easy reading.\n"],
      Model := "gpt-3.5-turbo",
      Temperature := Float64.pointThree,
      MaxTokens := 1500 },
    { ID := "openai-action-items",
      Name := "Action Items Extractor",
      Description := "Extract and organize all action items, tasks, and assignments",
      Type_ := "openai",
      Prompt := String.join [
        "Extract all action items, tasks, deadlines, and assignments from this transcript. For each item, identify:\n",
        "\n",
        "- The specific task or action required\n",
        "- Who is responsible (if mentioned)\n",
        "- Any deadlines or timeframes mentioned\n",
        "- Priority level (if indicated)\n",
        "\n",
        "Format as a prioritized task list with checkboxes.\n"],
      Model := "gpt-3.5-turbo",
      Temperature := Float64.pointTwo,
      MaxTokens := 1000 },
    { ID := "openai-executive-brief",
      Name := "Executive Brief",
      Description := "Concise executive summary for leadership review",
      Type_ := "openai",
      Prompt := String.join [
        "Create a concise executive summary of this transcript suitable for leadership review. Focus on:\n",
        "\n",
        "- Strategic decisions and their business impact\n",
        "- Financial implications or budget discussions\n",
        "- Risk factors or opportunities identified\n",
        "- Key performance metrics or outcomes\n",
        "- Critical next steps requiring leadership attention\n",
        "\n",
        "Keep it under 300 words and use business-appropriate language.\n"],
      Model := "gpt-4",
      Temperature := Float64.pointTwo,
      MaxTokens := 800 },
    { ID := "openai-key-insights",
      Name := "Key Insights",
      Description := "Identify important insights, conclusions, and strategic points",
      Type_ := "openai",
      Prompt := String.join [
        "Identify and extract the most important insights, conclusions, and strategic points from this transcript. Focus on:\n",
        "\n",
        "- Novel ideas or innovative solutions discussed\n",
        "- Important data points or metrics mentioned\n",
        "- Strategic implications for the business\n",
        "- Risk factors or challenges identified\n",
        "- Opportunities for improvement or growth\n",
        "\n",
        "Present as numbered insights with brief explanations.\n"],
      Model := "gpt-3.5-turbo",
      Temperature := Float64.pointFour,
      MaxTokens := 1200 },
    { ID := "openai-qa-format",
      Name := "Q&A Generator",
      Description := "Convert transcript into structured question and answer format",
      Type_ := "openai",
      Prompt := String.join [
        "Convert this transcript into a comprehensive Q&A format that captures all important questions asked and answers provided. Include:\n",
        "\n",
        "- All direct questions and their answers\n",
        "- Implied questions from the discussion\n",
        "- Key topics addressed even if not explicitly asked\n",
        "\n",
        "Format with clear Q: and A: markers for easy reading.\n"],
      Model := "gpt-3.5-turbo",
      Temperature := Float64.pointThree,
      MaxTokens := 2000 },
    { ID := "openai-tech-meeting",
      Name := "Technical Meeting Summary",
      Description := "Summarize technical discussions with architecture decisions and implementation details",
      Type_ := "openai",
      Prompt := String.join [
        "Analyze this technical meeting transcript and provide:\n",
        "\n",
        "1. **Technical Decisions Made** (architecture, technology choices, design patterns)\n",
        "2. **Implementation Details** (specific approaches, libraries, tools mentioned)\n",
        "3. **Technical Challenges Identified** (blockers, performance issues, technical debt)\n",
        "4. **Code/System Changes Required**\n",
        "5. **Technical Action Items** (with owners if mentioned)\n",
        "6. **Open Technical Questions**\n",
        "\n",
        "Use technical terminology appropriately and include any code snippets, API endpoints, or system components mentioned.\n"],
      Model := "gpt-4",
      Temperature := Float64.pointTwo,
      MaxTokens := 2000 },
    { ID := "openai-one-on-one",
      Name := "1:1 Meeting Notes",
      Description := "Structure manager/employee 1:1 discussions with feedback and growth areas",
      Type_ := "openai",
      Prompt := String.join [
        "Structure this 1:1 meeting transcript into clear sections:\n",
        "\n",
        "1. **Performance Feedback** (positive and constructive)\n",
        "2. **Goals & Objectives Discussed**\n",
        "3. **Career Development Topics** (growth opportunities, skills to develop)\n",
        "4. **Challenges/Blockers Mentioned**\n",
        "5. **Support Needed from Manager**\n",
        "6. **Action Items for Employee**\n",
        "7. **Action Items for Manager**\n",
        "8. **Follow-up Items for Next 1:1**\n",
        "\n",
        "Maintain a professional and constructive tone throughout.\n"],
      Model := "gpt-3.5-turbo",
      Temperature := Float64.pointThree,
      MaxTokens := 1500 },
    { ID := "openai-hr-meeting",
      Name := "HR Meeting Summary",
      Description := "Summarize HR discussions with policy updates and employee matters",
      Type_ := "openai",
      Prompt := String.join [
        "Summarize this HR meeting focusing on:\n",
        "\n",
        "1. **Policy Updates or Changes** (what changed and why)\n",
        "2. **Employee Benefits/Compensation Discussion**\n",
        "3. **Performance/Development Topics**\n",
        "4. **Compliance or Legal Matters Mentioned**\n",
        "5. **Next Steps & Required Documentation**\n",
        "6. **Important Dates/Deadlines**\n",
        "7. **Questions to Follow Up On**\n",
        "\n",
        "Maintain confidentiality-appropriate language and focus on actionable information.\n"],
      Model := "gpt-3.5-turbo",
      Temperature := Float64.pointTwo,
      MaxTokens := 1200 },
    { ID := "openai-project-kickoff",
      Name := "Project Kickoff Summary",
      Description := "Capture project objectives, scope, timeline, and team structure",
      Type_ := "openai",
      Prompt := String.join [
        "Create a comprehensive project kickoff summary from this transcript:\n",
        "\n",
        "1. **Project Overview** (goals, objectives, success criteria)\n",
        "2. **Project Scope** (what's included and explicitly excluded)\n",
        "3. **Timeline & Milestones** (key dates and deliverables)\n",
        "4. **Team Structure** (roles, responsibilities, stakeholders)\n",
        "5. **Resources & Budget** (if mentioned)\n",
        "6. **Dependencies & Risks Identified**\n",
        "7. **Communication Plan** (meetings, reporting, tools)\n",
        "8. **Immediate Next Steps**\n",
        "\n",
        "Format for easy reference as a project charter.\n"],
      Model := "gpt-4",
      Temperature := Float64.pointTwo,
      MaxTokens := 2000 },
    { ID := "openai-standup",
      Name := "Daily Standup Summary",
      Description := "Quick summary of daily standup with blockers and progress",
      Type_ := "openai",
      Prompt := String.join [
        "Summarize this standup meeting in a concise format:\n",
        "\n",
        "**Progress Updates:**\n",
        "- List what each person completed or is working on\n",
        "\n",
        "**Blockers:**\n",
        "- Highlight any impediments or issues raised\n",
        "\n",
        "**Today's Focus:**\n",
        "- Key priorities for the day\n",
        "\n",
        "**Help Needed:**\n",
        "- Any requests for assistance or collaboration\n",
        "\n",
        "Keep it brief and actionable - suitable for quick reference.\n"],
      Model := "gpt-3.5-turbo",
      Temperature := Float64.pointTwo,
      MaxTokens := 800 },
    { ID := "openai-company-webinar",
      Name := "Company Webinar Summary",
      Description := "Internal communication summary with key announcements and updates",
      Type_ := "openai",
      Prompt := String.join [
        "Summarize this internal company webinar/communication:\n",
        "\n",
        "1. **Major Announcements** (company news, changes, initiatives)\n",
        "2. **Strategic Direction** (company goals, vision, priorities)\n",
        "3. **Organizational Changes** (leadership, structure, process updates)\n",
        "4. **Key Metrics/Results Shared** (financial, growth, performance)\n",
        "5. **Employee Impact** (what this means for employees)\n",
        "6. **Q&A Highlights** (important questions and answers)\n",
        "7. **Important Dates & Deadlines**\n",
        "8. **Resources/Links Mentioned**\n",
        "\n",
        "Write in an informative tone suitable for sharing with those who missed the session.\n"],
      Model := "gpt-3.5-turbo",
      Temperature := Float64.pointThree,
      MaxTokens := 1800 },
    { ID := "openai-client-meeting",
      Name := "Client Meeting Notes",
      Description := "Client-focused summary with requirements and commitments",
      Type_ := "openai",
      Prompt := String.join [
        "Create professional client meeting notes covering:\n",
        "\n",
        "1. **Meeting Attendees & Purpose**\n",
        "2. **Client Requirements/Requests** (detailed list)\n",
        "3. **Solutions/Proposals Discussed**\n",
        "4. **Agreements & Commitments Made** (by both parties)\n",
        "5. **Timeline & Deliverables**\n",
        "6. **Budget/Pricing Discussion** (if applicable)\n",
        "7. **Client Concerns/Feedback**\n",
        "8. **Action Items** (clearly marked who does what)\n",
        "9. **Next Meeting/Follow-up Plans**\n",
        "\n",
        "Use professional client-facing language.\n"],
      Model := "gpt-3.5-turbo",
      Temperature := Float64.pointTwo,
      MaxTokens := 1500 },
    { ID := "openai-retrospective",
      Name := "Sprint Retrospective",
      Description := "Agile retrospective with what went well, what didn't, and improvements",
      Type_ := "openai",
      Prompt := String.join [
        "Structure this retrospective meeting using the standard format:\n",
        "\n",
        "**What Went Well ‚úÖ**\n",
        "- List positive outcomes and successes\n",
        "\n",
        "**What Didn't Go Well ‚ùå**\n",
        "- Challenges, issues, or pain points encountered\n",
        "\n",
        "**Action Items for Improvement üéØ**\n",
        "- Specific, actionable improvements to implement\n",
        "- Assign owners if mentioned\n",
        "\n",
        "**Appreciations üôè**\n",
        "- Team member shoutouts and recognition\n",
        "\n",
        "**Carry Forward**\n",
        "- Items to revisit in next retrospective\n",
        "\n",
        "Focus on constructive and actionable feedback.\n"],
      Model := "gpt-3.5-turbo",
      Temperature := Float64.pointThree,
      MaxTokens := 1200 },
    { ID := "openai-brainstorm",
      Name := "Brainstorming Session",
      Description := "Capture all ideas, evaluate them, and identify top candidates",
      Type_ := "openai",
      Prompt := String.join [
        "Organize this brainstorming session output:\n",
        "\n",
        "1. **All Ideas Generated** (comprehensive list with brief descriptions)\n",
        "2. **Ideas by Category** (group related concepts)\n",
        "3. **Top Ideas Selected** (most promising with rationale)\n",
        "4. **Ideas Requiring More Research**\n",
        "5. **Ideas to Prototype/Test**\n",
        "6. **Ideas Parked for Future**\n",
        "7. **Next Steps** (how to move forward with selected ideas)\n",
        "\n",
        "Preserve creative language while organizing for clarity.\n"],
      Model := "gpt-3.5-turbo",
      Temperature := Float64.pointFour,
      MaxTokens := 1800 },
    { ID := "openai-training-session",
      Name := "Training Session Notes",
      Description := "Educational content summary with key learnings and resources",
      Type_ := "openai",
      Prompt := String.join [
        "Create comprehensive training session notes:\n",
        "\n",
        "1. **Topic/Subject Overview**\n",
        "2. **Key Concepts Covered** (main learning objectives)\n",
        "3. **Important Details & Examples**\n",
        "4. **Step-by-Step Processes** (if applicable)\n",
        "5. **Common Mistakes/Pitfalls to Avoid**\n",
        "6. **Best Practices Highlighted**\n",
        "7. **Resources/Documentation Links Mentioned**\n",
        "8. **Practice Exercises or Homework**\n",
        "9. **Questions Asked & Answers**\n",
        "10. **Follow-up/Additional Learning Needed**\n",
        "\n",
        "Format as study notes for future reference.\n"],
      Model := "gpt-4",
      Temperature := Float64.pointTwo,
      MaxTokens := 2000 },
    { ID := "openai-decision-record",
      Name := "Decision Record (ADR Style)",
      Description := "Architecture Decision Record format for important technical choices",
      Type_ := "openai",
      Prompt := String.join [
        "Create an Architecture Decision Record (ADR) from this discussion:\n",
        "\n",
        "**Status:** [Decision made/pending/superseded]\n",
        "\n",
        "**Context:**\n",
        "What is the issue we're trying to solve? What are the driving factors?\n",
        "\n",
        "**Decision:**\n",
        "What is the change that we're actually proposing/doing?\n",
        "\n",
        "**Consequences:**\n",
        "- Positive outcomes and benefits\n",
        "- Negative consequences and trade-offs\n",
        "- Risks and mitigations\n",
        "\n",
        "**Alternatives Considered:**\n",
        "What other options were discussed and why weren't they chosen?\n",
        "\n",
        "**Implementation Notes:**\n",
        "Any technical details about how this will be implemented.\n",
        "\n",
        "Use clear technical language suitable for documentation.\n"],
      Model := "gpt-4",
      Temperature := Float64.pointTwo,
      MaxTokens := 1500 },
    { ID := "openai-interview-notes",
      Name := "Interview Summary",
      Description := "Candidate interview notes with assessment and feedback",
      Type_ := "openai",
      Prompt := String.join [
        "Create structured interview notes:\n",
        "\n",
        "1. **Candidate Information** (name, role, date if mentioned)\n",
        "2. **Technical Skills Assessment**\n",
        "   - Skills demonstrated\n",
        "   - Technical question responses\n",
        "   - Problem-solving approach\n",
        "3. **Soft Skills & Culture Fit**\n",
        "   - Communication style\n",
        "   - Team collaboration indicators\n",
        "   - Cultural alignment\n",
        "4. **Strengths Identified**\n",
        "5. **Areas of Concern**\n",
        "6. **Notable Responses** (impressive answers or red flags)\n",
        "7. **Questions Candidate Asked** (shows their interests/priorities)\n",
        "8. **Overall Impression**\n",
        "9. **Recommendation** (if decision was discussed)\n",
        "10. **Next Steps**\n",
        "\n",
        "Maintain objectivity and professionalism.\n"],
      Model := "gpt-3.5-turbo",
      Temperature := Float64.pointTwo,
      MaxTokens := 1500 },
    { ID := "openai-incident-postmortem",
      Name := "Incident Postmortem",
      Description := "Document incident details, root cause, and prevention measures",
      Type_ := "openai",
      Prompt := String.join [
        "Create a comprehensive incident postmortem:\n",
        "\n",
        "**Incident Summary**\n",
        "- What happened and when\n",
        "- Impact (users affected, downtime, etc.)\n",
        "- Severity level\n",
        "\n",
        "**Timeline**\n",
        "- Detection time\n",
        "- Key events during incident\n",
        "- Resolution time\n",
        "\n",
        "**Root Cause Analysis**\n",
        "- What caused the incident\n",
        "- Contributing factors\n",
        "\n",
        "**Resolution Steps Taken**\n",
        "- Immediate fixes applied\n",
        "- How normal service was restored\n",
        "\n",
        "**What Went Well**\n",
        "- Effective responses and processes\n",
        "\n",
        "**What Could Be Improved**\n",
        "- Gaps in monitoring, process, or response\n",
        "\n",
        "**Action Items**\n",
        "- Preventive measures\n",
        "- Process improvements\n",
        "- Technical changes needed\n",
        "- Owners and deadlines\n",
        "\n",
        "**Lessons Learned**\n",
        "\n",
        "Use blameless postmortem approach.\n"],
      Model := "gpt-4",
      Temperature := Float64.pointTwo,
      MaxTokens := 2000 }]⟩

/-! ## Decoding the configuration file

`yaml.Unmarshal` of gopkg.in/yaml.v3 is not part of the repository. The functions
below model it for documents laid out as the built-in default configuration is:
comment lines, the key `openai_api_key`, and under `post_actions` a block
sequence of mappings that start with `id`, whose values are double-quoted
strings without escapes, plain decimal numbers and, for `prompt`, possibly a
literal block scalar (`|`) indented by six spaces. Every other document is
outside the model and decodes to nothing. -/

/-- The lines of a text: its pieces between newline characters. -/
def splitLines : List Char → List (List Char)
  | [] => [[]]
  | c :: rest =>
    match splitLines rest with
    | [] => [[c]]
    | line :: lines => if c = '\n' then [] :: line :: lines else (c :: line) :: lines

/-- The rest of `s` after the literal `lit`, when `s` starts with it. -/
def dropLiteral : List Char → List Char → Option (List Char)
  | [], s => some s
  | _ :: _, [] => none
  | l :: lit, c :: s => if l = c then dropLiteral lit s else none

/-- A double-quoted scalar without escapes: the characters between the quotes. -/
def quotedScalar (s : List Char) : Option String :=
  match s with
  | '"' :: rest =>
    match rest.reverse with
    | '"' :: inner => if '"' ∈ inner ∨ '\\' ∈ inner then none else some ⟨inner.reverse⟩
    | _ => none
  | _ => none

/-- The number a string of decimal digits stands for, read from the left onto
the accumulator. -/
def digitsValue : Nat → List Char → Option Nat
  | acc, [] => some acc
  | acc, c :: rest =>
    if '0' ≤ c ∧ c ≤ '9' then digitsValue (acc * 10 + (c.toNat - 48)) rest else none

/-- Whether a string of digits has a leading zero that is not the whole of it;
such a number is not read as decimal. -/
def leadingZero (s : List Char) : Bool :=
  match s with
  | '0' :: _ :: _ => true
  | _ => false

/-- A plain integer scalar for a Go `int`: decimal digits without a leading
zero, with an optional minus sign, below `2 ^ 63`. -/
def intScalar (s : List Char) : Option Int :=
  match s with
  | [] => none
  | '-' :: rest =>
    if rest = [] ∨ leadingZero rest then none
    else
      match digitsValue 0 rest with
      | some n => if n < 9223372036854775808 then some (-(n : Int)) else none
      | none => none
  | _ =>
    if leadingZero s then none
    else
      match digitsValue 0 s with
      | some n => if n < 9223372036854775808 then some (n : Int) else none
      | none => none

/-- The least shift `s`, from `s` on and within `fuel` steps, for which
`m * 2 ^ s / d` has reached `2 ^ 52`. -/
def findShift (m d : Nat) : Nat → Nat → Option Nat
  | 0, _ => none
  | fuel + 1, s =>
    if 4503599627370496 ≤ m * 2 ^ s / d then some s else findShift m d fuel (s + 1)

/-- The float64 nearest to `m / 10 ^ k` (ties to even), as `strconv.ParseFloat`
gives it, for a value below `2 ^ 53` that is zero or not below the least normal
number. -/
def roundDecimal (m k : Nat) : Option Float64 :=
  if m = 0 then some Float64.zero
  else if 9007199254740992 ≤ m / 10 ^ k then none
  else
    match findShift m (10 ^ k) 1075 0 with
    | none => none
    | some s =>
      let q := m * 2 ^ s / 10 ^ k
      let r := m * 2 ^ s % 10 ^ k
      let q := if 10 ^ k < 2 * r ∨ (2 * r = 10 ^ k ∧ q % 2 = 1) then q + 1 else q
      let e := if q = 9007199254740992 then 1076 - s else 1075 - s
      let q := if q = 9007199254740992 then 4503599627370496 else q
      if h : e < 2048 ∧ q - 4503599627370496 < 4503599627370496 then
        some ⟨false, ⟨e, h.1⟩, ⟨q - 4503599627370496, h.2⟩⟩
      else none

/-- A plain non-negative decimal scalar (`digits` or `digits.digits`, no
leading zero before another digit) as a float64. -/
def floatScalar (s : List Char) : Option Float64 :=
  let whole := s.takeWhile (fun c => c ≠ '.')
  let frac := (s.dropWhile (fun c => c ≠ '.')).drop 1
  if whole = [] ∨ leadingZero whole then none
  else
    match digitsValue 0 (whole ++ frac) with
    | none => none
    | some m => roundDecimal m frac.length

/-- What has been read of a document so far: the key, the actions completed
(last first), the action being read, and the lines (last first) of the block
scalar being read for its prompt. -/
structure DecodeState where
  apiKey : String
  actions : List PostAction
  current : Option PostAction
  block : Option (List (List Char))
deriving DecidableEq

/-- The zero value of `PostAction`. -/
def PostAction.zero : PostAction :=
  ⟨"", "", "", "", "", "", Float64.zero, 0⟩

/-- The text of a literal block scalar (`|`, clip chomping) from its lines, given
last first: the trailing empty lines are dropped and every remaining line ends
in a newline. -/
def blockText (linesRev : List (List Char)) : String :=
  ⟨((linesRev.dropWhile (fun l => l = [])).reverse.map (fun l => l ++ ['\n'])).flatten⟩

/-- The state with the block scalar being read, if any, stored as the prompt of
the current action. -/
def DecodeState.closeBlock (st : DecodeState) : DecodeState :=
  match st.block, st.current with
  | some ls, some a => { st with block := none, current := some { a with Prompt := blockText ls } }
  | some _, none => { st with block := none }
  | none, _ => st

/-- The state with the current action, if any, added to the completed ones. -/
def DecodeState.closeAction (st : DecodeState) : DecodeState :=
  match st.current with
  | some a => { st with actions := a :: st.actions, current := none }
  | none => st

/-- The field `name: value` of the line of an action (after its four-space
indent) stored into the action being read. -/
def decodeField (st : DecodeState) (a : PostAction) (line : List Char) : Option DecodeState :=
  match dropLiteral "name: ".data line with
  | some v => (quotedScalar v).map (fun x => { st with current := some { a with Name := x } })
  | none =>
  match dropLiteral "description: ".data line with
  | some v =>
    (quotedScalar v).map (fun x => { st with current := some { a with Description := x } })
  | none =>
  match dropLiteral "type: ".data line with
  | some v => (quotedScalar v).map (fun x => { st with current := some { a with Type_ := x } })
  | none =>
  match dropLiteral "model: ".data line with
  | some v => (quotedScalar v).map (fun x => { st with current := some { a with Model := x } })
  | none =>
  match dropLiteral "temperature: ".data line with
  | some v =>
    (floatScalar v).map (fun x => { st with current := some { a with Temperature := x } })
  | none =>
  match dropLiteral "max_tokens: ".data line with
  | some v => (intScalar v).map (fun x => { st with current := some { a with MaxTokens := x } })
  | none =>
  match dropLiteral "prompt: ".data line with
  | some v =>
    if v = ['|'] then some { st with block := some [] }
    else (quotedScalar v).map (fun x => { st with current := some { a with Prompt := x } })
  | none => none

/-- One line outside a block scalar: blank lines and comments are skipped, the
key, the start of the list, the start of an action (`- id:`) and the fields of
an action are stored; any other line is outside the model. -/
def decodePlainLine (st : DecodeState) (line : List Char) : Option DecodeState :=
  let body := line.dropWhile (fun c => c = ' ')
  if body = [] then some st
  else if body.head? = some '#' then some st
  else
    match dropLiteral "openai_api_key: ".data line with
    | some v => (quotedScalar v).map (fun x => { st with apiKey := x })
    | none =>
    if line = "post_actions:".data then some st
    else
      match dropLiteral "  - id: ".data line with
      | some v =>
        (quotedScalar v).map
          (fun x => { st.closeAction with current := some { PostAction.zero with ID := x } })
      | none =>
        match dropLiteral "    ".data line, st.current with
        | some field, some a => decodeField st a field
        | _, _ => none

/-- One line of the document. Inside a block scalar a line indented by six
spaces gives a line of the block (the first one that is not empty must not
start with a further space, which would set a deeper indentation), a line of
spaces only gives an empty line, and any other line ends the block. -/
def decodeLine (st : DecodeState) (line : List Char) : Option DecodeState :=
  match st.block with
  | some ls =>
    match dropLiteral "      ".data line with
    | some content =>
      if ls.all (fun l => l = []) ∧ content.head? = some ' ' then none
      else some { st with block := some (content :: ls) }
    | none =>
      if line.dropWhile (fun c => c = ' ') = [] then some { st with block := some ([] :: ls) }
      else decodePlainLine st.closeBlock line
  | none => decodePlainLine st line

/-- All the lines of the document, in order. -/
def decodeLines : DecodeState → List (List Char) → Option DecodeState
  | st, [] => some st
  | st, line :: rest =>
    match decodeLine st line with
    | some st => decodeLines st rest
    | none => none

/-- The Config a document in the layout of the configuration file decodes to,
starting from the zero `Config`. -/
def decodeConfig (text : String) : Option Config :=
  match decodeLines ⟨"", [], none, none⟩ (splitLines text.data) with
  | some st => some ⟨st.closeBlock.closeAction.apiKey, st.closeBlock.closeAction.actions.reverse⟩
  | none => none

/-- Go `yaml.Unmarshal(data, &config)` on a zero `Config`, for the documents
`decodeConfig` reads; the others are reported as an error. -/
def yamlUnmarshal (text : String) : Except GoError Config :=
  match decodeConfig text with
  | some config => .ok config
  | none => .error (.external "yaml: unmarshal errors")

/-- The state with more completed actions below the ones it has. -/
def DecodeState.push (st : DecodeState) (acc : List PostAction) : DecodeState :=
  { st with actions := st.actions ++ acc }

/-- A line of text: it ends in a newline and has no other. -/
def IsLine (s : String) : Prop :=
  s.data.getLast? = some '\n' ∧ '\n' ∉ s.data.dropLast

instance (s : String) : Decidable (IsLine s) := by
  unfold IsLine; infer_instance

/-- One more line, given with its newline, read into a state. -/
def feedLine (st : Option DecodeState) (s : String) : Option DecodeState :=
  match st with
  | some st => decodeLine st s.data.dropLast
  | none => none

/-! ## createDefaultConfig and storeAPIKey -/

/-- The files of the machine: the content of each path that exists. -/
abbrev Files := String → Option String

/-- The state of `files` after a successful `os.WriteFile(path, data, 0644)`. -/
def Files.write (files : Files) (path data : String) : Files :=
  fun p => if p = path then some data else files p

/-- Go `os.ReadFile` on `files`: it fails on a path that does not exist. -/
def Files.read (files : Files) (path : String) : Except GoError String :=
  match files path with
  | some data => .ok data
  | none => .error (.external "open: no such file or directory")

/-- The library calls of `createDefaultConfig` and `storeAPIKey` whose result
does not follow from the files: `os.UserHomeDir`, `filepath.Join`,
`os.MkdirAll`, the error (if any) of `os.WriteFile` on a path, `yaml.Unmarshal`
into a zero `Config` and `yaml.Marshal` of a `Config`. -/
structure Sys where
  UserHomeDir : Except GoError String
  Join : List String → String
  MkdirAll : String → Option GoError
  WriteErr : String → Option GoError
  Unmarshal : String → Except GoError Config
  Marshal : Config → Except GoError String

/-- The outcome of a function that returns an `error` and may write files and
print. -/
structure FileResult where
  err : Option GoError
  files : Files
  stdout : List Printed

/-- One `fmt.Println(s)` call on standard output. -/
def println (s : String) : Printed := ⟨"%v\n", [.str s]⟩

/-- Go `createDefaultConfig`. -/
def createDefaultConfig (sys : Sys) (files : Files) : FileResult :=
  match sys.UserHomeDir with
  | .error err => ⟨some (.wrap "failed to get home directory: %w" err), files, []⟩
  | .ok homeDir =>
    let configDir := sys.Join [homeDir, ".goscribe"]
    let configFile := sys.Join [configDir, "config.yml"]
    match sys.MkdirAll configDir with
    | some err => ⟨some (.wrap "failed to create config directory: %w" err), files, []⟩
    | none =>
      let defaultConfig := getDefaultConfigContent
      match sys.WriteErr configFile with
      | some err => ⟨some (.wrap "failed to write config file: %w" err), files, []⟩
      | none =>
        ⟨none, files.write configFile defaultConfig,
          [⟨"✓ Created default config file at: %s\n", [.str configFile]⟩,
           println "\nYou can now:",
           println "  1. Edit the config file to customize your actions",
           ⟨"  2. Use: goscribe -list-actions to see all available actions\n", []⟩,
           ⟨"  3. Use: goscribe -action openai-meeting-summary audio.mp3\n", []⟩]⟩

/-- Go `storeAPIKey`. -/
def storeAPIKey (sys : Sys) (files : Files) (apiKey : String) : FileResult :=
  match sys.UserHomeDir with
  | .error err => ⟨some (.wrap "failed to get home directory: %w" err), files, []⟩
  | .ok homeDir =>
    let configDir := sys.Join [homeDir, ".goscribe"]
    let configFile := sys.Join [configDir, "config.yml"]
    let created : FileResult :=
      if files configFile = none then
        let r := createDefaultConfig sys files
        ⟨r.err, r.files, println "Config file not found. Creating default config..." :: r.stdout⟩
      else ⟨none, files, []⟩
    match created.err with
    | some err => ⟨some (.wrap "failed to create default config: %w" err), created.files,
        created.stdout⟩
    | none =>
      match created.files.read configFile with
      | .error err => ⟨some (.wrap "failed to read config file: %w" err), created.files,
          created.stdout⟩
      | .ok data =>
        match sys.Unmarshal data with
        | .error err => ⟨some (.wrap "failed to parse config file: %w" err), created.files,
            created.stdout⟩
        | .ok config =>
          let config := { config with OpenAIAPIKey := apiKey }
          match sys.Marshal config with
          | .error err => ⟨some (.wrap "failed to marshal config: %w" err), created.files,
              created.stdout⟩
          | .ok updatedData =>
            match sys.WriteErr configFile with
            | some err => ⟨some (.wrap "failed to write config file: %w" err), created.files,
                created.stdout⟩
            | none =>
              ⟨none, created.files.write configFile updatedData,
                created.stdout ++
                  [⟨"✓ API key stored successfully in: %s\n", [.str configFile]⟩,
                   println "\nYou can now use goscribe without the -k flag:",
                   println "  goscribe audio.mp3",
                   println "  goscribe -action openai-meeting-summary meeting.mp3"]⟩

/-- The `Env` of `loadConfigActions` on the machine with the files `files`. -/
def Sys.toEnv (sys : Sys) (files : Files) : Env :=
  ⟨files.read, sys.Unmarshal⟩

/-! ## processWithOpenAI -/

/-- Go `Message`. -/
structure Message where
  Role : String
  Content : String
deriving DecidableEq, Repr

/-- Go `ChatCompletionRequest`. -/
structure ChatCompletionRequest where
  Model : String
  Messages : List Message
  Temperature : Float64
  MaxTokens : Int
deriving DecidableEq, Repr

/-- Go `ChatCompletionResponse`: each element of `Choices` is a struct whose only
field is `Message`. -/
structure ChatCompletionResponse where
  Choices : List Message
deriving DecidableEq, Repr

/-- The value of one member of the JSON object a `ChatCompletionRequest` is
encoded to. -/
inductive JSONField where
  | string (s : String)
  | number (x : Float64)
  | integer (n : Int)
  | messages (ms : List Message)
deriving DecidableEq, Repr

/-- Go `json.Marshal` on a `ChatCompletionRequest`, following the struct tags of
the source: the members `model` and `messages` are always written, and
`temperature` and `max_tokens`, tagged `omitempty`, are left out when the field
is zero (`== 0`). A NaN or infinite float is an unsupported value for
`encoding/json` and makes the call fail. -/
def marshalRequest (r : ChatCompletionRequest) : Except GoError (List (String × JSONField)) :=
  let maxTokens : List (String × JSONField) :=
    if r.MaxTokens = 0 then [] else [("max_tokens", .integer r.MaxTokens)]
  if r.Temperature.eq Float64.zero then
    .ok ([("model", .string r.Model), ("messages", .messages r.Messages)] ++ maxTokens)
  else if r.Temperature.exponent.val = 2047 then
    .error (.external "json: unsupported value")
  else
    .ok ([("model", .string r.Model), ("messages", .messages r.Messages)] ++
      [("temperature", .number r.Temperature)] ++ maxTokens)

/-- A request as `http.NewRequest` and `req.Header.Set` build it. -/
structure HTTPRequest where
  Method : String
  URL : String
  Body : List (String × JSONField)
  Header : List (String × String)
deriving DecidableEq, Repr

/-- A response of `client.Do`: its status code and the outcome of
`io.ReadAll(resp.Body)`. -/
structure HTTPResponse where
  StatusCode : Int
  Body : Except GoError String

/-- The library calls of `processWithOpenAI` that leave the process:
`http.NewRequest` (its error, if any), `client.Do`, and `json.Unmarshal` into a
zero `ChatCompletionResponse`. -/
structure Net where
  NewRequestErr : String → String → Option GoError
  Do : HTTPRequest → Except GoError HTTPResponse
  UnmarshalChat : String → Except GoError ChatCompletionResponse

/-- The composite literal `reqBody` of `processWithOpenAI`. The
`fmt.Sprintf(basePrompt, transcript)` call has one `%s` verb, which is replaced
by the transcript. -/
def requestBody (transcript : String) (action : PostAction) : ChatCompletionRequest :=
  let fullPrompt := action.Prompt ++ "\n\n" ++
    ("You are a helpful assistant that processes transcribed text according to user instructions.\n\nTranscript:\n" ++
      transcript ++
      "\n\nPlease process this transcript according to the instructions above.")
  { Model := action.Model,
    Messages := [{ Role := "user", Content := fullPrompt }],
    Temperature := action.Temperature,
    MaxTokens := action.MaxTokens }

/-- The format string `basePrompt` of `processWithOpenAI`. -/
def basePrompt : String :=
  "You are a helpful assistant that processes transcribed text according to user instructions.\n\nTranscript:\n%s\n\nPlease process this transcript according to the instructions above."

/-- Go `fmt.Sprintf(format, args...)` on the characters of a format whose verbs
are `%s` and `%%`, with string arguments: the characters of the format are
copied, a `%s` is replaced by the next argument as it is, and a `%s` without
an argument left is replaced by `%!s(MISSING)`. The arguments are never
scanned for verbs. -/
def sprintf : List Char → List String → List Char
  | [], _ => []
  | '%' :: 's' :: rest, arg :: args => arg.data ++ sprintf rest args
  | '%' :: 's' :: rest, [] => "%!s(MISSING)".data ++ sprintf rest []
  | '%' :: '%' :: rest, args => '%' :: sprintf rest args
  | c :: rest, args => c :: sprintf rest args

/-- The text before the transcript in the message of the completion request. -/
def promptPreamble : String :=
  "You are a helpful assistant that processes transcribed text according to user instructions.\n\nTranscript:\n"

/-- The text after the transcript in the message of the completion request. -/
def promptClosing : String :=
  "\n\nPlease process this transcript according to the instructions above."

/-- Go `processWithOpenAI`. -/
def processWithOpenAI (net : Net) (transcript : String) (action : PostAction)
    (apiKey : String) : Except GoError String :=
  let reqBody := requestBody transcript action
  match marshalRequest reqBody with
  | .error err => .error (.wrap "failed to marshal request: %w" err)
  | .ok jsonData =>
    match net.NewRequestErr "POST" "https://api.openai.com/v1/chat/completions" with
    | some err => .error (.wrap "failed to create request: %w" err)
    | none =>
      let req : HTTPRequest :=
        { Method := "POST", URL := "https://api.openai.com/v1/chat/completions",
          Body := jsonData,
          Header := [("Authorization", "Bearer " ++ apiKey),
                     ("Content-Type", "application/json")] }
      match net.Do req with
      | .error err => .error (.wrap "failed to send request: %w" err)
      | .ok resp =>
        match resp.Body with
        | .error err => .error (.wrap "failed to read response: %w" err)
        | .ok respBody =>
          if resp.StatusCode ≠ 200 then
            .error (.errorf "API request failed with status %d: %s"
              [.int resp.StatusCode, .str respBody])
          else
            match net.UnmarshalChat respBody with
            | .error err => .error (.wrap "failed to parse response: %w" err)
            | .ok chatResp =>
              match chatResp.Choices with
              | [] => .error (.errorf "no response from API" [])
              | choice :: _ => .ok choice.Content

/-! ## main, from the loaded configuration to the summary -/

/-- The loop of Go `filepath.Ext`, run on the reversed path: it walks back from
the last character, stops at a path separator, and at the first dot returns
the dot with what was walked over. -/
def extLoop : List Char → List Char → List Char
  | [], _ => []
  | c :: rest, acc =>
    if c = '/' then [] else if c = '.' then '.' :: acc else extLoop rest (c :: acc)

/-- Go `filepath.Ext` (with `/` as the path separator). The dot and the
separator are single bytes, so that working on characters is working on
bytes. -/
def filepathExt (path : String) : String :=
  ⟨extLoop path.data.reverse []⟩

/-- Go `strings.TrimSuffix`. -/
def trimSuffix (s suffix : String) : String :=
  if suffix.data.isSuffixOf s.data then ⟨s.data.take (s.data.length - suffix.data.length)⟩
  else s

/-- Go `strings.Repeat(s, 70)` for a one-character `s`. -/
def repeat70 (c : Char) : String := ⟨List.replicate 70 c⟩

/-- The command-line flags `main` reads after the configuration is loaded, and
the remaining arguments (`flag.Args()`). -/
structure Flags where
  apiKey : String
  output : String
  listActions : Bool
  postAction : String
  transcriptFile : String
  args : List String
deriving DecidableEq, Repr

/-- What `main` calls outside itself after the configuration is loaded:
whether `os.Stat` finds a path, `os.ReadFile`, the error (if any) of
`os.WriteFile` on a path, the result of `transcribeAudio` (a function of the
repository whose body is a sequence of library calls) for an audio path and a
key, and the network of `processWithOpenAI`. -/
structure RunEnv where
  Exists : String → Bool
  ReadFile : String → Except GoError String
  WriteErr : String → Option GoError
  transcribeAudio : String → String → Except GoError String
  net : Net

/-- One print call of `main` on standard output: a `fmt.Printf` or
`fmt.Println` of strings and numbers, or a `fmt.Printf(format, err)` that
prints an error with `%v`. -/
inductive Output where
  | printf (p : Printed)
  | printErr (format : String) (err : GoError)
deriving DecidableEq, Repr

/-- The outcome of a run of `main`: the exit status (`1` for `os.Exit(1)`, `0`
for a normal return), what was printed and the `os.WriteFile` calls that
succeeded, as path and content, in order. -/
structure RunResult where
  exitCode : Nat
  stdout : List Output
  writes : List (String × String)
deriving DecidableEq, Repr

/-- The action a pointer returned by `findAction` refers to. -/
def derefAction (postActions : List PostAction) (p : Option Nat) : Option PostAction :=
  p.bind (fun i => postActions[i]?)

/-- The key `main` works with after lines 161-165: the key of the config file when
the `-k` flag has its default value and the config key is not empty. -/
def effectiveAPIKey (apiKey configAPIKey : String) : String :=
  if apiKey = "XXXX" ∧ configAPIKey ≠ "" then configAPIKey else apiKey

/-- The name `main` computes for the post-processed output (lines 272-284 and
308-317). -/
def processedFilename (transcriptFile audioPath : String) (action : PostAction) : String :=
  if transcriptFile ≠ "" then
    let ext := filepathExt transcriptFile
    let baseName := trimSuffix transcriptFile ext
    baseName ++ "-" ++ action.ID ++ ".txt"
  else
    let ext := filepathExt audioPath
    let baseName := trimSuffix audioPath ext
    baseName ++ "-" ++ action.ID ++ ".txt"

/-- The transcript and the names `main` has after lines 181-254. -/
structure Acquired where
  transcription : String
  audioPath : String
  transcriptFilename : String
  stdout : List Output
  writes : List (String × String)

/-- Lines 181-254 of `main`: the transcript is read from the transcript file, or
obtained from the audio file and saved. An error result is what was printed
before `os.Exit(1)`. -/
def acquireTranscript (env : RunEnv) (flags : Flags) (apiKey : String) :
    Except (List Output) Acquired :=
  if flags.transcriptFile ≠ "" then
    if flags.postAction = "" then
      .error [.printf (println "Error: -action is required when using -transcript")]
    else if !env.Exists flags.transcriptFile then
      .error [.printf ⟨"Error: Transcript file '%s' not found.\n", [.str flags.transcriptFile]⟩]
    else
      match env.ReadFile flags.transcriptFile with
      | .error err => .error [.printErr "Error reading transcript file: %v\n" err]
      | .ok data =>
        .ok ⟨data, "", flags.transcriptFile,
          [.printf ⟨"Loaded transcript from %s\n", [.str flags.transcriptFile]⟩], []⟩
  else
    match flags.args with
    | [] =>
      .error [.printf (println "Error: Audio file path is required"),
        .printf (println "Usage: goscribe [options] <audio_path>"),
        .printf (println "   or: goscribe -transcript <transcript_file> -action <action_id>")]
    | audioPath :: _ =>
      if !env.Exists audioPath then
        .error [.printf ⟨"Error: Audio file '%s' not found.\n", [.str audioPath]⟩]
      else
        let outputFilename := flags.output
        let transcriptFilename :=
          if outputFilename = "" then
            let ext := filepathExt audioPath
            let baseName := trimSuffix audioPath ext
            baseName ++ "-transcript.txt"
          else outputFilename
        match env.transcribeAudio audioPath apiKey with
        | .error err =>
          .error [.printf (println "Transcribing audio..."), .printErr "Error: %v\n" err]
        | .ok transcription =>
          match env.WriteErr transcriptFilename with
          | some err =>
            .error [.printf (println "Transcribing audio..."),
              .printErr "Error writing transcript file: %v\n" err]
          | none =>
            .ok ⟨transcription, audioPath, transcriptFilename,
              [.printf (println "Transcribing audio..."),
               .printf ⟨"Raw transcript saved to %s\n", [.str transcriptFilename]⟩],
              [(transcriptFilename, transcription)]⟩

/-- Lines 256-294 of `main`: the requested action is looked up and applied. An
error result is what was printed before `os.Exit(1)`; otherwise the result is
what was printed and the file written. -/
def postProcess (env : RunEnv) (postActions : List PostAction) (flags : Flags)
    (apiKey transcription audioPath : String) :
    Except (List Output) (List Output × List (String × String)) :=
  if flags.postAction ≠ "" then
    match derefAction postActions (findAction postActions flags.postAction) with
    | none =>
      .error [.printf ⟨"Error: Unknown action '%s'. Use -list-actions to see available options.\n",
        [.str flags.postAction]⟩]
    | some action =>
      let applying : Output := .printf ⟨"Applying post-processing: %s...\n", [.str action.Name]⟩
      match processWithOpenAI env.net transcription action apiKey with
      | .error err =>
        .ok ([applying, .printErr "Warning: Post-processing failed: %v\n" err] ++
          (if flags.transcriptFile = "" then
            [.printf (println "Only raw transcript was saved.")] else []), [])
      | .ok processed =>
        let processedFilename := processedFilename flags.transcriptFile audioPath action
        match env.WriteErr processedFilename with
        | some err => .ok ([applying, .printErr "Error writing processed file: %v\n" err], [])
        | none =>
          .ok ([applying,
            .printf ⟨"Post-processed output saved to %s\n", [.str processedFilename]⟩,
            .printf (println "Post-processing completed successfully!")],
            [(processedFilename, processed)])
  else .ok ([], [])

/-- Lines 296-324 of `main`: the confirmation summary. -/
def summary (postActions : List PostAction) (flags : Flags)
    (apiKey audioPath transcriptFilename : String) : List Output :=
  [.printf (println (repeat70 '=')), .printf ⟨"Summary:\n", []⟩] ++
  (if flags.transcriptFile ≠ "" then
    [.printf ⟨"  Transcript: %s\n", [.str transcriptFilename]⟩]
   else
    [.printf ⟨"  Audio file: %s\n", [.str audioPath]⟩,
     .printf ⟨"  Transcript: %s\n", [.str transcriptFilename]⟩]) ++
  (if flags.postAction ≠ "" then
    match derefAction postActions (findAction postActions flags.postAction) with
    | some action =>
      [.printf ⟨"  Processed:  %s (%s)\n",
        [.str (processedFilename flags.transcriptFile audioPath action), .str action.Name]⟩]
    | none => []
   else []) ++
  (if apiKey ≠ "XXXX" then [.printf ⟨"  API key:    %s\n", [.str apiKey]⟩] else []) ++
  [.printf (println (repeat70 '='))]

/-- Lines 167-178 of `main`: the listing printed for `-list-actions`. -/
def listing (postActions : List PostAction) : List Output :=
  [.printf (println "Available post-processing actions:"), .printf ⟨"\n", []⟩] ++
  postActions.flatMap (fun action =>
    [.printf ⟨"ID: %s\n", [.str action.ID]⟩,
     .printf ⟨"Name: %s\n", [.str action.Name]⟩,
     .printf ⟨"Description: %s\n", [.str action.Description]⟩,
     .printf ⟨"Model: %s\n", [.str action.Model]⟩,
     .printf (println (repeat70 '-'))])

/-- Go `main` from line 161, after `loadConfigActions` has returned the key
`configAPIKey` and set the registry `postActions`, to the end of the summary
(line 324). The preview of the transcript that is printed after the summary, a
byte slice of the text, is not part of the result. -/
def mainRun (env : RunEnv) (postActions : List PostAction) (flags : Flags)
    (configAPIKey : String) : RunResult :=
  let apiKey := effectiveAPIKey flags.apiKey configAPIKey
  let usingConfigKey : List Output :=
    if flags.apiKey = "XXXX" ∧ configAPIKey ≠ "" then
      [.printf (println "Using API key from config file")] else []
  if flags.listActions then
    ⟨0, usingConfigKey ++ listing postActions, []⟩
  else
    match acquireTranscript env flags apiKey with
    | .error out => ⟨1, usingConfigKey ++ out, []⟩
    | .ok acq =>
      match postProcess env postActions flags apiKey acq.transcription acq.audioPath with
      | .error out => ⟨1, usingConfigKey ++ acq.stdout ++ out, acq.writes⟩
      | .ok (out, writes) =>
        ⟨0, usingConfigKey ++ acq.stdout ++ out ++
            summary postActions flags apiKey acq.audioPath acq.transcriptFilename,
          acq.writes ++ writes⟩

/-- Go `strings.Split(s, ",")` on the characters of `s`. -/
def splitComma : List Char → List (List Char)
  | [] => [[]]
  | c :: rest =>
    match splitComma rest with
    | [] => [[c]]
    | piece :: pieces => if c = ',' then [] :: piece :: pieces else (c :: piece) :: pieces

/-- Go `unicode.IsSpace`. -/
def isSpace (c : Char) : Bool :=
  c = ' ' || c = '\t' || c = '\n' || c.val = 11 || c.val = 12 || c = '\r' ||
    c.val = 0x85 || c.val = 0xA0 || c.val = 0x1680 || (0x2000 ≤ c.val && c.val ≤ 0x200A) ||
    c.val = 0x2028 || c.val = 0x2029 || c.val = 0x202F || c.val = 0x205F || c.val = 0x3000

/-- Go `strings.TrimSpace` on the characters of a string. -/
def trimSpace (s : List Char) : List Char :=
  ((s.dropWhile isSpace).reverse.dropWhile isSpace).reverse

/-- The parsing of the `-action` argument that `TestMultipleActions` performs
("split and trim like in main"): split on commas, trim every piece. -/
def splitActionIDs (input : String) : List String :=
  (splitComma input.data).map (fun piece => ⟨trimSpace piece⟩)

/-- The action ids of the `POPULAR ACTIONS` block of the usage text of `main`
(lines 100-105). -/
def usagePopularActions : List String :=
  ["openai-meeting-summary", "openai-action-items", "openai-tech-meeting",
   "openai-one-on-one", "openai-executive-brief"]

/-! ## Test fixtures -/

/-- The action of the test case `Valid config` of `TestValidateConfig`. -/
def testAction : PostAction :=
  { ID := "test-action", Name := "Test Action", Description := "", Type_ := "openai",
    Prompt := "Test prompt", Model := "gpt-3.5-turbo", Temperature := Float64.half,
    MaxTokens := 1000 }

/-- The configuration of the test case `Invalid type` of `TestValidateConfig`. -/
def invalidTypeConfig : Config :=
  ⟨"", [{ testAction with Type_ := "invalid-type" }]⟩

/-- The test action with a NaN temperature (YAML `temperature: .nan`). -/
def nanConfig : Config :=
  ⟨"", [{ testAction with Temperature := Float64.nan }]⟩

/-- A Config whose second action has an empty name and an illegal type, and
whose third action has an empty id. -/
def secondActionBadConfig : Config :=
  ⟨"", [testAction,
        { testAction with ID := "second", Name := "", Type_ := "other" },
        { testAction with ID := "" }]⟩

/-- Three valid actions with the ids `test-action`, `second` and `third`. -/
def threeActionsConfig : Config :=
  ⟨"", [testAction, { testAction with ID := "second" }, { testAction with ID := "third" }]⟩

/-- An environment in which every path reads and parses to a Config with the
key `k` and an empty action list (`post_actions: []`). -/
def emptyActionsEnv : Env :=
  ⟨fun _ => .ok "openai_api_key: k\npost_actions: []\n", fun _ => .ok ⟨"k", []⟩⟩

/-- Two actions with the id `dup`, the first of them without a name. -/
def dupNamelessConfig : Config :=
  ⟨"", [{ testAction with ID := "dup", Name := "" }, { testAction with ID := "dup" }]⟩

/-- The configuration of the test case `Duplicate IDs` of `TestValidateConfig`,
between two other valid actions. -/
def duplicateIDsConfig : Config :=
  ⟨"", [{ testAction with ID := "first" }, { testAction with Name := "Test Action 1" },
        { testAction with ID := "middle" }, { testAction with Name := "Test Action 2" }]⟩

/-- Three valid actions with the temperatures 0, 2 and 2.5. -/
def temperaturesConfig : Config :=
  ⟨"", [{ testAction with ID := "zero", Temperature := Float64.zero },
        { testAction with ID := "two", Temperature := Float64.two },
        { testAction with ID := "hot", Temperature := Float64.twoPointFive }]⟩

/-- The test action under the id `custom`, with a model outside the allow-list. -/
def customModelAction : PostAction :=
  { testAction with ID := "custom", Model := "my-own-model" }

/-- The text of a config file like the valid one of `TestLoadConfigActions`, with
the temperature 0.5. -/
def testConfigText : String :=
  "openai_api_key: \"test-api-key\"\n\npost_actions:\n  - id: \"test-action\"\n" ++
  "    name: \"Test Action\"\n    description: \"Test description\"\n" ++
  "    type: \"openai\"\n    prompt: \"Test prompt\"\n    model: \"gpt-3.5-turbo\"\n" ++
  "    temperature: 0.5\n    max_tokens: 1000\n"

/-- The Config the text `testConfigText` stands for. -/
def testConfig : Config :=
  ⟨"test-api-key", [{ testAction with Description := "Test description" }]⟩

/-- An environment with one file, `test-config.yml`, holding `testConfigText`,
and in which that text parses to `testConfig`. -/
def testEnv : Env :=
  ⟨fun path =>
      if path = "test-config.yml" then .ok testConfigText
      else .error (.external "open: no such file or directory"),
   fun data =>
      if data = testConfigText then .ok testConfig
      else .error (.external "yaml: unmarshal errors")⟩

/-- The registry content set up by `TestFindAction`. -/
def testRegistry : List PostAction :=
  [{ testAction with ID := "test-action-1", Name := "Test Action 1" },
   { testAction with ID := "test-action-2", Name := "Test Action 2" },
   { testAction with ID := "test-action-3", Name := "Test Action 3" }]

/-- An environment with one file, `nan.yml`, that parses to `nanConfig`. -/
def nanEnv : Env :=
  ⟨fun path =>
      if path = "nan.yml" then .ok "post_actions: [ ... temperature: .nan ... ]"
      else .error (.external "open: no such file or directory"),
   fun _ => .ok nanConfig⟩

/-- An environment with the file `invalid-config.yml` of
`TestLoadConfigActionsInvalid`, which parses to the test action without its
prompt, and the file `broken.yml`, which does not parse. -/
def invalidEnv : Env :=
  ⟨fun path =>
      if path = "invalid-config.yml" then .ok "invalid"
      else if path = "broken.yml" then .ok "broken"
      else .error (.external "open: no such file or directory"),
   fun data =>
      if data = "invalid" then .ok ⟨"test-api-key", [{ testAction with Prompt := "" }]⟩
      else .error (.external "yaml: unmarshal errors")⟩

/-- The text that `storeSys` encodes `testConfig` with the key
`sk-test-api-key-12345` to. -/
def storedConfigText : String :=
  "openai_api_key: sk-test-api-key-12345\npost_actions:\n    - id: test-action\n" ++
  "      name: Test Action\n      description: Test description\n      type: openai\n" ++
  "      prompt: Test prompt\n      model: gpt-3.5-turbo\n      temperature: 0.5\n" ++
  "      max_tokens: 1000\n"

/-- A machine with the home directory `/home/user`, on which every write
succeeds, and whose YAML library decodes `testConfigText` and
`storedConfigText` and encodes `testConfig` with the key
`sk-test-api-key-12345`. -/
def storeSys : Sys :=
  { UserHomeDir := .ok "/home/user",
    Join := fun parts => "/".intercalate parts,
    MkdirAll := fun _ => none,
    WriteErr := fun _ => none,
    Unmarshal := fun data =>
      if data = testConfigText then .ok testConfig
      else if data = storedConfigText then
        .ok { testConfig with OpenAIAPIKey := "sk-test-api-key-12345" }
      else .error (.external "yaml: unmarshal errors"),
    Marshal := fun config =>
      if config = { testConfig with OpenAIAPIKey := "sk-test-api-key-12345" } then
        .ok storedConfigText
      else .error (.external "yaml: cannot marshal") }

/-- The files of a machine whose only file is the config file, holding
`testConfigText`. -/
def storeFiles : Files :=
  fun path => if path = "/home/user/.goscribe/config.yml" then some testConfigText else none

/-- The body of a completion response with one choice. -/
def oneChoiceBody : String :=
  "\x7b\"choices\":[\x7b\"message\":\x7b\"role\":\"assistant\",\"content\":\"Summary.\"\x7d\x7d]\x7d"

/-- A network that answers every request with the status `status` and the body
`oneChoiceBody`, which parses to one choice with the content `Summary.`. -/
def statusNet (status : Int) : Net :=
  { NewRequestErr := fun _ _ => none,
    Do := fun _ => .ok ⟨status, .ok oneChoiceBody⟩,
    UnmarshalChat := fun body =>
      if body = oneChoiceBody then .ok ⟨[⟨"assistant", "Summary."⟩]⟩
      else .error (.external "invalid character") }

/-- The test action with the temperature 0. -/
def zeroTemperatureAction : PostAction :=
  { testAction with Temperature := Float64.zero }

/-- A network on which every request fails to be sent. -/
def failingNet : Net :=
  { NewRequestErr := fun _ _ => none,
    Do := fun _ => .error (.external "dial tcp: connection refused"),
    UnmarshalChat := fun _ => .error (.external "unexpected end of JSON input") }

/-- A network that answers every request with the status 200 and a body that
parses to one choice with the content `Summary.`. -/
def answeringNet : Net :=
  { NewRequestErr := fun _ _ => none,
    Do := fun _ => .ok ⟨200, .ok "body"⟩,
    UnmarshalChat := fun _ => .ok ⟨[⟨"assistant", "Summary."⟩]⟩ }

/-- A machine with the audio file `meeting.mp3`, transcribed to `Hello.`, and the
transcript file `notes.txt`, holding `Hello again.`; every write succeeds. -/
def runEnv (net : Net) : RunEnv :=
  { Exists := fun path => path = "meeting.mp3" || path = "notes.txt",
    ReadFile := fun path =>
      if path = "notes.txt" then .ok "Hello again."
      else .error (.external "open: no such file or directory"),
    WriteErr := fun _ => none,
    transcribeAudio := fun path _ =>
      if path = "meeting.mp3" then .ok "Hello."
      else .error (.external "failed to open audio file"),
    net := net }

/-- A registry with the ids `action1`, `action2` and `action3`. -/
def numberedRegistry : List PostAction :=
  [{ testAction with ID := "action1" }, { testAction with ID := "action2" },
   { testAction with ID := "action3" }]

/-- The flags of `goscribe -k sk-key -action <action> meeting.mp3`. -/
def audioFlags (action : String) : Flags :=
  { apiKey := "sk-key", output := "", listActions := false, postAction := action,
    transcriptFile := "", args := ["meeting.mp3"] }

/-- A transcript with formatting characters in it. -/
def percentTranscript : String := "100% done, %s and %d left\n"

/-- A valid action with the id `transcript`. -/
def transcriptIDAction : PostAction :=
  { testAction with ID := "transcript", Name := "Transcript" }

/-- An environment whose file `config.yml` holds the text of
`getDefaultConfigContent`, and whose YAML library is `yamlUnmarshal`. -/
def defaultEnv : Env :=
  ⟨fun path =>
      if path = "config.yml" then .ok getDefaultConfigContent
      else .error (.external "open: no such file or directory"),
   yamlUnmarshal⟩

/-- The flags of `goscribe -action test-action-2 meeting.mp3`, without `-k`. -/
def defaultKeyFlags : Flags :=
  { apiKey := "XXXX", output := "", listActions := false, postAction := "test-action-2",
    transcriptFile := "", args := ["meeting.mp3"] }

/-- A Config whose first action has a NaN temperature and whose second action
has no name. -/
def nanThenNamelessConfig : Config :=
  ⟨"", [{ testAction with Temperature := Float64.nan },
        { testAction with ID := "second", Name := "" }]⟩

/-- A Config of two actions that are valid except that the temperature of the
second is NaN. -/
def nanSecondConfig : Config :=
  ⟨"", [testAction, { testAction with ID := "second", Temperature := Float64.nan }]⟩

/-- Two valid actions with the id `dup`, followed by an action without a name. -/
def dupThenNamelessConfig : Config :=
  ⟨"", [{ testAction with ID := "dup" }, { testAction with ID := "dup" },
        { testAction with ID := "later", Name := "" }]⟩

/-! ## Specification-side vocabulary -/

/-- The temperature lies in the closed interval `[0, 2]`: `0 <= t` and
`t <= 2` as float64 comparisons. -/
def Float64.inRange (t : Float64) : Prop :=
  Float64.le Float64.zero t = true ∧ Float64.le t Float64.two = true

instance (t : Float64) : Decidable t.inRange := by
  unfold Float64.inRange; infer_instance

/-- The temperature is below 0 or above 2, the test `validateConfig` makes. -/
def Float64.outOfRange (t : Float64) : Prop :=
  Float64.lt t Float64.zero = true ∨ Float64.gt t Float64.two = true

instance (t : Float64) : Decidable t.outOfRange := by
  unfold Float64.outOfRange; infer_instance

/-- The nine fatal rules (a)-(i) of the validator, in their fixed order. -/
inductive Rule where
  | emptyID | emptyName | emptyType | emptyPrompt | emptyModel
  | duplicateID | illegalType | temperatureRange | maxTokens
deriving DecidableEq, Repr

/-- Position of a rule in the fixed order (a)-(i). -/
def Rule.rank : Rule → Nat
  | .emptyID => 0 | .emptyName => 1 | .emptyType => 2 | .emptyPrompt => 3
  | .emptyModel => 4 | .duplicateID => 5 | .illegalType => 6
  | .temperatureRange => 7 | .maxTokens => 8

/-- Rule `r` of the specification is violated by action `a` when `earlier` are
the ids of the actions before it in the list. Rule (h) is worded `temperature`
outside `[0, 2]`: the temperature does not satisfy `0 <= t` and `t <= 2`. -/
def Rule.violated (r : Rule) (earlier : List String) (a : PostAction) : Prop :=
  match r with
  | .emptyID => a.ID = ""
  | .emptyName => a.Name = ""
  | .emptyType => a.Type_ = ""
  | .emptyPrompt => a.Prompt = ""
  | .emptyModel => a.Model = ""
  | .duplicateID => a.ID ∈ earlier
  | .illegalType => a.Type_ ≠ "openai"
  | .temperatureRange => ¬ a.Temperature.inRange
  | .maxTokens => a.MaxTokens ≤ 0

instance (r : Rule) (earlier : List String) (a : PostAction) :
    Decidable (r.violated earlier a) := by
  cases r <;> unfold Rule.violated <;> infer_instance

/-- The condition `validateConfig` tests for rule `r` on action `a`, when
`earlier` are the ids recorded before it: the conditions of the `if`s of the
source, which for rule (h) is `t < 0 || t > 2`. -/
def Rule.tested (r : Rule) (earlier : List String) (a : PostAction) : Prop :=
  match r with
  | .emptyID => a.ID = ""
  | .emptyName => a.Name = ""
  | .emptyType => a.Type_ = ""
  | .emptyPrompt => a.Prompt = ""
  | .emptyModel => a.Model = ""
  | .duplicateID => a.ID ∈ earlier
  | .illegalType => a.Type_ ≠ "openai"
  | .temperatureRange => a.Temperature.outOfRange
  | .maxTokens => a.MaxTokens ≤ 0

instance (r : Rule) (earlier : List String) (a : PostAction) :
    Decidable (r.tested earlier a) := by
  cases r <;> unfold Rule.tested <;> infer_instance

/-- The failure reason of rule `r` for the action `a` at index `i`. -/
def Rule.reason (r : Rule) (i : Nat) (a : PostAction) : GoError :=
  match r with
  | .emptyID => .errorf "action at index %d is missing 'id' field" [.int i]
  | .emptyName => .errorf "action '%s' is missing 'name' field" [.str a.ID]
  | .emptyType => .errorf "action '%s' is missing 'type' field" [.str a.ID]
  | .emptyPrompt => .errorf "action '%s' is missing 'prompt' field" [.str a.ID]
  | .emptyModel => .errorf "action '%s' is missing 'model' field" [.str a.ID]
  | .duplicateID => .errorf "duplicate action ID '%s' found" [.str a.ID]
  | .illegalType => .errorf "action '%s' has invalid type '%s' (valid: openai)"
      [.str a.ID, .str a.Type_]
  | .temperatureRange =>
      .errorf "action '%s' has invalid temperature %.2f (must be between 0 and 2)"
        [.str a.ID, .float a.Temperature]
  | .maxTokens => .errorf "action '%s' has invalid max_tokens %d (must be > 0)"
      [.str a.ID, .int a.MaxTokens]

/-- The checks one iteration of the loop of `validateConfig` makes on an
action, in the order of the source: the error it returns, if any. -/
def checkAction (i : Nat) (seenIDs : List String) (action : PostAction) : Option GoError :=
  if action.ID = "" then some (Rule.emptyID.reason i action)
  else if action.Name = "" then some (Rule.emptyName.reason i action)
  else if action.Type_ = "" then some (Rule.emptyType.reason i action)
  else if action.Prompt = "" then some (Rule.emptyPrompt.reason i action)
  else if action.Model = "" then some (Rule.emptyModel.reason i action)
  else if action.ID ∈ seenIDs then some (Rule.duplicateID.reason i action)
  else if action.Type_ ∉ validTypes then some (Rule.illegalType.reason i action)
  else if action.Temperature.lt Float64.zero || action.Temperature.gt Float64.two then
    some (Rule.temperatureRange.reason i action)
  else if action.MaxTokens ≤ 0 then some (Rule.maxTokens.reason i action)
  else none

/-- The warning one iteration prints for an action that passed the checks. -/
def modelWarning (action : PostAction) : List Printed :=
  if action.Type_ = "openai" ∧ action.Model ∉ validModels then
    [⟨"Warning: action '%s' uses model '%s' which may not be valid\n",
      [.str action.ID, .str action.Model]⟩]
  else []

/-- All the checks on one action that do not look at the other actions pass:
the required fields are non-empty, the type is the legal one, the
temperature is neither below 0 nor above 2 and `max_tokens` is positive. -/
def fieldsOK (a : PostAction) : Prop :=
  a.ID ≠ "" ∧ a.Name ≠ "" ∧ a.Type_ ≠ "" ∧ a.Prompt ≠ "" ∧ a.Model ≠ "" ∧
    a.Type_ = "openai" ∧ ¬ a.Temperature.outOfRange ∧ 0 < a.MaxTokens

instance (a : PostAction) : Decidable (fieldsOK a) := by
  unfold fieldsOK; infer_instance

/-- The actions `a` and `b` differ at most in their model strings, both of
which are non-empty. -/
def SameUpToModel (a b : PostAction) : Prop :=
  a.Model ≠ "" ∧ b.Model ≠ "" ∧ b = { a with Model := b.Model }

instance (a b : PostAction) : Decidable (SameUpToModel a b) := by
  unfold SameUpToModel; infer_instance

/-- The warning `validateConfig` prints for an action with an unknown model. -/
def warningFor (a : PostAction) : Printed :=
  ⟨"Warning: action '%s' uses model '%s' which may not be valid\n",
    [.str a.ID, .str a.Model]⟩

/-- The string `ext` is the extension of the path `p` as the specification words
it: the suffix of `p` that starts at the last dot of its final path element, or
the empty string when the final element has no dot (every dot of `p` is then
followed by a separator). -/
def IsExt (p ext : String) : Prop :=
  (∃ base rest, p.data = base ++ '.' :: rest ∧ ext.data = '.' :: rest ∧
    '.' ∉ rest ∧ '/' ∉ rest) ∨
  (ext = "" ∧ ∀ base rest, p.data = base ++ '.' :: rest → '/' ∈ rest)

/-- The registry invariant as `validateConfig` enforces it: the registry is not
empty, its ids are pairwise distinct, and every action passes the checks on its
own fields. -/
def RegistryOK (l : List PostAction) : Prop :=
  l ≠ [] ∧ l.Pairwise (fun a b => a.ID ≠ b.ID) ∧ ∀ a ∈ l, fieldsOK a

/-- The registry after a sequence of `loadConfigActions` calls, each with the
environment it runs in and its path. -/
def loadSequence : List PostAction → List (Env × String) → List PostAction
  | registry, [] => registry
  | registry, (env, path) :: rest =>
    loadSequence (loadConfigActions env registry path).postActions rest

/-! ## Lemmas on float64 comparisons -/

theorem Float64.not_outOfRange_of_inRange {t : Float64} (h : t.inRange) : ¬ t.outOfRange := by
  unfold Float64.inRange Float64.le at h
  unfold Float64.outOfRange Float64.lt Float64.gt
  simp only [Bool.and_eq_true, decide_eq_true_eq] at h ⊢
  rcases h with ⟨⟨_, h1⟩, ⟨_, h2⟩⟩
  rintro (⟨_, h3⟩ | ⟨_, h3⟩) <;> omega

theorem Float64.inRange_iff (t : Float64) :
    t.inRange ↔ t.isNaN = false ∧ ¬ t.outOfRange := by
  unfold Float64.inRange Float64.le Float64.outOfRange Float64.lt Float64.gt
  have hz : Float64.zero.isNaN = false := by decide
  have h2 : Float64.two.isNaN = false := by decide
  cases hn : t.isNaN <;> simp [hz, h2]

theorem Float64.outOfRange_iff_bool (t : Float64) :
    (t.lt Float64.zero || t.gt Float64.two) = true ↔ t.outOfRange := by
  unfold Float64.outOfRange; simp

/-! ## Lemmas on the validation loop -/

theorem validateActions_cons (i : Nat) (seenIDs : List String) (action : PostAction)
    (rest : List PostAction) :
    validateActions i seenIDs (action :: rest) =
      match checkAction i seenIDs action with
      | some e => (some e, [])
      | none =>
        ((validateActions (i + 1) (action.ID :: seenIDs) rest).1,
          modelWarning action ++ (validateActions (i + 1) (action.ID :: seenIDs) rest).2) := by
  rw [validateActions]
  unfold checkAction modelWarning
  by_cases h0 : action.ID = ""
  · rw [if_pos h0, if_pos h0]; rfl
  rw [if_neg h0, if_neg h0]
  by_cases h1 : action.Name = ""
  · rw [if_pos h1, if_pos h1]; rfl
  rw [if_neg h1, if_neg h1]
  by_cases h2 : action.Type_ = ""
  · rw [if_pos h2, if_pos h2]; rfl
  rw [if_neg h2, if_neg h2]
  by_cases h3 : action.Prompt = ""
  · rw [if_pos h3, if_pos h3]; rfl
  rw [if_neg h3, if_neg h3]
  by_cases h4 : action.Model = ""
  · rw [if_pos h4, if_pos h4]; rfl
  rw [if_neg h4, if_neg h4]
  by_cases h5 : action.ID ∈ seenIDs
  · rw [if_pos h5, if_pos h5]; rfl
  rw [if_neg h5, if_neg h5]
  by_cases h6 : action.Type_ ∉ validTypes
  · rw [if_pos h6, if_pos h6]; rfl
  rw [if_neg h6, if_neg h6]
  by_cases h7 : (action.Temperature.lt Float64.zero || action.Temperature.gt Float64.two) = true
  · rw [if_pos h7, if_pos h7]; rfl
  rw [if_neg h7, if_neg h7]
  by_cases h8 : action.MaxTokens ≤ 0
  · rw [if_pos h8, if_pos h8]; rfl
  rw [if_neg h8, if_neg h8]

/-! ## Lemmas on the checks of one action -/

theorem checkAction_eq_none_iff (i : Nat) (seen : List String) (a : PostAction) :
    checkAction i seen a = none ↔
      a.ID ≠ "" ∧ a.Name ≠ "" ∧ a.Type_ ≠ "" ∧ a.Prompt ≠ "" ∧ a.Model ≠ "" ∧ a.ID ∉ seen ∧
      a.Type_ = "openai" ∧ ¬ a.Temperature.outOfRange ∧ 0 < a.MaxTokens := by
  unfold checkAction
  rw [← Float64.outOfRange_iff_bool]
  split_ifs <;> simp_all [validTypes]

theorem Rule.rank_injective {r r' : Rule} (h : r.rank = r'.rank) : r = r' := by
  cases r <;> cases r' <;> simp [Rule.rank] at h <;> rfl

theorem checkAction_eq_some (i : Nat) (seen : List String) (a : PostAction) (e : GoError)
    (h : checkAction i seen a = some e) :
      ∃ r : Rule, r.tested seen a ∧ (∀ r' : Rule, r'.rank < r.rank → ¬ r'.tested seen a) ∧
        e = r.reason i a := by
  unfold checkAction at h
  split_ifs at h with h0 h1 h2 h3 h4 h5 h6 h7 h8
  · refine ⟨.emptyID, ?_, ?_, (Option.some.inj h).symm⟩
    · simpa [Rule.tested] using h0
    · intro r' hr
      cases r' <;> simp [Rule.rank] at hr
  · refine ⟨.emptyName, ?_, ?_, (Option.some.inj h).symm⟩
    · simpa [Rule.tested] using h1
    · intro r' hr
      cases r' <;> simp [Rule.rank] at hr
      simpa [Rule.tested] using h0
  · refine ⟨.emptyType, ?_, ?_, (Option.some.inj h).symm⟩
    · simpa [Rule.tested, validTypes, Float64.outOfRange] using h2
    · intro r' hr
      cases r' <;> simp [Rule.rank] at hr <;>
        simp_all [Rule.tested, validTypes, Float64.outOfRange]
  · refine ⟨.emptyPrompt, ?_, ?_, (Option.some.inj h).symm⟩
    · simpa [Rule.tested, validTypes, Float64.outOfRange] using h3
    · intro r' hr
      cases r' <;> simp [Rule.rank] at hr <;>
        simp_all [Rule.tested, validTypes, Float64.outOfRange]
  · refine ⟨.emptyModel, ?_, ?_, (Option.some.inj h).symm⟩
    · simpa [Rule.tested, validTypes, Float64.outOfRange] using h4
    · intro r' hr
      cases r' <;> simp [Rule.rank] at hr <;>
        simp_all [Rule.tested, validTypes, Float64.outOfRange]
  · refine ⟨.duplicateID, ?_, ?_, (Option.some.inj h).symm⟩
    · simpa [Rule.tested, validTypes, Float64.outOfRange] using h5
    · intro r' hr
      cases r' <;> simp [Rule.rank] at hr <;>
        simp_all [Rule.tested, validTypes, Float64.outOfRange]
  · refine ⟨.temperatureRange, ?_, ?_, (Option.some.inj h).symm⟩
    · simpa [Rule.tested, validTypes, Float64.outOfRange] using h7
    · intro r' hr
      cases r' <;> simp [Rule.rank] at hr <;>
        simp_all [Rule.tested, validTypes, Float64.outOfRange]
  · refine ⟨.maxTokens, ?_, ?_, (Option.some.inj h).symm⟩
    · simpa [Rule.tested, validTypes, Float64.outOfRange] using h8
    · intro r' hr
      cases r' <;> simp [Rule.rank] at hr <;>
        simp_all [Rule.tested, validTypes, Float64.outOfRange]
  · refine ⟨.illegalType, ?_, ?_, (Option.some.inj h).symm⟩
    · simpa [Rule.tested, validTypes, Float64.outOfRange] using h6
    · intro r' hr
      cases r' <;> simp [Rule.rank] at hr <;>
        simp_all [Rule.tested, validTypes, Float64.outOfRange]

/-! ## Lemmas on the whole loop -/

theorem checkAction_eq_none_iff_fieldsOK (i : Nat) (seen : List String) (a : PostAction) :
    checkAction i seen a = none ↔ fieldsOK a ∧ a.ID ∉ seen := by
  rw [checkAction_eq_none_iff, fieldsOK]; tauto

theorem validateActions_err_none_iff (i : Nat) (seen : List String) (l : List PostAction) :
    (validateActions i seen l).1 = none ↔
      (∀ a ∈ l, fieldsOK a) ∧ (l.map (·.ID)).Nodup ∧ (∀ a ∈ l, a.ID ∉ seen) := by
  induction l generalizing i seen with
  | nil => simp [validateActions]
  | cons a rest ih =>
    rw [validateActions_cons]
    cases hc : checkAction i seen a with
    | some e =>
      have hne : ¬ (fieldsOK a ∧ a.ID ∉ seen) := by
        rw [← checkAction_eq_none_iff_fieldsOK i, hc]; simp
      simp only [List.mem_cons, forall_eq_or_imp, List.map_cons, List.nodup_cons]
      constructor
      · intro h; cases h
      · rintro ⟨⟨h1, _⟩, _, h2, _⟩; exact absurd ⟨h1, h2⟩ hne
    | none =>
      obtain ⟨hf, hs⟩ := (checkAction_eq_none_iff_fieldsOK i seen a).1 hc
      simp only [ih, List.mem_cons, forall_eq_or_imp, List.map_cons, List.nodup_cons,
        List.mem_map, not_or, not_exists, not_and]
      constructor
      · rintro ⟨h1, h2, h3⟩
        exact ⟨⟨hf, h1⟩, ⟨fun x hx hxa => (h3 x hx).1 hxa, h2⟩, hs, fun x hx => (h3 x hx).2⟩
      · rintro ⟨⟨_, h1⟩, ⟨h2, h3⟩, _, h4⟩
        exact ⟨h1, h3, fun x hx => ⟨fun hxa => h2 x hx hxa, h4 x hx⟩⟩

theorem validateActions_err_some_iff (i : Nat) (seen : List String) (l : List PostAction)
    (e : GoError) :
    (validateActions i seen l).1 = some e ↔
      ∃ pre a post, l = pre ++ a :: post ∧ (validateActions i seen pre).1 = none ∧
        checkAction (i + pre.length) ((pre.map (·.ID)).reverse ++ seen) a = some e := by
  induction l generalizing i seen with
  | nil => simp [validateActions]
  | cons b rest ih =>
    rw [validateActions_cons]
    cases hc : checkAction i seen b with
    | some e' =>
      constructor
      · intro h
        exact ⟨[], b, rest, rfl, by simp [validateActions], by simpa [hc] using h⟩
      · rintro ⟨pre, a, post, hl, hpre, ha⟩
        cases pre with
        | nil =>
          simp only [List.nil_append, List.cons.injEq] at hl
          obtain ⟨rfl, rfl⟩ := hl
          simpa [hc] using ha
        | cons c pre' =>
          simp only [List.cons_append, List.cons.injEq] at hl
          obtain ⟨rfl, rfl⟩ := hl
          rw [validateActions_cons, hc] at hpre
          cases hpre
    | none =>
      simp only [ih]
      constructor
      · rintro ⟨pre, a, post, rfl, hpre, ha⟩
        refine ⟨b :: pre, a, post, rfl, ?_, ?_⟩
        · rw [validateActions_cons, hc]; exact hpre
        · simpa [Nat.add_assoc, Nat.add_comm 1] using ha
      · rintro ⟨pre, a, post, hl, hpre, ha⟩
        cases pre with
        | nil =>
          simp only [List.nil_append, List.cons.injEq] at hl
          obtain ⟨rfl, rfl⟩ := hl
          simp [hc] at ha
        | cons c pre' =>
          simp only [List.cons_append, List.cons.injEq] at hl
          obtain ⟨rfl, rfl⟩ := hl
          rw [validateActions_cons, hc] at hpre
          refine ⟨pre', a, post, rfl, hpre, ?_⟩
          simpa [Nat.add_assoc, Nat.add_comm 1] using ha

/-! ## Lemmas on validateConfig -/

theorem validateConfig_err_none_iff (config : Config) :
    (validateConfig config).1 = none ↔
      config.PostActions ≠ [] ∧ (∀ a ∈ config.PostActions, fieldsOK a) ∧
        config.PostActions.Pairwise (fun a b => a.ID ≠ b.ID) := by
  unfold validateConfig
  by_cases h : config.PostActions.length = 0
  · rw [if_pos h]
    have : config.PostActions = [] := List.length_eq_zero.1 h
    simp [this]
  · rw [if_neg h, validateActions_err_none_iff]
    have : config.PostActions ≠ [] := fun hn => h (by simp [hn])
    simp [this, List.Nodup, List.pairwise_map]

theorem checkAction_congr (i : Nat) {s s' : List String} (a : PostAction)
    (h : ∀ x, x ∈ s ↔ x ∈ s') : checkAction i s a = checkAction i s' a := by
  unfold checkAction
  have hs : (a.ID ∈ s) ↔ (a.ID ∈ s') := h a.ID
  by_cases hm : a.ID ∈ s
  · rw [if_pos hm, if_pos (hs.1 hm)]
  · rw [if_neg hm, if_neg (fun h' => hm (hs.2 h'))]

theorem not_tested_of_fieldsOK {s : List String} {b : PostAction} (hf : fieldsOK b)
    (hs : b.ID ∉ s) (r : Rule) : ¬ r.tested s b := by
  obtain ⟨h1, h2, h3, h4, h5, h6, h7, h8⟩ := hf
  cases r <;> simp only [Rule.tested] <;> first | assumption | omega | simp [h6]

theorem validateConfig_err_some_iff (config : Config) (e : GoError) :
    (validateConfig config).1 = some e ↔
      (config.PostActions = [] ∧
        e = .errorf "no post-processing actions defined in config" []) ∨
      ∃ pre a post, config.PostActions = pre ++ a :: post ∧
        (validateActions 0 [] pre).1 = none ∧
        checkAction pre.length (pre.map (·.ID)) a = some e := by
  unfold validateConfig
  by_cases h : config.PostActions.length = 0
  · rw [if_pos h]
    have h0 : config.PostActions = [] := List.length_eq_zero.1 h
    constructor
    · intro he
      exact Or.inl ⟨h0, (Option.some.inj he).symm⟩
    · rintro (⟨_, rfl⟩ | ⟨pre, a, post, hl, _⟩)
      · rfl
      · rw [h0] at hl; simp at hl
  · rw [if_neg h, validateActions_err_some_iff]
    have h0 : config.PostActions ≠ [] := fun hn => h (by simp [hn])
    have hc : ∀ (pre : List PostAction) (a : PostAction),
        checkAction (0 + pre.length) ((pre.map (·.ID)).reverse ++ []) a =
          checkAction pre.length (pre.map (·.ID)) a := by
      intro pre a
      rw [Nat.zero_add]
      exact checkAction_congr _ a (by simp)
    simp only [hc, h0, false_and, false_or]

theorem checkAction_duplicate (i : Nat) {s : List String} {a : PostAction} (hf : fieldsOK a)
    (hs : a.ID ∈ s) :
    checkAction i s a = some (.errorf "duplicate action ID '%s' found" [.str a.ID]) := by
  obtain ⟨h1, h2, h3, h4, h5, h6, h7, h8⟩ := hf
  unfold checkAction
  rw [if_neg h1, if_neg h2, if_neg h3, if_neg h4, if_neg h5, if_pos hs]
  rfl

/-- The actions before a split point of an accepted list are accepted by the loop
and the action at the split point passes the per-action checks. -/
theorem accepted_split {key : String} {pre post : List PostAction} {a : PostAction}
    (h : (validateConfig ⟨key, pre ++ a :: post⟩).1 = none) :
    (validateActions 0 [] pre).1 = none ∧ fieldsOK a ∧ a.ID ∉ pre.map (·.ID) ∧
      (∀ b ∈ pre ++ post, fieldsOK b ∧ b.ID ≠ a.ID) := by
  obtain ⟨_, hf, hp⟩ := (validateConfig_err_none_iff _).1 h
  simp only at hf hp
  rw [validateActions_err_none_iff]
  have hp' := List.pairwise_append.1 hp
  obtain ⟨hpre, hcons, hcross⟩ := hp'
  rw [List.pairwise_cons] at hcons
  refine ⟨⟨fun b hb => hf b (by simp [hb]), ?_, by simp⟩, hf a (by simp), ?_, ?_⟩
  · simpa [List.Nodup, List.pairwise_map] using hpre
  · simp only [List.mem_map, not_exists, not_and]
    intro b hb
    exact hcross b hb a (by simp)
  · intro b hb
    rcases List.mem_append.1 hb with hb | hb
    · exact ⟨hf b (by simp [hb]), hcross b hb a (by simp)⟩
    · exact ⟨hf b (by simp [hb]), fun h => hcons.1 b hb h.symm⟩

theorem validateConfig_err_eq_of_split {key : String} {pre post : List PostAction}
    {a : PostAction} {e : GoError} (hpre : (validateActions 0 [] pre).1 = none)
    (ha : checkAction pre.length (pre.map (·.ID)) a = some e) :
    (validateConfig ⟨key, pre ++ a :: post⟩).1 = some e :=
  (validateConfig_err_some_iff _ e).2 (Or.inr ⟨pre, a, post, rfl, hpre, ha⟩)

theorem checkAction_model (i : Nat) (s : List String) (a : PostAction) (m : String)
    (ha : a.Model ≠ "") (hm : m ≠ "") :
    checkAction i s { a with Model := m } = checkAction i s a := by
  unfold checkAction
  simp only [Rule.reason, if_neg ha, if_neg hm]

theorem validateActions_err_model (i : Nat) (seen : List String) {l₁ l₂ : List PostAction}
    (h : List.Forall₂ SameUpToModel l₁ l₂) :
    (validateActions i seen l₁).1 = (validateActions i seen l₂).1 := by
  induction h generalizing i seen with
  | nil => rfl
  | @cons a b l₁ l₂ hab _ ih =>
    obtain ⟨ha, hb, hab⟩ := hab
    have hc : checkAction i seen b = checkAction i seen a := by
      rw [hab]; exact checkAction_model i seen a b.Model ha hb
    have hid : b.ID = a.ID := by rw [hab]
    rw [validateActions_cons, validateActions_cons, hc, hid]
    cases checkAction i seen a with
    | some e => rfl
    | none => exact ih (i + 1) (a.ID :: seen)

theorem validateActions_warnings (i : Nat) (seen : List String) (l : List PostAction)
    (h : (validateActions i seen l).1 = none) :
    (validateActions i seen l).2 =
      (l.filter (fun a => decide (a.Model ∉ validModels))).map warningFor := by
  induction l generalizing i seen with
  | nil => rfl
  | cons a rest ih =>
    rw [validateActions_cons] at h ⊢
    cases hc : checkAction i seen a with
    | some e => rw [hc] at h; cases h
    | none =>
      rw [hc] at h
      simp only at h ⊢
      rw [ih _ _ h]
      have hty : a.Type_ = "openai" := ((checkAction_eq_none_iff _ _ _).1 hc).2.2.2.2.2.2.1
      unfold modelWarning
      by_cases hm : a.Model ∈ validModels
      · have : ¬ (a.Type_ = "openai" ∧ a.Model ∉ validModels) := fun h' => h'.2 hm
        rw [if_neg this, List.filter_cons_of_neg (by simpa using hm)]
        rfl
      · rw [if_pos ⟨hty, hm⟩, List.filter_cons_of_pos (by simpa using hm)]
        rfl

theorem findActionFrom_eq_some (id : String) (off : Nat) (l : List PostAction) (k : Nat)
    (h : findActionFrom id off l = some k) :
    ∃ pre a post, l = pre ++ a :: post ∧ k = off + pre.length ∧ a.ID = id ∧
      ∀ b ∈ pre, b.ID ≠ id := by
  induction l generalizing off with
  | nil => simp [findActionFrom] at h
  | cons c rest ih =>
    rw [findActionFrom] at h
    by_cases hc : c.ID = id
    · rw [if_pos hc] at h
      exact ⟨[], c, rest, rfl, by simpa using (Option.some.inj h).symm, hc, by simp⟩
    · rw [if_neg hc] at h
      obtain ⟨pre, a, post, rfl, hk, ha, hpre⟩ := ih (off + 1) h
      refine ⟨c :: pre, a, post, rfl, by simp [hk]; omega, ha, ?_⟩
      intro b hb
      rcases List.mem_cons.1 hb with rfl | hb
      · exact hc
      · exact hpre b hb

theorem findActionFrom_eq_none_iff (id : String) (off : Nat) (l : List PostAction) :
    findActionFrom id off l = none ↔ ∀ a ∈ l, a.ID ≠ id := by
  induction l generalizing off with
  | nil => simp [findActionFrom]
  | cons c rest ih =>
    rw [findActionFrom]
    by_cases hc : c.ID = id
    · rw [if_pos hc]; simp [hc]
    · rw [if_neg hc, ih]; simp [hc]

/-! ## Lemmas on loading, storing, the completion call and file names -/

theorem loadConfigActions_ok {env : Env} {path data : String} {config : Config}
    (old : List PostAction) (hread : env.ReadFile path = .ok data)
    (hparse : env.Unmarshal data = .ok config) (hvalid : (validateConfig config).1 = none) :
    loadConfigActions env old path =
      ⟨config.OpenAIAPIKey, none, config.PostActions,
        (validateConfig config).2 ++
          [⟨"Loaded %d action(s) from config file\n", [.int config.PostActions.length]⟩]⟩ := by
  unfold loadConfigActions
  rw [hread]
  simp only
  rw [hparse]
  simp only
  revert hvalid
  cases validateConfig config with
  | mk e out =>
    intro hvalid
    simp only at hvalid
    subst hvalid
    rfl

theorem loadConfigActions_cases (env : Env) (old : List PostAction) (path : String) :
    (∃ e, env.ReadFile path = .error e ∧
      loadConfigActions env old path =
        ⟨"", some (.wrap "failed to read config file: %w" e), old, []⟩) ∨
    (∃ data e, env.ReadFile path = .ok data ∧ env.Unmarshal data = .error e ∧
      loadConfigActions env old path =
        ⟨"", some (.wrap "failed to parse YAML config: %w" e), old, []⟩) ∨
    (∃ data config e, env.ReadFile path = .ok data ∧ env.Unmarshal data = .ok config ∧
      (validateConfig config).1 = some e ∧
      loadConfigActions env old path =
        ⟨"", some (.wrap "config validation failed: %w" e), old, (validateConfig config).2⟩) ∨
    (∃ data config, env.ReadFile path = .ok data ∧ env.Unmarshal data = .ok config ∧
      (validateConfig config).1 = none ∧
      (loadConfigActions env old path).err = none ∧
      (loadConfigActions env old path).apiKey = config.OpenAIAPIKey ∧
      (loadConfigActions env old path).postActions = config.PostActions) := by
  cases hread : env.ReadFile path with
  | error e =>
    left
    refine ⟨e, rfl, ?_⟩
    unfold loadConfigActions
    rw [hread]
  | ok data =>
    right
    cases hparse : env.Unmarshal data with
    | error e =>
      left
      refine ⟨data, e, rfl, hparse, ?_⟩
      unfold loadConfigActions
      rw [hread]
      simp only
      rw [hparse]
    | ok config =>
      right
      cases hv : (validateConfig config).1 with
      | some e =>
        left
        refine ⟨data, config, e, rfl, hparse, hv, ?_⟩
        unfold loadConfigActions
        rw [hread]
        simp only
        rw [hparse]
        simp only
        revert hv
        cases validateConfig config with
        | mk e' out =>
          intro hv
          simp only at hv
          subst hv
          rfl
      | none =>
        right
        refine ⟨data, config, rfl, hparse, hv, ?_⟩
        rw [loadConfigActions_ok old hread hparse hv]
        exact ⟨rfl, rfl, rfl⟩

theorem eq_of_mem_of_ID_eq {l : List PostAction}
    (hp : l.Pairwise (fun a b => a.ID ≠ b.ID)) {a x : PostAction} (ha : a ∈ l) (hx : x ∈ l)
    (h : a.ID = x.ID) : a = x := by
  by_contra hne
  exact List.Pairwise.forall (fun _ _ hab => fun h' => hab h'.symm) hp ha hx hne h

theorem find_of_accepted {config : Config} (hvalid : (validateConfig config).1 = none) :
    (∀ x ∈ config.PostActions,
      derefAction config.PostActions (findAction config.PostActions x.ID) = some x) ∧
    (∀ id, (∀ x ∈ config.PostActions, x.ID ≠ id) → findAction config.PostActions id = none) ∧
    findAction config.PostActions "" = none := by
  obtain ⟨_, hf, hp⟩ := (validateConfig_err_none_iff config).1 hvalid
  refine ⟨?_, ?_, ?_⟩
  · intro x hx
    cases hfind : findAction config.PostActions x.ID with
    | none =>
      exact absurd rfl ((findActionFrom_eq_none_iff x.ID 0 config.PostActions).1 hfind x hx)
    | some i =>
      obtain ⟨pre, a, post, hl, hk, ha, _⟩ :=
        findActionFrom_eq_some x.ID 0 config.PostActions i hfind
      have hmem : a ∈ config.PostActions := by rw [hl]; simp
      have hax : a = x := eq_of_mem_of_ID_eq hp hmem hx ha
      rw [Nat.zero_add] at hk
      subst hk
      show config.PostActions[pre.length]? = some x
      rw [hl, List.getElem?_append_right (Nat.le_refl _), Nat.sub_self, ← hax]
      exact List.getElem?_cons_zero
  · intro id hid
    exact (findActionFrom_eq_none_iff id 0 config.PostActions).2 hid
  · exact (findActionFrom_eq_none_iff "" 0 config.PostActions).2 (fun x hx => (hf x hx).1)

/-- The registry invariant that `validateConfig` establishes: the registry is not
empty, its ids are pairwise distinct, and every action passes the checks on its
own fields (its temperature being neither below 0 nor above 2). -/
theorem registry_invariant_step (env : Env) (old : List PostAction) (path : String) :
    ((loadConfigActions env old path).err = none →
      (loadConfigActions env old path).postActions ≠ [] ∧
      (loadConfigActions env old path).postActions.Pairwise (fun a b => a.ID ≠ b.ID) ∧
      ∀ a ∈ (loadConfigActions env old path).postActions, fieldsOK a) ∧
    ((loadConfigActions env old path).err ≠ none →
      (loadConfigActions env old path).postActions = old) := by
  rcases loadConfigActions_cases env old path with
    ⟨e, hr, h⟩ | ⟨data, e, hr, hp, h⟩ | ⟨data, config, e, hr, hp, hv, h⟩ |
    ⟨data, config, hr, hp, hv, h1, h2, h3⟩
  · rw [h]; exact ⟨fun h' => (by cases h'), fun _ => rfl⟩
  · rw [h]; exact ⟨fun h' => (by cases h'), fun _ => rfl⟩
  · rw [h]; exact ⟨fun h' => (by cases h'), fun _ => rfl⟩
  · refine ⟨fun _ => ?_, fun h => absurd h1 h⟩
    rw [h3]
    obtain ⟨a, b, c⟩ := (validateConfig_err_none_iff config).1 hv
    exact ⟨a, c, b⟩

theorem registry_invariant_sequence (calls : List (Env × String)) (registry : List PostAction)
    (h : RegistryOK registry) : RegistryOK (loadSequence registry calls) := by
  induction calls generalizing registry with
  | nil => exact h
  | cons call rest ih =>
    obtain ⟨env, path⟩ := call
    rw [loadSequence]
    apply ih
    by_cases herr : (loadConfigActions env registry path).err = none
    · exact (registry_invariant_step env registry path).1 herr
    · rw [(registry_invariant_step env registry path).2 herr]
      exact h

theorem registry_invariant_after_success (env : Env) (old : List PostAction) (path : String)
    (calls : List (Env × String)) (h : (loadConfigActions env old path).err = none) :
    RegistryOK (loadSequence (loadConfigActions env old path).postActions calls) :=
  registry_invariant_sequence calls _ ((registry_invariant_step env old path).1 h)

/-- The outcome of `processWithOpenAI` once a response with a readable body has
arrived. -/
theorem processWithOpenAI_of_response {net : Net} {transcript apiKey : String}
    {action : PostAction} {jsonData : List (String × JSONField)} {resp : HTTPResponse}
    {respBody : String}
    (hmarshal : marshalRequest (requestBody transcript action) = .ok jsonData)
    (hnew : net.NewRequestErr "POST" "https://api.openai.com/v1/chat/completions" = none)
    (hdo : net.Do
      { Method := "POST", URL := "https://api.openai.com/v1/chat/completions",
        Body := jsonData,
        Header := [("Authorization", "Bearer " ++ apiKey),
                   ("Content-Type", "application/json")] } = .ok resp)
    (hbody : resp.Body = .ok respBody) :
    processWithOpenAI net transcript action apiKey =
      if resp.StatusCode ≠ 200 then
        .error (.errorf "API request failed with status %d: %s"
          [.int resp.StatusCode, .str respBody])
      else
        match net.UnmarshalChat respBody with
        | .error err => .error (.wrap "failed to parse response: %w" err)
        | .ok chatResp =>
          match chatResp.Choices with
          | [] => .error (.errorf "no response from API" [])
          | choice :: _ => .ok choice.Content := by
  unfold processWithOpenAI
  simp only
  rw [hmarshal]
  simp only
  rw [hnew]
  simp only
  rw [hdo]
  simp only
  rw [hbody]

/-- The members of the request body of an action whose temperature is a number
other than 0 and whose `max_tokens` is not 0. -/
theorem marshalRequest_fields (transcript : String) (action : PostAction)
    (hzero : action.Temperature.eq Float64.zero = false)
    (hfinite : action.Temperature.exponent.val ≠ 2047) (hmax : action.MaxTokens ≠ 0) :
    marshalRequest (requestBody transcript action) =
      .ok [("model", .string action.Model),
        ("messages", .messages (requestBody transcript action).Messages),
        ("temperature", .number action.Temperature),
        ("max_tokens", .integer action.MaxTokens)] := by
  unfold marshalRequest
  simp only [requestBody, hzero, hfinite, hmax, if_false, Bool.false_eq_true]
  rfl

theorem extLoop_spec (rev acc : List Char) :
    (∃ r₁ r₂, rev = r₁ ++ '.' :: r₂ ∧ '.' ∉ r₁ ∧ '/' ∉ r₁ ∧
      extLoop rev acc = '.' :: (r₁.reverse ++ acc)) ∨
    (extLoop rev acc = [] ∧ ∀ r₁ r₂, rev = r₁ ++ '.' :: r₂ → '/' ∈ r₁) := by
  induction rev generalizing acc with
  | nil =>
    right
    refine ⟨rfl, ?_⟩
    intro r₁ r₂ h
    simp at h
  | cons c rest ih =>
    rw [extLoop]
    by_cases hs : c = '/'
    · rw [if_pos hs]
      right
      refine ⟨rfl, ?_⟩
      intro r₁ r₂ h
      cases r₁ with
      | nil =>
        simp only [List.nil_append, List.cons.injEq] at h
        rw [hs] at h
        exact absurd h.1 (by decide)
      | cons d r₁ =>
        simp only [List.cons_append, List.cons.injEq] at h
        rw [← h.1, hs]
        exact List.mem_cons_self _ _
    · rw [if_neg hs]
      by_cases hd : c = '.'
      · rw [if_pos hd]
        left
        exact ⟨[], rest, by rw [hd]; rfl, by simp, by simp, rfl⟩
      · rw [if_neg hd]
        rcases ih (c :: acc) with ⟨r₁, r₂, hr, h1, h2, he⟩ | ⟨he, hall⟩
        · left
          refine ⟨c :: r₁, r₂, by rw [hr]; rfl, ?_, ?_, ?_⟩
          · intro hm
            rcases List.mem_cons.1 hm with h | h
            · exact hd h.symm
            · exact h1 h
          · intro hm
            rcases List.mem_cons.1 hm with h | h
            · exact hs h.symm
            · exact h2 h
          · rw [he]; simp
        · right
          refine ⟨he, ?_⟩
          intro r₁ r₂ h
          cases r₁ with
          | nil =>
            simp only [List.nil_append, List.cons.injEq] at h
            exact absurd h.1 hd
          | cons d r₁ =>
            simp only [List.cons_append, List.cons.injEq] at h
            exact List.mem_cons_of_mem _ (hall r₁ r₂ h.2)

theorem filepathExt_spec (p : String) :
    IsExt p (filepathExt p) ∧ ∃ base, p.data = base ++ (filepathExt p).data := by
  unfold IsExt filepathExt
  rcases extLoop_spec p.data.reverse [] with ⟨r₁, r₂, hr, h1, h2, he⟩ | ⟨he, hall⟩
  · have hp : p.data = r₂.reverse ++ '.' :: r₁.reverse := by
      have := congrArg List.reverse hr
      simpa using this
    rw [he]
    simp only [List.append_nil]
    exact ⟨Or.inl ⟨r₂.reverse, r₁.reverse, hp, rfl, by simpa using h1, by simpa using h2⟩,
      r₂.reverse, hp⟩
  · rw [he]
    refine ⟨Or.inr ⟨rfl, ?_⟩, p.data, by simp⟩
    intro base rest hp
    have := hall rest.reverse base.reverse (by rw [hp]; simp)
    simpa using this

theorem trimSuffix_of_append (p ext : String) (base : List Char)
    (h : p.data = base ++ ext.data) : trimSuffix p ext = ⟨base⟩ := by
  unfold trimSuffix
  have hs : ext.data.isSuffixOf p.data = true := by
    rw [List.isSuffixOf_iff_suffix, h]
    exact List.suffix_append _ _
  rw [if_pos hs, h, List.length_append, Nat.add_sub_cancel, List.take_left]

theorem trimSuffix_append_ext (p : String) :
    trimSuffix p (filepathExt p) ++ filepathExt p = p := by
  obtain ⟨_, base, hb⟩ := filepathExt_spec p
  rw [trimSuffix_of_append p _ base hb]
  apply String.ext
  rw [String.data_append, hb]

/-! ## Lemmas on the prompt, the file names and the summary -/

set_option maxRecDepth 100000 in
theorem sprintf_basePrompt (transcript : String) :
    sprintf basePrompt.data [transcript] =
      promptPreamble.data ++ transcript.data ++ promptClosing.data := by
  simp [basePrompt, promptPreamble, promptClosing, sprintf]

theorem mainRun_audio_writes {env : RunEnv} {postActions : List PostAction} {flags : Flags}
    {configAPIKey p transcription processed : String} {action : PostAction}
    {rest : List String}
    (hlist : flags.listActions = false) (haction : flags.postAction ≠ "")
    (hfind : derefAction postActions (findAction postActions flags.postAction) = some action)
    (hprocess : processWithOpenAI env.net transcription action
      (effectiveAPIKey flags.apiKey configAPIKey) = .ok processed)
    (hwrite : env.WriteErr (trimSuffix p (filepathExt p) ++ "-" ++ action.ID ++ ".txt") = none)
    (htf : flags.transcriptFile = "") (hargs : flags.args = p :: rest)
    (hex : env.Exists p = true)
    (htr : env.transcribeAudio p (effectiveAPIKey flags.apiKey configAPIKey) =
      .ok transcription)
    (hw : env.WriteErr (if flags.output = "" then
      trimSuffix p (filepathExt p) ++ "-transcript.txt" else flags.output) = none) :
    (mainRun env postActions flags configAPIKey).writes =
      [(if flags.output = "" then trimSuffix p (filepathExt p) ++ "-transcript.txt"
          else flags.output, transcription),
       (trimSuffix p (filepathExt p) ++ "-" ++ action.ID ++ ".txt", processed)] := by
  have htf' : ¬ flags.transcriptFile ≠ "" := fun h => h htf
  have hacq : acquireTranscript env flags (effectiveAPIKey flags.apiKey configAPIKey) =
      .ok ⟨transcription, p,
        if flags.output = "" then trimSuffix p (filepathExt p) ++ "-transcript.txt"
          else flags.output,
        [.printf (println "Transcribing audio..."),
         .printf ⟨"Raw transcript saved to %s\n",
           [.str (if flags.output = "" then trimSuffix p (filepathExt p) ++ "-transcript.txt"
             else flags.output)]⟩],
        [(if flags.output = "" then trimSuffix p (filepathExt p) ++ "-transcript.txt"
          else flags.output, transcription)]⟩ := by
    unfold acquireTranscript
    rw [if_neg htf', hargs]
    simp only [hex, Bool.not_true, Bool.false_eq_true, if_false]
    rw [htr]
    simp only
    rw [hw]
  have hpost : postProcess env postActions flags (effectiveAPIKey flags.apiKey configAPIKey)
      transcription p =
      .ok ([.printf ⟨"Applying post-processing: %s...\n", [.str action.Name]⟩,
        .printf ⟨"Post-processed output saved to %s\n",
          [.str (trimSuffix p (filepathExt p) ++ "-" ++ action.ID ++ ".txt")]⟩,
        .printf (println "Post-processing completed successfully!")],
        [(trimSuffix p (filepathExt p) ++ "-" ++ action.ID ++ ".txt", processed)]) := by
    unfold postProcess
    rw [if_pos haction, hfind]
    simp only
    rw [hprocess]
    simp only [processedFilename, if_neg htf']
    rw [hwrite]
  unfold mainRun
  simp only [hlist, Bool.false_eq_true, if_false, hacq, hpost]
  rfl

theorem processed_eq_transcript_name_iff (base id : String) :
    base ++ "-" ++ id ++ ".txt" = base ++ "-transcript.txt" ↔ id = "transcript" := by
  constructor
  · intro h
    have hd := congrArg String.data h
    simp only [String.data_append] at hd
    rw [List.append_assoc, List.append_assoc] at hd
    have h2 := List.append_cancel_left hd
    simp only [List.singleton_append, List.cons.injEq, true_and] at h2
    have h3 : id.data ++ ['.', 't', 'x', 't'] = "transcript".data ++ ['.', 't', 'x', 't'] := h2
    exact String.ext (List.append_cancel_right h3)
  · intro h
    rw [h]
    apply String.ext
    simp only [String.data_append, List.append_assoc]
    rfl

theorem loadConfigActions_stdout {env : Env} {path data : String} {config : Config}
    (old : List PostAction) (hread : env.ReadFile path = .ok data)
    (hparse : env.Unmarshal data = .ok config) (hvalid : (validateConfig config).1 = none) :
    (loadConfigActions env old path).postActions = config.PostActions ∧
    (loadConfigActions env old path).err = none ∧
    (loadConfigActions env old path).stdout =
      (validateConfig config).2 ++
        [⟨"Loaded %d action(s) from config file\n", [.int config.PostActions.length]⟩] := by
  rw [loadConfigActions_ok old hread hparse hvalid]
  exact ⟨rfl, rfl, rfl⟩

set_option maxRecDepth 100000 in
theorem defaultConfig_accepted_silently :
    (validateConfig defaultConfig).1 = none ∧ (validateConfig defaultConfig).2 = [] := by
  decide

theorem apiKey_line_ne (f : String) (a b : List FmtArg) (hf : "  API key:    %s\n" ≠ f) :
    Output.printf ⟨"  API key:    %s\n", a⟩ ≠ Output.printf ⟨f, b⟩ := by
  intro h
  injection h with h
  injection h with h1 _
  exact hf h1

theorem summary_eq (postActions : List PostAction) (flags : Flags)
    (audioPath transcriptFilename : String) :
    ∃ head : List Output,
      (∀ o ∈ head, ∀ args, o ≠ .printf ⟨"  API key:    %s\n", args⟩) ∧
      ∀ key : String, summary postActions flags key audioPath transcriptFilename =
        head ++ (if key ≠ "XXXX" then [.printf ⟨"  API key:    %s\n", [.str key]⟩] else []) ++
          [.printf (println (repeat70 '='))] := by
  refine ⟨[.printf (println (repeat70 '=')), .printf ⟨"Summary:\n", []⟩] ++
    (if flags.transcriptFile ≠ "" then
      [.printf ⟨"  Transcript: %s\n", [.str transcriptFilename]⟩]
     else
      [.printf ⟨"  Audio file: %s\n", [.str audioPath]⟩,
       .printf ⟨"  Transcript: %s\n", [.str transcriptFilename]⟩]) ++
    (if flags.postAction ≠ "" then
      match derefAction postActions (findAction postActions flags.postAction) with
      | some action =>
        [.printf ⟨"  Processed:  %s (%s)\n",
          [.str (processedFilename flags.transcriptFile audioPath action), .str action.Name]⟩]
      | none => []
     else []), ?_, fun _ => rfl⟩
  intro o ho args heq
  rw [heq] at ho
  simp only [List.mem_append, List.mem_cons, List.mem_singleton, List.not_mem_nil,
    or_false] at ho
  rcases ho with (h | h) | h
  · rcases h with h | h
    · exact apiKey_line_ne _ _ _ (by decide) h
    · exact apiKey_line_ne _ _ _ (by decide) h
  · by_cases ht : flags.transcriptFile ≠ ""
    · rw [if_pos ht] at h
      simp only [List.mem_singleton] at h
      exact apiKey_line_ne _ _ _ (by decide) h
    · rw [if_neg ht] at h
      simp only [List.mem_cons, List.mem_singleton, List.not_mem_nil, or_false] at h
      rcases h with h | h
      · exact apiKey_line_ne _ _ _ (by decide) h
      · exact apiKey_line_ne _ _ _ (by decide) h
  · by_cases ha : flags.postAction ≠ ""
    · rw [if_pos ha] at h
      cases hd : derefAction postActions (findAction postActions flags.postAction) with
      | none => rw [hd] at h; simp at h
      | some action =>
        rw [hd] at h
        simp only [List.mem_singleton] at h
        exact apiKey_line_ne _ _ _ (by decide) h
    · rw [if_neg ha] at h
      simp at h

theorem mainRun_stdout_summary (env : RunEnv) (postActions : List PostAction) (flags : Flags)
    (configAPIKey : String) (hlist : flags.listActions = false)
    (hexit : (mainRun env postActions flags configAPIKey).exitCode = 0) :
    ∃ before audioPath transcriptFilename,
      (mainRun env postActions flags configAPIKey).stdout =
        before ++ summary postActions flags (effectiveAPIKey flags.apiKey configAPIKey)
          audioPath transcriptFilename := by
  unfold mainRun at hexit ⊢
  simp only [hlist, Bool.false_eq_true, if_false] at hexit ⊢
  cases hacq : acquireTranscript env flags (effectiveAPIKey flags.apiKey configAPIKey) with
  | error out =>
    rw [hacq] at hexit
    simp at hexit
  | ok acq =>
    rw [hacq] at hexit
    simp only at hexit ⊢
    cases hpost : postProcess env postActions flags (effectiveAPIKey flags.apiKey configAPIKey)
        acq.transcription acq.audioPath with
    | error out =>
      rw [hpost] at hexit
      simp at hexit
    | ok res =>
      obtain ⟨out, writes⟩ := res
      exact ⟨_, acq.audioPath, acq.transcriptFilename, rfl⟩

/-! ## Lemmas on the rules of the specification and on repeated ids -/

theorem Rule.violated_of_tested {r : Rule} {s : List String} {a : PostAction}
    (h : r.tested s a) : r.violated s a := by
  cases r <;> try exact h
  exact fun hin => Float64.not_outOfRange_of_inRange hin h

theorem Rule.tested_iff_violated (r : Rule) (s : List String) (a : PostAction)
    (hnan : a.Temperature.isNaN = false) : r.tested s a ↔ r.violated s a := by
  cases r <;> try exact Iff.rfl
  show a.Temperature.outOfRange ↔ ¬ a.Temperature.inRange
  rw [Float64.inRange_iff]
  constructor
  · intro h hin; exact hin.2 h
  · intro h
    by_contra hn
    exact h ⟨hnan, hn⟩

theorem Rule.reason_duplicate {r : Rule} {i : Nat} {a : PostAction} {x : String}
    (h : r.reason i a = .errorf "duplicate action ID '%s' found" [.str x]) :
    r = .duplicateID ∧ a.ID = x := by
  cases r <;> simp [Rule.reason] at h
  exact ⟨rfl, h⟩

theorem checkAction_duplicate_of (i : Nat) {s : List String} {a : PostAction}
    (h1 : a.ID ≠ "") (h2 : a.Name ≠ "") (h3 : a.Type_ ≠ "") (h4 : a.Prompt ≠ "")
    (h5 : a.Model ≠ "") (hs : a.ID ∈ s) :
    checkAction i s a = some (.errorf "duplicate action ID '%s' found" [.str a.ID]) := by
  unfold checkAction
  rw [if_neg h1, if_neg h2, if_neg h3, if_neg h4, if_neg h5, if_pos hs]
  rfl

theorem validateConfig_eq_validateActions (key : String) (l : List PostAction) (h : l ≠ []) :
    validateConfig ⟨key, l⟩ = validateActions 0 [] l := by
  unfold validateConfig
  rw [if_neg (by simpa using h)]

/-- `validateConfig` returns the duplicate-id reason citing `x` exactly when the
list splits at an action `c` with the id `x` that has its required fields, and
the actions before it are accepted on their own and hold the id `x`. -/
theorem validateConfig_duplicate_reason_iff (config : Config) (x : String) :
    (validateConfig config).1 = some (.errorf "duplicate action ID '%s' found" [.str x]) ↔
      ∃ p c q, config.PostActions = p ++ c :: q ∧
        (validateConfig ⟨config.OpenAIAPIKey, p⟩).1 = none ∧
        c.ID = x ∧ x ∈ p.map (·.ID) ∧
        c.Name ≠ "" ∧ c.Type_ ≠ "" ∧ c.Prompt ≠ "" ∧ c.Model ≠ "" := by
  constructor
  · intro h
    rcases (validateConfig_err_some_iff _ _).1 h with ⟨_, h0⟩ | ⟨p, c, q, hl, hp, hc⟩
    · simp at h0
    · obtain ⟨r, hv, hmin, he⟩ := checkAction_eq_some _ _ _ _ hc
      obtain ⟨hr, hx⟩ := Rule.reason_duplicate he.symm
      subst hr
      have hmem : c.ID ∈ p.map (·.ID) := hv
      have hpne : p ≠ [] := by
        intro hn; rw [hn] at hmem; simp at hmem
      refine ⟨p, c, q, hl, ?_, hx, hx ▸ hmem, ?_, ?_, ?_, ?_⟩
      · rw [validateConfig_eq_validateActions _ _ hpne]; exact hp
      · exact hmin .emptyName (by decide)
      · exact hmin .emptyType (by decide)
      · exact hmin .emptyPrompt (by decide)
      · exact hmin .emptyModel (by decide)
  · rintro ⟨p, c, q, hl, hp, hx, hmem, h2, h3, h4, h5⟩
    have hpne : p ≠ [] := by
      intro hn; rw [hn] at hmem; simp at hmem
    rw [validateConfig_eq_validateActions _ _ hpne] at hp
    have h1 : c.ID ≠ "" := by
      obtain ⟨hf, _, _⟩ := (validateActions_err_none_iff 0 [] p).1 hp
      rw [hx]
      obtain ⟨b, hb, hbx⟩ := List.mem_map.1 hmem
      rw [← hbx]
      exact (hf b hb).1
    have hc := checkAction_duplicate_of p.length h1 h2 h3 h4 h5 (hx ▸ hmem)
    rw [hx] at hc
    exact (validateConfig_err_some_iff _ _).2 (Or.inr ⟨p, c, q, hl, hp, hc⟩)

theorem validateConfig_ne_none_of_repeated (key : String) (pre mid post : List PostAction)
    (a b : PostAction) (hid : a.ID = b.ID) :
    (validateConfig ⟨key, pre ++ a :: (mid ++ b :: post)⟩).1 ≠ none := by
  intro h
  obtain ⟨_, _, hp⟩ := (validateConfig_err_none_iff _).1 h
  simp only at hp
  have h1 := (List.pairwise_append.1 hp).2.1
  rw [List.pairwise_cons] at h1
  exact h1.1 b (by simp) hid

/-! ## Lemmas on decoding the default configuration -/

theorem splitLines_ne_nil (s : List Char) : splitLines s ≠ [] := by
  induction s with
  | nil => simp [splitLines]
  | cons c rest ih =>
    rw [splitLines]
    cases h : splitLines rest with
    | nil => simp
    | cons line lines => dsimp only; split <;> simp

theorem splitLines_cons_newline (rest : List Char) :
    splitLines ('\n' :: rest) = [] :: splitLines rest := by
  rw [splitLines]
  cases h : splitLines rest with
  | nil => exact absurd h (splitLines_ne_nil rest)
  | cons line lines => simp

theorem splitLines_append_newline (l rest : List Char) (h : '\n' ∉ l) :
    splitLines (l ++ '\n' :: rest) = l :: splitLines rest := by
  induction l with
  | nil => exact splitLines_cons_newline rest
  | cons c l ih =>
    have hc : c ≠ '\n' := fun e => h (by simp [e])
    have hl : '\n' ∉ l := fun e => h (by simp [e])
    rw [List.cons_append, splitLines, ih hl]
    simp [hc]

theorem foldl_feedLine_none (ls : List String) : ls.foldl feedLine none = none := by
  induction ls with
  | nil => rfl
  | cons s ls ih => exact ih

theorem decodeLines_flatten (ls : List String) (h : ∀ s ∈ ls, IsLine s) (st : DecodeState) :
    decodeLines st (splitLines (ls.map String.data).flatten)
      = (ls.foldl feedLine (some st)).bind (fun st => decodeLine st []) := by
  induction ls generalizing st with
  | nil =>
    simp only [List.map_nil, List.flatten_nil, splitLines, decodeLines, List.foldl_nil,
      Option.some_bind]
    cases decodeLine st [] <;> rfl
  | cons s ls ih =>
    obtain ⟨h1, h2⟩ := h s (List.mem_cons_self _ _)
    have hs : s.data = s.data.dropLast ++ ['\n'] := by
      have hne : s.data ≠ [] := by intro e; rw [e] at h1; simp at h1
      have := List.dropLast_append_getLast hne
      rw [List.getLast?_eq_getLast _ hne] at h1
      rw [Option.some.inj h1] at this
      exact this.symm
    rw [List.map_cons, List.flatten_cons, hs, List.append_assoc, List.singleton_append,
      splitLines_append_newline _ _ h2, decodeLines, List.foldl_cons]
    cases hd : decodeLine st s.data.dropLast with
    | none =>
      simp only [feedLine, hd]
      rw [foldl_feedLine_none]; rfl
    | some st1 =>
      simp only [feedLine, hd]
      exact ih (fun t ht => h t (List.mem_cons_of_mem _ ht)) st1

theorem decodeField_push (st : DecodeState) (a : PostAction) (line : List Char)
    (acc : List PostAction) :
    decodeField (st.push acc) a line = (decodeField st a line).map (fun s => s.push acc) := by
  unfold decodeField
  cases dropLiteral "name: ".data line with
  | some v => dsimp only; cases quotedScalar v <;> rfl
  | none =>
  dsimp only
  cases dropLiteral "description: ".data line with
  | some v => dsimp only; cases quotedScalar v <;> rfl
  | none =>
  dsimp only
  cases dropLiteral "type: ".data line with
  | some v => dsimp only; cases quotedScalar v <;> rfl
  | none =>
  dsimp only
  cases dropLiteral "model: ".data line with
  | some v => dsimp only; cases quotedScalar v <;> rfl
  | none =>
  dsimp only
  cases dropLiteral "temperature: ".data line with
  | some v => dsimp only; cases floatScalar v <;> rfl
  | none =>
  dsimp only
  cases dropLiteral "max_tokens: ".data line with
  | some v => dsimp only; cases intScalar v <;> rfl
  | none =>
  dsimp only
  cases dropLiteral "prompt: ".data line with
  | some v =>
    dsimp only
    by_cases hv : v = ['|']
    · rw [if_pos hv, if_pos hv]; rfl
    · rw [if_neg hv, if_neg hv]; cases quotedScalar v <;> rfl
  | none => rfl

theorem closeAction_push (st : DecodeState) (acc : List PostAction) :
    (st.push acc).closeAction = st.closeAction.push acc := by
  cases st with
  | mk k l c b => cases c <;> rfl

theorem closeBlock_push (st : DecodeState) (acc : List PostAction) :
    (st.push acc).closeBlock = st.closeBlock.push acc := by
  cases st with
  | mk k l c b => cases b <;> cases c <;> rfl

theorem decodePlainLine_push (st : DecodeState) (line : List Char) (acc : List PostAction) :
    decodePlainLine (st.push acc) line
      = (decodePlainLine st line).map (fun s => s.push acc) := by
  unfold decodePlainLine
  dsimp only
  by_cases h1 : List.dropWhile (fun c => decide (c = ' ')) line = []
  · rw [if_pos h1, if_pos h1]; rfl
  rw [if_neg h1, if_neg h1]
  by_cases h2 : (List.dropWhile (fun c => decide (c = ' ')) line).head? = some '#'
  · rw [if_pos h2, if_pos h2]; rfl
  rw [if_neg h2, if_neg h2]
  cases dropLiteral "openai_api_key: ".data line with
  | some v => dsimp only; cases quotedScalar v <;> rfl
  | none =>
  dsimp only
  by_cases h3 : line = "post_actions:".data
  · rw [if_pos h3, if_pos h3]; rfl
  rw [if_neg h3, if_neg h3]
  cases dropLiteral "  - id: ".data line with
  | some v =>
    dsimp only
    rw [closeAction_push]
    cases quotedScalar v <;> rfl
  | none =>
    dsimp only
    cases dropLiteral "    ".data line with
    | none => rfl
    | some field =>
      cases st with
      | mk k l c b =>
        cases c with
        | none => rfl
        | some a => exact decodeField_push ⟨k, l, some a, b⟩ a field acc

theorem decodeLine_push (st : DecodeState) (line : List Char) (acc : List PostAction) :
    decodeLine (st.push acc) line = (decodeLine st line).map (fun s => s.push acc) := by
  unfold decodeLine
  cases hb : st.block with
  | none =>
    have : (st.push acc).block = none := hb
    rw [this]
    exact decodePlainLine_push st line acc
  | some ls =>
    have : (st.push acc).block = some ls := hb
    rw [this]
    dsimp only
    cases dropLiteral "      ".data line with
    | some content =>
      dsimp only
      by_cases h1 : (ls.all (fun l => decide (l = [])) = true ∧ content.head? = some ' ')
      · rw [if_pos h1, if_pos h1]; rfl
      · rw [if_neg h1, if_neg h1]; rfl
    | none =>
      dsimp only
      by_cases h1 : List.dropWhile (fun c => decide (c = ' ')) line = []
      · rw [if_pos h1, if_pos h1]; rfl
      rw [if_neg h1, if_neg h1, closeBlock_push]
      exact decodePlainLine_push _ line acc

theorem foldl_feedLine_push (ls : List String) (st : DecodeState) (acc : List PostAction) :
    ls.foldl feedLine (some (st.push acc))
      = (ls.foldl feedLine (some st)).map (fun s => s.push acc) := by
  induction ls generalizing st with
  | nil => rfl
  | cons s ls ih =>
    rw [List.foldl_cons, List.foldl_cons]
    have h : feedLine (some (st.push acc)) s
        = (feedLine (some st) s).map (fun s => s.push acc) :=
      decodeLine_push st s.data.dropLast acc
    rw [h]
    cases feedLine (some st) s with
    | none => rw [Option.map_none', foldl_feedLine_none]; rfl
    | some st1 => exact ih st1

/-- Reading a group of lines that starts a new action: if from a state without
completed actions the `n` lines after the first `b` end with the open action
completed and `next` open, then from a state with the completed actions `acc`
they end with the open action put on top of them. -/
theorem foldl_feedLine_chunk (ls : List String) (b n e : Nat) (he : b + n = e)
    (acc : List PostAction) (cur next : Option PostAction)
    (h : ((ls.drop b).take n).foldl feedLine (some ⟨"", [], cur, none⟩)
      = some ⟨"", cur.toList, next, none⟩) :
    (ls.drop b).foldl feedLine (some ⟨"", acc, cur, none⟩)
      = (ls.drop e).foldl feedLine (some ⟨"", cur.toList ++ acc, next, none⟩) := by
  have hsplit : ls.drop b = (ls.drop b).take n ++ ls.drop e := by
    rw [← he, ← List.drop_drop, List.take_append_drop]
  rw [hsplit, List.foldl_append]
  have h2 := foldl_feedLine_push ((ls.drop b).take n) ⟨"", [], cur, none⟩ acc
  rw [h] at h2
  have e1 : (⟨"", [], cur, none⟩ : DecodeState).push acc = ⟨"", acc, cur, none⟩ := rfl
  rw [e1] at h2
  rw [h2]
  rfl

theorem toList_get?_append_take_reverse (l : List PostAction) (k : Nat) :
    (l.get? k).toList ++ (l.take k).reverse = (l.take (k + 1)).reverse := by
  rw [List.take_succ, List.reverse_append, List.get?_eq_getElem?]
  cases l[k]? <;> rfl

/-- Reading the lines of one more action: the form of `foldl_feedLine_chunk` for
states that hold the first `k` actions of a list `l` as completed and the next
one as open. -/
theorem foldl_feedLine_next (ls : List String) (b n e : Nat) (he : b + n = e)
    (l : List PostAction) (k : Nat)
    (h : ((ls.drop b).take n).foldl feedLine (some ⟨"", [], l.get? k, none⟩)
      = some ⟨"", (l.get? k).toList, l.get? (k + 1), none⟩) :
    (ls.drop b).foldl feedLine (some ⟨"", (l.take k).reverse, l.get? k, none⟩)
      = (ls.drop e).foldl feedLine (some ⟨"", (l.take (k + 1)).reverse, l.get? (k + 1), none⟩) := by
  rw [foldl_feedLine_chunk ls b n e he _ _ _ h, toList_get?_append_take_reverse]

/-- The Config decoded from a text given by its lines, when reading the lines
ends outside a block with the last action of the list `l` open and the ones
before it completed. -/
theorem decodeConfig_of_foldl (ls : List String) (hl : ∀ s ∈ ls, IsLine s)
    (l : List PostAction) (k : Nat) (hk : k + 1 = l.length) (key : String)
    (h : ls.foldl feedLine (some ⟨"", [], none, none⟩)
      = some ⟨key, (l.take k).reverse, l.get? k, none⟩) :
    decodeConfig (String.join ls) = some ⟨key, l⟩ := by
  have hlt : k < l.length := by omega
  have hget : l.get? k = some (l.get ⟨k, hlt⟩) := List.get?_eq_get hlt
  have hall : l.take k ++ [l.get ⟨k, hlt⟩] = l := by
    have h1 := @List.take_succ _ l k
    rw [← List.get?_eq_getElem?, hget, hk, List.take_length] at h1
    exact h1.symm
  unfold decodeConfig
  rw [String.data_join, decodeLines_flatten ls hl, h, hget]
  simp only [Option.some_bind, decodeLine, decodePlainLine, List.dropWhile_nil, if_true,
    DecodeState.closeBlock, DecodeState.closeAction, List.reverse_cons, List.reverse_reverse,
    hall]

set_option maxRecDepth 1000000 in
theorem defaultConfigLines_action0 :
    ((defaultConfigLines.drop 0).take 25).foldl feedLine (some ⟨"", [], none, none⟩)
      = some ⟨"", [], defaultConfig.PostActions.get? 0, none⟩ := by
  decide!

set_option maxRecDepth 1000000 in
theorem defaultConfigLines_action1 :
    ((defaultConfigLines.drop 25).take 17).foldl feedLine (some ⟨"", [], (defaultConfig.PostActions.get? 0), none⟩)
      = some ⟨"", (defaultConfig.PostActions.get? 0).toList, defaultConfig.PostActions.get? 1, none⟩ := by
  decide!

set_option maxRecDepth 1000000 in
theorem defaultConfigLines_action2 :
    ((defaultConfigLines.drop 42).take 18).foldl feedLine (some ⟨"", [], (defaultConfig.PostActions.get? 1), none⟩)
      = some ⟨"", (defaultConfig.PostActions.get? 1).toList, defaultConfig.PostActions.get? 2, none⟩ := by
  decide!

set_option maxRecDepth 1000000 in
theorem defaultConfigLines_action3 :
    ((defaultConfigLines.drop 60).take 18).foldl feedLine (some ⟨"", [], (defaultConfig.PostActions.get? 2), none⟩)
      = some ⟨"", (defaultConfig.PostActions.get? 2).toList, defaultConfig.PostActions.get? 3, none⟩ := by
  decide!

set_option maxRecDepth 1000000 in
theorem defaultConfigLines_action4 :
    ((defaultConfigLines.drop 78).take 16).foldl feedLine (some ⟨"", [], (defaultConfig.PostActions.get? 3), none⟩)
      = some ⟨"", (defaultConfig.PostActions.get? 3).toList, defaultConfig.PostActions.get? 4, none⟩ := by
  decide!

set_option maxRecDepth 1000000 in
theorem defaultConfigLines_action5 :
    ((defaultConfigLines.drop 94).take 19).foldl feedLine (some ⟨"", [], (defaultConfig.PostActions.get? 4), none⟩)
      = some ⟨"", (defaultConfig.PostActions.get? 4).toList, defaultConfig.PostActions.get? 5, none⟩ := by
  decide!

set_option maxRecDepth 1000000 in
theorem defaultConfigLines_action6 :
    ((defaultConfigLines.drop 113).take 21).foldl feedLine (some ⟨"", [], (defaultConfig.PostActions.get? 5), none⟩)
      = some ⟨"", (defaultConfig.PostActions.get? 5).toList, defaultConfig.PostActions.get? 6, none⟩ := by
  decide!

set_option maxRecDepth 1000000 in
theorem defaultConfigLines_action7 :
    ((defaultConfigLines.drop 134).take 20).foldl feedLine (some ⟨"", [], (defaultConfig.PostActions.get? 6), none⟩)
      = some ⟨"", (defaultConfig.PostActions.get? 6).toList, defaultConfig.PostActions.get? 7, none⟩ := by
  decide!

set_option maxRecDepth 1000000 in
theorem defaultConfigLines_action8 :
    ((defaultConfigLines.drop 154).take 21).foldl feedLine (some ⟨"", [], (defaultConfig.PostActions.get? 7), none⟩)
      = some ⟨"", (defaultConfig.PostActions.get? 7).toList, defaultConfig.PostActions.get? 8, none⟩ := by
  decide!

set_option maxRecDepth 1000000 in
theorem defaultConfigLines_action9 :
    ((defaultConfigLines.drop 175).take 24).foldl feedLine (some ⟨"", [], (defaultConfig.PostActions.get? 8), none⟩)
      = some ⟨"", (defaultConfig.PostActions.get? 8).toList, defaultConfig.PostActions.get? 9, none⟩ := by
  decide!

set_option maxRecDepth 1000000 in
theorem defaultConfigLines_action10 :
    ((defaultConfigLines.drop 199).take 21).foldl feedLine (some ⟨"", [], (defaultConfig.PostActions.get? 9), none⟩)
      = some ⟨"", (defaultConfig.PostActions.get? 9).toList, defaultConfig.PostActions.get? 10, none⟩ := by
  decide!

set_option maxRecDepth 1000000 in
theorem defaultConfigLines_action11 :
    ((defaultConfigLines.drop 220).take 22).foldl feedLine (some ⟨"", [], (defaultConfig.PostActions.get? 10), none⟩)
      = some ⟨"", (defaultConfig.PostActions.get? 10).toList, defaultConfig.PostActions.get? 11, none⟩ := by
  decide!

set_option maxRecDepth 1000000 in
theorem defaultConfigLines_action12 :
    ((defaultConfigLines.drop 242).take 28).foldl feedLine (some ⟨"", [], (defaultConfig.PostActions.get? 11), none⟩)
      = some ⟨"", (defaultConfig.PostActions.get? 11).toList, defaultConfig.PostActions.get? 12, none⟩ := by
  decide!

set_option maxRecDepth 1000000 in
theorem defaultConfigLines_action13 :
    ((defaultConfigLines.drop 270).take 20).foldl feedLine (some ⟨"", [], (defaultConfig.PostActions.get? 12), none⟩)
      = some ⟨"", (defaultConfig.PostActions.get? 12).toList, defaultConfig.PostActions.get? 13, none⟩ := by
  decide!

set_option maxRecDepth 1000000 in
theorem defaultConfigLines_action14 :
    ((defaultConfigLines.drop 290).take 23).foldl feedLine (some ⟨"", [], (defaultConfig.PostActions.get? 13), none⟩)
      = some ⟨"", (defaultConfig.PostActions.get? 13).toList, defaultConfig.PostActions.get? 14, none⟩ := by
  decide!

set_option maxRecDepth 1000000 in
theorem defaultConfigLines_action15 :
    ((defaultConfigLines.drop 313).take 31).foldl feedLine (some ⟨"", [], (defaultConfig.PostActions.get? 14), none⟩)
      = some ⟨"", (defaultConfig.PostActions.get? 14).toList, defaultConfig.PostActions.get? 15, none⟩ := by
  decide!

set_option maxRecDepth 1000000 in
theorem defaultConfigLines_action16 :
    ((defaultConfigLines.drop 344).take 29).foldl feedLine (some ⟨"", [], (defaultConfig.PostActions.get? 15), none⟩)
      = some ⟨"", (defaultConfig.PostActions.get? 15).toList, defaultConfig.PostActions.get? 16, none⟩ := by
  decide!

set_option maxRecDepth 1000000 in
theorem defaultConfigLines_action17 :
    ((defaultConfigLines.drop 373).take 43).foldl feedLine (some ⟨"", [], (defaultConfig.PostActions.get? 16), none⟩)
      = some ⟨"", (defaultConfig.PostActions.get? 16).toList, defaultConfig.PostActions.get? 17, none⟩ := by
  decide!

set_option maxRecDepth 1000000 in
theorem defaultConfigLines_isLine : ∀ s ∈ defaultConfigLines, IsLine s := by
  decide!

set_option maxRecDepth 1000000 in
theorem foldl_feedLine_defaultConfigLines :
    defaultConfigLines.foldl feedLine (some ⟨"", [], none, none⟩)
      = some ⟨"", (defaultConfig.PostActions.take 17).reverse,
          defaultConfig.PostActions.get? 17, none⟩ :=
  ((foldl_feedLine_chunk defaultConfigLines 0 25 25 rfl [] none _ defaultConfigLines_action0).trans
    ((foldl_feedLine_next defaultConfigLines 25 17 42 rfl defaultConfig.PostActions 0
      defaultConfigLines_action1).trans
    ((foldl_feedLine_next defaultConfigLines 42 18 60 rfl defaultConfig.PostActions 1
      defaultConfigLines_action2).trans
    ((foldl_feedLine_next defaultConfigLines 60 18 78 rfl defaultConfig.PostActions 2
      defaultConfigLines_action3).trans
    ((foldl_feedLine_next defaultConfigLines 78 16 94 rfl defaultConfig.PostActions 3
      defaultConfigLines_action4).trans
    ((foldl_feedLine_next defaultConfigLines 94 19 113 rfl defaultConfig.PostActions 4
      defaultConfigLines_action5).trans
    ((foldl_feedLine_next defaultConfigLines 113 21 134 rfl defaultConfig.PostActions 5
      defaultConfigLines_action6).trans
    ((foldl_feedLine_next defaultConfigLines 134 20 154 rfl defaultConfig.PostActions 6
      defaultConfigLines_action7).trans
    ((foldl_feedLine_next defaultConfigLines 154 21 175 rfl defaultConfig.PostActions 7
      defaultConfigLines_action8).trans
    ((foldl_feedLine_next defaultConfigLines 175 24 199 rfl defaultConfig.PostActions 8
      defaultConfigLines_action9).trans
    ((foldl_feedLine_next defaultConfigLines 199 21 220 rfl defaultConfig.PostActions 9
      defaultConfigLines_action10).trans
    ((foldl_feedLine_next defaultConfigLines 220 22 242 rfl defaultConfig.PostActions 10
      defaultConfigLines_action11).trans
    ((foldl_feedLine_next defaultConfigLines 242 28 270 rfl defaultConfig.PostActions 11
      defaultConfigLines_action12).trans
    ((foldl_feedLine_next defaultConfigLines 270 20 290 rfl defaultConfig.PostActions 12
      defaultConfigLines_action13).trans
    ((foldl_feedLine_next defaultConfigLines 290 23 313 rfl defaultConfig.PostActions 13
      defaultConfigLines_action14).trans
    ((foldl_feedLine_next defaultConfigLines 313 31 344 rfl defaultConfig.PostActions 14
      defaultConfigLines_action15).trans
    ((foldl_feedLine_next defaultConfigLines 344 29 373 rfl defaultConfig.PostActions 15
      defaultConfigLines_action16).trans
    (foldl_feedLine_next defaultConfigLines 373 43 416 rfl defaultConfig.PostActions 16
      defaultConfigLines_action17))))))))))))))))))


theorem defaultConfig_length : 17 + 1 = defaultConfig.PostActions.length := by decide

theorem decodeConfig_join_defaultConfigLines :
    decodeConfig (String.join defaultConfigLines) = some ⟨"", defaultConfig.PostActions⟩ :=
  decodeConfig_of_foldl defaultConfigLines defaultConfigLines_isLine defaultConfig.PostActions
    17 defaultConfig_length "" foldl_feedLine_defaultConfigLines

theorem defaultConfig_eta : (⟨"", defaultConfig.PostActions⟩ : Config) = defaultConfig := rfl

/-- The text of the built-in default configuration decodes to `defaultConfig`. -/
theorem decodeConfig_getDefaultConfigContent :
    decodeConfig getDefaultConfigContent = some defaultConfig := by
  rw [getDefaultConfigContent, decodeConfig_join_defaultConfigLines, defaultConfig_eta]

theorem yamlUnmarshal_of_decodeConfig (text : String) (config : Config)
    (h : decodeConfig text = some config) : yamlUnmarshal text = .ok config := by
  unfold yamlUnmarshal
  rw [h]

theorem yamlUnmarshal_getDefaultConfigContent :
    yamlUnmarshal getDefaultConfigContent = .ok defaultConfig :=
  yamlUnmarshal_of_decodeConfig _ _ decodeConfig_getDefaultConfigContent

/-! ## Claims -/

/-- C1 (as stated, refuted): the configuration of the test case `Invalid type` has a
non-empty action list with distinct ids, every action has non-empty id, name,
type, prompt and model, temperature 0.5 and max_tokens 1000, and
`validateConfig` rejects it. -/
theorem validateConfig_rejects_nonempty_illegal_type :
    invalidTypeConfig.PostActions ≠ [] ∧
    invalidTypeConfig.PostActions.Pairwise (fun a b => a.ID ≠ b.ID) ∧
    (∀ a ∈ invalidTypeConfig.PostActions,
      a.ID ≠ "" ∧ a.Name ≠ "" ∧ a.Type_ ≠ "" ∧ a.Prompt ≠ "" ∧ a.Model ≠ "" ∧
        a.Temperature.inRange ∧ 0 < a.MaxTokens) ∧
    (validateConfig invalidTypeConfig).1 =
      some (.errorf "action '%s' has invalid type '%s' (valid: openai)"
        [.str "test-action", .str "invalid-type"]) := by
  decide

/-- C1 (amended): a Config whose action list is non-empty, has pairwise distinct
ids, and in which every action has non-empty id, name, prompt and model, type
`openai`, a temperature in `[0, 2]` and `max_tokens > 0` is accepted by
`validateConfig`. -/
theorem validateConfig_accepts_wellFormed (config : Config)
    (hne : config.PostActions ≠ [])
    (hids : config.PostActions.Pairwise (fun a b => a.ID ≠ b.ID))
    (hall : ∀ a ∈ config.PostActions,
      a.ID ≠ "" ∧ a.Name ≠ "" ∧ a.Type_ = "openai" ∧ a.Prompt ≠ "" ∧ a.Model ≠ "" ∧
        a.Temperature.inRange ∧ 0 < a.MaxTokens) :
    (validateConfig config).1 = none := by
  rw [validateConfig_err_none_iff]
  refine ⟨hne, ?_, hids⟩
  intro a ha
  obtain ⟨h1, h2, h3, h4, h5, h6, h7⟩ := hall a ha
  refine ⟨h1, h2, ?_, h4, h5, h3, Float64.not_outOfRange_of_inRange h6, h7⟩
  rw [h3]; decide

theorem validateConfig_accepts_wellFormed_witness :
    (validateConfig ⟨"test-key", [testAction]⟩).1 = none :=
  validateConfig_accepts_wellFormed ⟨"test-key", [testAction]⟩ (by decide) (by decide)
    (by decide)

/-- C2 (failing input): `validateConfig` accepts a Config whose only action has a
NaN temperature, although `0 <= temperature` and `temperature <= 2` are both
false for it. -/
theorem validateConfig_accepts_nan_temperature :
    (validateConfig nanConfig).1 = none ∧
    (∀ a ∈ nanConfig.PostActions, ¬ a.Temperature.inRange) ∧
    (∀ a ∈ nanConfig.PostActions,
      Float64.le Float64.zero a.Temperature = false ∧
        Float64.le a.Temperature Float64.two = false) := by
  decide

set_option maxRecDepth 100000 in
/-- C3 (failing input): the first action of the Config has a NaN temperature, which
is outside `[0, 2]`: it violates rule (h) and no other rule. The reason
`validateConfig` returns is nevertheless the missing name of the second action,
at index 1, and not the temperature reason for the action at index 0. -/
theorem validateConfig_reason_skips_nan_action :
    nanThenNamelessConfig.PostActions =
      [{ testAction with Temperature := Float64.nan },
       { testAction with ID := "second", Name := "" }] ∧
    (∀ r : Rule, r.violated [] { testAction with Temperature := Float64.nan } ↔
      r = .temperatureRange) ∧
    (validateConfig nanThenNamelessConfig).1 =
      some (.errorf "action '%s' is missing 'name' field" [.str "second"]) ∧
    (validateConfig nanThenNamelessConfig).1 ≠
      some (Rule.temperatureRange.reason 0 { testAction with Temperature := Float64.nan }) := by
  refine ⟨rfl, ?_, by decide, by decide⟩
  intro r
  cases r <;> decide

/-- The first test that fires wins. When `validateConfig` rejects a Config with a
non-empty action list, the list splits as `pre ++ a :: post` where on no action
of `pre` any of the tests of the rules (a)-(i) fires, on `a` the test of the
rule `r` fires and no test earlier in the fixed order, the returned reason is
the reason of `r` for `a` at its 0-based index, and the same reason is returned
whatever actions follow `a`. -/
theorem validateConfig_first_test_wins (config : Config) (e : GoError)
    (hne : config.PostActions ≠ []) (herr : (validateConfig config).1 = some e) :
    ∃ pre a post r, config.PostActions = pre ++ a :: post ∧
      (∀ pre' b post', pre = pre' ++ b :: post' →
        ∀ r' : Rule, ¬ r'.tested (pre'.map (·.ID)) b) ∧
      Rule.tested r (pre.map (·.ID)) a ∧
      (∀ r' : Rule, r'.rank < r.rank → ¬ r'.tested (pre.map (·.ID)) a) ∧
      e = r.reason pre.length a ∧
      (∀ (key : String) (post' : List PostAction),
        (validateConfig ⟨key, pre ++ a :: post'⟩).1 = some e) := by
  rcases (validateConfig_err_some_iff config e).1 herr with ⟨h0, _⟩ | ⟨pre, a, post, hl, hpre, ha⟩
  · exact absurd h0 hne
  · obtain ⟨r, hv, hmin, he⟩ := checkAction_eq_some _ _ _ _ ha
    refine ⟨pre, a, post, r, hl, ?_, hv, hmin, he, ?_⟩
    · rintro pre' b post' rfl r'
      obtain ⟨hf, hnd, _⟩ := (validateActions_err_none_iff 0 [] _).1 hpre
      refine not_tested_of_fieldsOK (hf b (by simp)) ?_ r'
      simp only [List.map_append, List.map_cons] at hnd
      have := (List.nodup_append.1 hnd).2.2
      intro hb
      exact this hb (List.mem_cons_self _ _)
    · intro key post'
      exact (validateConfig_err_some_iff _ e).2 (Or.inr ⟨pre, a, post', rfl, hpre, ha⟩)

theorem validateConfig_first_test_wins_example :
    ∃ pre a post r, secondActionBadConfig.PostActions = pre ++ a :: post ∧
      (∀ pre' b post', pre = pre' ++ b :: post' →
        ∀ r' : Rule, ¬ r'.tested (pre'.map (·.ID)) b) ∧
      Rule.tested r (pre.map (·.ID)) a ∧
      (∀ r' : Rule, r'.rank < r.rank → ¬ r'.tested (pre.map (·.ID)) a) ∧
      GoError.errorf "action '%s' is missing 'name' field" [.str "second"] =
        r.reason pre.length a ∧
      (∀ (key : String) (post' : List PostAction),
        (validateConfig ⟨key, pre ++ a :: post'⟩).1 =
          some (.errorf "action '%s' is missing 'name' field" [.str "second"])) :=
  validateConfig_first_test_wins secondActionBadConfig
    (.errorf "action '%s' is missing 'name' field" [.str "second"]) (by decide) (by decide)

set_option maxRecDepth 100000 in
/-- C4 (failing input): the Config violates exactly one invariant, the temperature
of its second action is NaN and so outside `[0, 2]`, while its first action
violates no rule and the second no other rule; `validateConfig` accepts it. -/
theorem validateConfig_accepts_single_nan_violation :
    nanSecondConfig.PostActions =
      [testAction, { testAction with ID := "second", Temperature := Float64.nan }] ∧
    (∀ r : Rule, ¬ r.violated [] testAction) ∧
    (∀ r : Rule, r.violated [testAction.ID]
        { testAction with ID := "second", Temperature := Float64.nan } ↔
      r = .temperatureRange) ∧
    (validateConfig nanSecondConfig).1 = none := by
  refine ⟨rfl, ?_, ?_, by decide⟩
  · intro r; cases r <;> decide
  · intro r; cases r <;> decide

/-- One test fires. Start from an accepted Config `pre ++ a :: post` and spoil one
field of `a` so that the test of its rule fires (for the temperature: a value
below 0 or above 2), or give `a` the id of another action: `validateConfig`
fails, and the reason is the one of that rule, citing the id of the offending
action, or the 0-based index `pre.length` when the id is the empty one. -/
theorem validateConfig_single_failed_test (key : String) (pre post : List PostAction)
    (a : PostAction) (hvalid : (validateConfig ⟨key, pre ++ a :: post⟩).1 = none) :
    (validateConfig ⟨key, pre ++ { a with ID := "" } :: post⟩).1 =
      some (.errorf "action at index %d is missing 'id' field" [.int pre.length]) ∧
    (validateConfig ⟨key, pre ++ { a with Name := "" } :: post⟩).1 =
      some (.errorf "action '%s' is missing 'name' field" [.str a.ID]) ∧
    (validateConfig ⟨key, pre ++ { a with Type_ := "" } :: post⟩).1 =
      some (.errorf "action '%s' is missing 'type' field" [.str a.ID]) ∧
    (validateConfig ⟨key, pre ++ { a with Prompt := "" } :: post⟩).1 =
      some (.errorf "action '%s' is missing 'prompt' field" [.str a.ID]) ∧
    (validateConfig ⟨key, pre ++ { a with Model := "" } :: post⟩).1 =
      some (.errorf "action '%s' is missing 'model' field" [.str a.ID]) ∧
    (∀ ty : String, ty ≠ "" → ty ≠ "openai" →
      (validateConfig ⟨key, pre ++ { a with Type_ := ty } :: post⟩).1 =
        some (.errorf "action '%s' has invalid type '%s' (valid: openai)"
          [.str a.ID, .str ty])) ∧
    (∀ t : Float64, t.outOfRange →
      (validateConfig ⟨key, pre ++ { a with Temperature := t } :: post⟩).1 =
        some (.errorf "action '%s' has invalid temperature %.2f (must be between 0 and 2)"
          [.str a.ID, .float t])) ∧
    (∀ n : Int, n ≤ 0 →
      (validateConfig ⟨key, pre ++ { a with MaxTokens := n } :: post⟩).1 =
        some (.errorf "action '%s' has invalid max_tokens %d (must be > 0)"
          [.str a.ID, .int n])) ∧
    (∀ b ∈ pre ++ post,
      (validateConfig ⟨key, pre ++ { a with ID := b.ID } :: post⟩).1 =
        some (.errorf "duplicate action ID '%s' found" [.str b.ID])) := by
  obtain ⟨hpre, ⟨h1, h2, h3, h4, h5, h6, h7, h8⟩, hid, hothers⟩ := accepted_split hvalid
  have hid' : a.ID ∉ List.map (fun x => x.ID) pre := hid
  have hty : a.Type_ ∈ validTypes := by rw [h6]; decide
  have hty' : ¬ a.Type_ ∉ validTypes := fun h => h hty
  have htemp : ¬ (a.Temperature.lt Float64.zero || a.Temperature.gt Float64.two) = true :=
    fun h => h7 ((Float64.outOfRange_iff_bool _).1 h)
  have hmax : ¬ a.MaxTokens ≤ 0 := by omega
  refine ⟨?_, ?_, ?_, ?_, ?_, ?_, ?_, ?_, ?_⟩
  · apply validateConfig_err_eq_of_split hpre
    unfold checkAction
    rw [if_pos rfl]; rfl
  · apply validateConfig_err_eq_of_split hpre
    unfold checkAction
    rw [if_neg h1, if_pos rfl]; rfl
  · apply validateConfig_err_eq_of_split hpre
    unfold checkAction
    rw [if_neg h1, if_neg h2, if_pos rfl]; rfl
  · apply validateConfig_err_eq_of_split hpre
    unfold checkAction
    rw [if_neg h1, if_neg h2, if_neg h3, if_pos rfl]; rfl
  · apply validateConfig_err_eq_of_split hpre
    unfold checkAction
    rw [if_neg h1, if_neg h2, if_neg h3, if_neg h4, if_pos rfl]; rfl
  · intro ty hty1 hty2
    apply validateConfig_err_eq_of_split hpre
    have hnv : ty ∉ validTypes := by simpa [validTypes] using hty2
    unfold checkAction
    rw [if_neg h1, if_neg h2, if_neg hty1, if_neg h4, if_neg h5, if_neg hid', if_pos hnv]; rfl
  · intro t ht
    apply validateConfig_err_eq_of_split hpre
    have ht' := (Float64.outOfRange_iff_bool t).2 ht
    unfold checkAction
    rw [if_neg h1, if_neg h2, if_neg h3, if_neg h4, if_neg h5, if_neg hid', if_neg hty',
      if_pos ht']; rfl
  · intro n hn
    apply validateConfig_err_eq_of_split hpre
    unfold checkAction
    rw [if_neg h1, if_neg h2, if_neg h3, if_neg h4, if_neg h5, if_neg hid', if_neg hty',
      if_neg htemp, if_pos hn]; rfl
  · intro b hb
    have hbf := (hothers b hb).1
    rcases List.mem_append.1 hb with hb | hb
    · apply validateConfig_err_eq_of_split hpre
      have hf' : fieldsOK { a with ID := b.ID } := ⟨hbf.1, h2, h3, h4, h5, h6, h7, h8⟩
      exact checkAction_duplicate _ hf' (List.mem_map.2 ⟨b, hb, rfl⟩)
    · obtain ⟨p1, p2, rfl⟩ := List.append_of_mem hb
      have hsplit : pre ++ { a with ID := b.ID } :: (p1 ++ b :: p2) =
          (pre ++ { a with ID := b.ID } :: p1) ++ b :: p2 := by simp
      rw [hsplit]
      have hsplit0 : pre ++ a :: (p1 ++ b :: p2) = (pre ++ a :: p1) ++ b :: p2 := by simp
      rw [hsplit0] at hvalid
      obtain ⟨hpre0, _, hbid, hoth0⟩ := accepted_split hvalid
      apply validateConfig_err_eq_of_split
      · rw [validateActions_err_none_iff] at hpre0 ⊢
        obtain ⟨hf0, hnd0, _⟩ := hpre0
        refine ⟨?_, ?_, by simp⟩
        · intro x hx
          rcases List.mem_append.1 hx with hx | hx
          · exact hf0 x (by simp [hx])
          · rcases List.mem_cons.1 hx with rfl | hx
            · exact ⟨hbf.1, h2, h3, h4, h5, h6, h7, h8⟩
            · exact hf0 x (by simp [hx])
        · simp only [List.map_append, List.map_cons, List.nodup_append, List.nodup_cons,
            List.mem_map, List.mem_cons, not_exists, not_and] at hnd0 hbid ⊢
          simp only [List.mem_append, List.mem_cons, List.mem_map, not_or, not_exists,
            not_and] at hbid
          refine ⟨hnd0.1, ⟨hbid.2.2, hnd0.2.1.2⟩, ?_⟩
          intro s hs ht
          obtain ⟨x, hx, rfl⟩ := List.mem_map.1 hs
          rcases List.mem_cons.1 ht with hxb | ht
          · exact hbid.1 x hx hxb
          · exact hnd0.2.2 hs (List.mem_cons_of_mem _ ht)
      · exact checkAction_duplicate _ hbf (by simp)

theorem validateConfig_single_failed_test_example :
    (validateConfig threeActionsConfig).1 = none ∧
    (validateConfig ⟨"", [testAction, { testAction with ID := "" },
        { testAction with ID := "third" }]⟩).1 =
      some (.errorf "action at index %d is missing 'id' field" [.int 1]) ∧
    (validateConfig ⟨"", [testAction, { testAction with ID := "second", MaxTokens := 0 },
        { testAction with ID := "third" }]⟩).1 =
      some (.errorf "action '%s' has invalid max_tokens %d (must be > 0)"
        [.str "second", .int 0]) :=
  have h := validateConfig_single_failed_test "" [testAction] [{ testAction with ID := "third" }]
    { testAction with ID := "second" } (by decide)
  ⟨by decide, h.1, h.2.2.2.2.2.2.2.1 0 (by decide)⟩

/-- C5: a Config with an empty action list is rejected with the reason
`no post-processing actions defined in config`, whatever its API key, and
`loadConfigActions` on a file that parses to such a Config fails, wrapping that
reason. -/
theorem validateConfig_empty_actions (key : String) :
    (validateConfig ⟨key, []⟩).1 =
      some (.errorf "no post-processing actions defined in config" []) ∧
    ∀ (env : Env) (old : List PostAction) (path data : String),
      env.ReadFile path = .ok data → env.Unmarshal data = .ok ⟨key, []⟩ →
        (loadConfigActions env old path).err =
          some (.wrap "config validation failed: %w"
            (.errorf "no post-processing actions defined in config" [])) := by
  refine ⟨rfl, ?_⟩
  intro env old path data hread hparse
  unfold loadConfigActions
  rw [hread]
  simp only
  rw [hparse]
  rfl

theorem validateConfig_empty_actions_witness :
    (loadConfigActions emptyActionsEnv [testAction] "config.yml").err =
      some (.wrap "config validation failed: %w"
        (.errorf "no post-processing actions defined in config" [])) :=
  (validateConfig_empty_actions "k").2 emptyActionsEnv [testAction] "config.yml"
    "openai_api_key: k\npost_actions: []\n" rfl rfl

/-- C6 (as stated, refuted): both actions of the Config have the id `dup`, and the
reason `validateConfig` returns is the missing name of the first one, not the
duplicate id. -/
theorem validateConfig_duplicate_not_reported :
    (∃ a b, dupNamelessConfig.PostActions = [a, b] ∧ a.ID = "dup" ∧ b.ID = "dup") ∧
    (validateConfig dupNamelessConfig).1 =
      some (.errorf "action '%s' is missing 'name' field" [.str "dup"]) ∧
    (validateConfig dupNamelessConfig).1 ≠
      some (.errorf "duplicate action ID '%s' found" [.str "dup"]) := by
  refine ⟨⟨_, _, rfl, rfl, rfl⟩, by decide, by decide⟩

/-- C6 (amended): a Config whose action list has the same id at two positions is
rejected wherever the two occurrences are. The reason is the duplicate-id
reason citing the id `x` exactly when the list splits at an action with the id
`x` that has a name, a type, a prompt and a model, and the actions before it
hold the id `x` and are accepted on their own; what follows that action, and
its type, temperature and `max_tokens`, do not matter. In particular this is
the reason when the actions up to the second occurrence are accepted on their
own and the second occurrence has its required fields. -/
theorem validateConfig_duplicate_id (key : String) (pre mid post : List PostAction)
    (a b : PostAction) (hid : a.ID = b.ID) :
    (validateConfig ⟨key, pre ++ a :: (mid ++ b :: post)⟩).1 ≠ none ∧
    (∀ x : String,
      (validateConfig ⟨key, pre ++ a :: (mid ++ b :: post)⟩).1 =
          some (.errorf "duplicate action ID '%s' found" [.str x]) ↔
        ∃ p c q, pre ++ a :: (mid ++ b :: post) = p ++ c :: q ∧
          (validateConfig ⟨key, p⟩).1 = none ∧ c.ID = x ∧ x ∈ p.map (·.ID) ∧
          c.Name ≠ "" ∧ c.Type_ ≠ "" ∧ c.Prompt ≠ "" ∧ c.Model ≠ "") ∧
    ((validateConfig ⟨key, pre ++ a :: mid⟩).1 = none →
      b.Name ≠ "" → b.Type_ ≠ "" → b.Prompt ≠ "" → b.Model ≠ "" →
      (validateConfig ⟨key, pre ++ a :: (mid ++ b :: post)⟩).1 =
        some (.errorf "duplicate action ID '%s' found" [.str b.ID])) := by
  refine ⟨validateConfig_ne_none_of_repeated key pre mid post a b hid,
    fun x => validateConfig_duplicate_reason_iff ⟨key, pre ++ a :: (mid ++ b :: post)⟩ x, ?_⟩
  intro hacc h2 h3 h4 h5
  refine (validateConfig_duplicate_reason_iff ⟨key, pre ++ a :: (mid ++ b :: post)⟩ b.ID).2
    ⟨pre ++ a :: mid, b, post, by simp, hacc, rfl, ?_, h2, h3, h4, h5⟩
  rw [← hid]
  simp

set_option maxRecDepth 100000 in
theorem validateConfig_duplicate_id_witness :
    (validateConfig dupThenNamelessConfig).1 ≠ none ∧
    (validateConfig dupThenNamelessConfig).1 =
      some (.errorf "duplicate action ID '%s' found" [.str "dup"]) ∧
    (validateConfig duplicateIDsConfig).1 =
      some (.errorf "duplicate action ID '%s' found" [.str "test-action"]) :=
  have h := validateConfig_duplicate_id "" [] [] [{ testAction with ID := "later", Name := "" }]
    { testAction with ID := "dup" } { testAction with ID := "dup" } rfl
  have h' := validateConfig_duplicate_id "" [{ testAction with ID := "first" }]
    [{ testAction with ID := "middle" }] []
    { testAction with Name := "Test Action 1" } { testAction with Name := "Test Action 2" } rfl
  ⟨h.1, h.2.2 (by decide) (by decide) (by decide) (by decide) (by decide),
    h'.2.2 (by decide) (by decide) (by decide) (by decide) (by decide)⟩

/-- C7: in a Config whose actions are valid apart from their temperatures,
`validateConfig` fails exactly when some temperature is below 0 or above 2, with
the invalid-temperature reason citing the id and the temperature of the first
such action; the boundary values 0 and 2 are not rejected, while 2.5, -0.1 and
2.1 are. -/
theorem validateConfig_temperature_range (config : Config)
    (hne : config.PostActions ≠ [])
    (hids : config.PostActions.Pairwise (fun a b => a.ID ≠ b.ID))
    (hall : ∀ a ∈ config.PostActions,
      a.ID ≠ "" ∧ a.Name ≠ "" ∧ a.Type_ = "openai" ∧ a.Prompt ≠ "" ∧ a.Model ≠ "" ∧
        0 < a.MaxTokens) :
    (validateConfig config).1 =
      (match config.PostActions.find?
          (fun a => a.Temperature.lt Float64.zero || a.Temperature.gt Float64.two) with
        | some a =>
          some (.errorf "action '%s' has invalid temperature %.2f (must be between 0 and 2)"
            [.str a.ID, .float a.Temperature])
        | none => none) ∧
    (Float64.zero.lt Float64.zero || Float64.zero.gt Float64.two) = false ∧
    (Float64.two.lt Float64.zero || Float64.two.gt Float64.two) = false ∧
    (Float64.twoPointFive.lt Float64.zero || Float64.twoPointFive.gt Float64.two) = true ∧
    (Float64.minusPointOne.lt Float64.zero || Float64.minusPointOne.gt Float64.two) = true ∧
    (Float64.twoPointOne.lt Float64.zero || Float64.twoPointOne.gt Float64.two) = true := by
  refine ⟨?_, by decide, by decide, by decide, by decide, by decide⟩
  have hty : ∀ a ∈ config.PostActions, a.Type_ ≠ "" := by
    intro a ha h
    have h3 := (hall a ha).2.2.1
    rw [h3] at h
    exact absurd h (by decide)
  cases hfind : config.PostActions.find?
      (fun a => a.Temperature.lt Float64.zero || a.Temperature.gt Float64.two) with
  | none =>
    simp only
    rw [validateConfig_err_none_iff]
    refine ⟨hne, ?_, hids⟩
    intro a ha
    obtain ⟨h1, h2, h3, h4, h5, h6⟩ := hall a ha
    have := List.find?_eq_none.1 hfind a ha
    exact ⟨h1, h2, hty a ha, h4, h5, h3, fun h => this ((Float64.outOfRange_iff_bool _).2 h), h6⟩
  | some a =>
    simp only
    obtain ⟨hpa, pre, post, hl, hpre⟩ := List.find?_eq_some.1 hfind
    have hcfg : config = ⟨config.OpenAIAPIKey, pre ++ a :: post⟩ := by
      cases config; simp only at hl; rw [hl]
    rw [hcfg]
    rw [hl] at hids hall hty
    have hp' := List.pairwise_append.1 hids
    apply validateConfig_err_eq_of_split
    · rw [validateActions_err_none_iff]
      refine ⟨?_, ?_, by simp⟩
      · intro b hb
        obtain ⟨h1, h2, h3, h4, h5, h6⟩ := hall b (by simp [hb])
        have hb' := hpre b hb
        refine ⟨h1, h2, hty b (by simp [hb]), h4, h5, h3, ?_, h6⟩
        intro h
        rw [(Float64.outOfRange_iff_bool _).2 h] at hb'
        cases hb'
      · simpa [List.Nodup, List.pairwise_map] using hp'.1
    · obtain ⟨h1, h2, h3, h4, h5, h6⟩ := hall a (by simp)
      have hid : a.ID ∉ pre.map (·.ID) := by
        simp only [List.mem_map, not_exists, not_and]
        intro b hb
        exact hp'.2.2 b hb a (by simp)
      have hv : ¬ a.Type_ ∉ validTypes := by rw [h3]; decide
      unfold checkAction
      rw [if_neg h1, if_neg h2, if_neg (hty a (by simp)), if_neg h4, if_neg h5, if_neg hid,
        if_neg hv, if_pos hpa]
      rfl

theorem validateConfig_temperature_range_witness :
    (validateConfig temperaturesConfig).1 =
      some (.errorf "action '%s' has invalid temperature %.2f (must be between 0 and 2)"
        [.str "hot", .float Float64.twoPointFive]) :=
  (validateConfig_temperature_range temperaturesConfig (by decide) (by decide) (by decide)).1

/-- C8: the model allow-list never affects the verdict. Two Configs that differ only
in the non-empty model strings of their actions get the same result from
`validateConfig` (success, or the same reason); and when a Config is accepted,
what is printed is exactly one warning for each action whose model is outside
the allow-list. -/
theorem validateConfig_model_irrelevant (key : String) (l₁ l₂ : List PostAction)
    (h : List.Forall₂ SameUpToModel l₁ l₂) :
    (validateConfig ⟨key, l₁⟩).1 = (validateConfig ⟨key, l₂⟩).1 ∧
    ((validateConfig ⟨key, l₁⟩).1 = none →
      (validateConfig ⟨key, l₁⟩).2 =
        (l₁.filter (fun a => decide (a.Model ∉ validModels))).map warningFor) := by
  unfold validateConfig
  simp only
  have hlen := h.length_eq
  by_cases h0 : l₁.length = 0
  · rw [if_pos h0, if_pos (hlen ▸ h0)]
    exact ⟨rfl, fun h' => by cases h'⟩
  · rw [if_neg h0, if_neg (hlen ▸ h0)]
    exact ⟨validateActions_err_model 0 [] h, validateActions_warnings 0 [] l₁⟩

theorem validateConfig_model_irrelevant_witness :
    (validateConfig ⟨"", [testAction, customModelAction]⟩).1 =
      (validateConfig ⟨"", [testAction, { customModelAction with Model := "gpt-4o" }]⟩).1 ∧
    (validateConfig ⟨"", [testAction, customModelAction]⟩).2 = [warningFor customModelAction] :=
  have h := validateConfig_model_irrelevant "" [testAction, customModelAction]
    [testAction, { customModelAction with Model := "gpt-4o" }]
    (.cons (by decide) (.cons (by decide) .nil))
  ⟨h.1, h.2 (by decide)⟩

/-- C9: `findAction` returns the first action, in registry order, whose id equals the
argument: the element at the returned index has exactly that id and no earlier
element has it; it returns `nil` exactly when no registered action has that id. -/
theorem findAction_first_match (postActions : List PostAction) (id : String) :
    (∀ i, findAction postActions id = some i →
      ∃ a, postActions[i]? = some a ∧ a.ID = id ∧
        ∀ j b, j < i → postActions[j]? = some b → b.ID ≠ id) ∧
    (findAction postActions id = none ↔ ∀ a ∈ postActions, a.ID ≠ id) := by
  refine ⟨?_, findActionFrom_eq_none_iff id 0 postActions⟩
  intro i hi
  obtain ⟨pre, a, post, rfl, hk, ha, hpre⟩ := findActionFrom_eq_some id 0 postActions i hi
  rw [Nat.zero_add] at hk
  subst hk
  refine ⟨a, ?_, ha, ?_⟩
  · rw [List.getElem?_append_right (Nat.le_refl _), Nat.sub_self]
    exact List.getElem?_cons_zero
  · intro j b hj hb
    rw [List.getElem?_append_left hj] at hb
    exact hpre b (List.getElem?_mem hb)

theorem findAction_first_match_witness :
    findAction testRegistry "test-action-2" = some 1 ∧
    findAction testRegistry "test-action" = none ∧
    findAction testRegistry "" = none ∧
    (∃ a, testRegistry[1]? = some a ∧ a.ID = "test-action-2" ∧
      ∀ j b, j < 1 → testRegistry[j]? = some b → b.ID ≠ "test-action-2") :=
  ⟨by decide, (findAction_first_match testRegistry "test-action").2.2 (by decide),
    by decide, (findAction_first_match testRegistry "test-action-2").1 1 (by decide)⟩

/-- C10: when the file is read and parsed to a Config that `validateConfig` accepts,
`loadConfigActions` returns no error and the Config's API key, and the registry
after the call is the Config's action list, whatever it held before. -/
theorem loadConfigActions_success (env : Env) (old : List PostAction) (path data : String)
    (config : Config) (hread : env.ReadFile path = .ok data)
    (hparse : env.Unmarshal data = .ok config)
    (hvalid : (validateConfig config).1 = none) :
    (loadConfigActions env old path).err = none ∧
    (loadConfigActions env old path).apiKey = config.OpenAIAPIKey ∧
    (loadConfigActions env old path).postActions = config.PostActions ∧
    (loadConfigActions env old path).postActions.length = config.PostActions.length := by
  have h : loadConfigActions env old path =
      ⟨config.OpenAIAPIKey, none, config.PostActions,
        (validateConfig config).2 ++
          [⟨"Loaded %d action(s) from config file\n", [.int config.PostActions.length]⟩]⟩ := by
    unfold loadConfigActions
    rw [hread]
    simp only
    rw [hparse]
    simp only
    revert hvalid
    cases validateConfig config with
    | mk e out =>
      intro hvalid
      simp only at hvalid
      subst hvalid
      rfl
  rw [h]
  exact ⟨rfl, rfl, rfl, rfl⟩

theorem loadConfigActions_success_witness :
    (loadConfigActions testEnv testRegistry "test-config.yml").err = none ∧
    (loadConfigActions testEnv testRegistry "test-config.yml").apiKey = "test-api-key" ∧
    (loadConfigActions testEnv testRegistry "test-config.yml").postActions =
      testConfig.PostActions :=
  have h := loadConfigActions_success testEnv testRegistry "test-config.yml" testConfigText
    testConfig (by simp [testEnv]) (by simp [testEnv]) (by decide)
  ⟨h.1, h.2.1, h.2.2.1⟩

/-- C11: a failed load is atomic. When `loadConfigActions` returns an error, the
registry after the call is the registry before it and the returned key is
empty; and it returns an error exactly when the file cannot be read, its content
cannot be parsed, or `validateConfig` rejects the parsed Config. -/
theorem loadConfigActions_failure_atomic (env : Env) (old : List PostAction) (path : String) :
    ((loadConfigActions env old path).err ≠ none →
      (loadConfigActions env old path).postActions = old ∧
      (loadConfigActions env old path).apiKey = "") ∧
    ((loadConfigActions env old path).err ≠ none ↔
      (∃ e, env.ReadFile path = .error e) ∨
      (∃ data e, env.ReadFile path = .ok data ∧ env.Unmarshal data = .error e) ∨
      (∃ data config e, env.ReadFile path = .ok data ∧ env.Unmarshal data = .ok config ∧
        (validateConfig config).1 = some e)) := by
  rcases loadConfigActions_cases env old path with
    ⟨e, hr, h⟩ | ⟨data, e, hr, hp, h⟩ | ⟨data, config, e, hr, hp, hv, h⟩ |
    ⟨data, config, hr, hp, hv, h1, h2, h3⟩
  · rw [h]
    exact ⟨fun _ => ⟨rfl, rfl⟩, fun _ => Or.inl ⟨e, hr⟩, fun _ => by simp⟩
  · rw [h]
    exact ⟨fun _ => ⟨rfl, rfl⟩, fun _ => Or.inr (Or.inl ⟨data, e, hr, hp⟩), fun _ => by simp⟩
  · rw [h]
    exact ⟨fun _ => ⟨rfl, rfl⟩, fun _ => Or.inr (Or.inr ⟨data, config, e, hr, hp, hv⟩),
      fun _ => by simp⟩
  · refine ⟨fun h => absurd h1 h, fun h => absurd h1 h, ?_⟩
    rintro (⟨e, he⟩ | ⟨d, e, hd, he⟩ | ⟨d, c, e, hd, hc, he⟩)
    · rw [hr] at he; cases he
    · rw [hr] at hd; cases hd
      rw [hp] at he; cases he
    · rw [hr] at hd; cases hd
      rw [hp] at hc; cases hc
      rw [hv] at he; cases he

theorem loadConfigActions_failure_atomic_witness :
    ((loadConfigActions invalidEnv testRegistry "invalid-config.yml").postActions = testRegistry ∧
      (loadConfigActions invalidEnv testRegistry "invalid-config.yml").apiKey = "") ∧
    ((loadConfigActions invalidEnv testRegistry "broken.yml").postActions = testRegistry ∧
      (loadConfigActions invalidEnv testRegistry "broken.yml").apiKey = "") ∧
    ((loadConfigActions invalidEnv testRegistry "/non/existent/path/config.yml").postActions =
        testRegistry ∧
      (loadConfigActions invalidEnv testRegistry "/non/existent/path/config.yml").apiKey = "") :=
  ⟨(loadConfigActions_failure_atomic invalidEnv testRegistry "invalid-config.yml").1 (by decide),
   (loadConfigActions_failure_atomic invalidEnv testRegistry "broken.yml").1 (by decide),
   (loadConfigActions_failure_atomic invalidEnv testRegistry
      "/non/existent/path/config.yml").1 (by decide)⟩

/-- C12: load then find. After `loadConfigActions` has succeeded on a Config, looking
up the id of any action of the Config returns that very action, and looking up
an id that no action of the Config has, the empty id among them, returns `nil`. -/
theorem load_then_find (env : Env) (old : List PostAction) (path data : String)
    (config : Config) (hread : env.ReadFile path = .ok data)
    (hparse : env.Unmarshal data = .ok config)
    (hvalid : (validateConfig config).1 = none) :
    (∀ x ∈ config.PostActions,
      derefAction (loadConfigActions env old path).postActions
        (findAction (loadConfigActions env old path).postActions x.ID) = some x) ∧
    (∀ id, (∀ x ∈ config.PostActions, x.ID ≠ id) →
      findAction (loadConfigActions env old path).postActions id = none) ∧
    findAction (loadConfigActions env old path).postActions "" = none := by
  rw [loadConfigActions_ok old hread hparse hvalid]
  exact find_of_accepted hvalid

theorem load_then_find_witness :
    derefAction (loadConfigActions testEnv testRegistry "test-config.yml").postActions
      (findAction (loadConfigActions testEnv testRegistry "test-config.yml").postActions
        "test-action") = some { testAction with Description := "Test description" } ∧
    findAction (loadConfigActions testEnv testRegistry "test-config.yml").postActions
      "test-action-2" = none :=
  have h := load_then_find testEnv testRegistry "test-config.yml" testConfigText testConfig
    (by simp [testEnv]) (by simp [testEnv]) (by decide)
  ⟨h.1 { testAction with Description := "Test description" } (by decide),
   h.2.1 "test-action-2" (by decide)⟩

set_option maxRecDepth 100000 in
/-- C13 (failing input): loading a file that parses to a Config whose only action has a
NaN temperature succeeds, and the registry then holds an action whose
temperature is not in `[0, 2]`. -/
theorem registry_holds_nan_temperature :
    (loadConfigActions nanEnv [] "nan.yml").err = none ∧
    (loadConfigActions nanEnv [] "nan.yml").postActions = nanConfig.PostActions ∧
    ¬ (∀ a ∈ (loadConfigActions nanEnv [] "nan.yml").postActions, a.Temperature.inRange) := by
  decide

set_option maxRecDepth 100000 in
/-- C14: the text returned by `getDefaultConfigContent`, decoded as the YAML
library decodes it, is a Config with an empty API key and a non-empty action
list; `validateConfig` accepts it; its ids are pairwise distinct, and
`openai-meeting-summary` and `openai-action-items` are among them; and loading a
file that holds the text succeeds and sets the registry to the action list of
that Config, unchanged. -/
theorem defaultConfig_valid :
    ∃ config, yamlUnmarshal getDefaultConfigContent = .ok config ∧
      config.OpenAIAPIKey = "" ∧ config.PostActions ≠ [] ∧
      (validateConfig config).1 = none ∧
      config.PostActions.Pairwise (fun a b => a.ID ≠ b.ID) ∧
      "openai-meeting-summary" ∈ config.PostActions.map (·.ID) ∧
      "openai-action-items" ∈ config.PostActions.map (·.ID) ∧
      ∀ (env : Env) (old : List PostAction) (path : String),
        env.ReadFile path = .ok getDefaultConfigContent → env.Unmarshal = yamlUnmarshal →
        (loadConfigActions env old path).err = none ∧
        (loadConfigActions env old path).postActions = config.PostActions := by
  refine ⟨defaultConfig, yamlUnmarshal_getDefaultConfigContent, by decide, by decide, by decide,
    by decide, by decide, by decide, ?_⟩
  intro env old path hread hyaml
  have hparse : env.Unmarshal getDefaultConfigContent = .ok defaultConfig := by
    rw [hyaml]; exact yamlUnmarshal_getDefaultConfigContent
  obtain ⟨h1, h2, _⟩ :=
    loadConfigActions_stdout old hread hparse defaultConfig_accepted_silently.1
  exact ⟨h2, h1⟩

/-- What `storeAPIKey` writes. When the config file exists and parses to `config`,
and the YAML library encodes `config` with the key replaced by `k` as
`updatedData`, `storeAPIKey k` succeeds, writes `updatedData` to the config file
and touches no other file. What a later load makes of `updatedData` is the
business of the YAML library. -/
theorem storeAPIKey_writes_updated_config (sys : Sys) (files : Files)
    (k home data updatedData : String) (config : Config)
    (hhome : sys.UserHomeDir = .ok home)
    (hfile : files (sys.Join [sys.Join [home, ".goscribe"], "config.yml"]) = some data)
    (hparse : sys.Unmarshal data = .ok config)
    (hmarshal : sys.Marshal { config with OpenAIAPIKey := k } = .ok updatedData)
    (hwrite : sys.WriteErr (sys.Join [sys.Join [home, ".goscribe"], "config.yml"]) = none) :
    (storeAPIKey sys files k).err = none ∧
    (storeAPIKey sys files k).files (sys.Join [sys.Join [home, ".goscribe"], "config.yml"]) =
      some updatedData ∧
    (∀ p, p ≠ sys.Join [sys.Join [home, ".goscribe"], "config.yml"] →
      (storeAPIKey sys files k).files p = files p) := by
  have hne : ¬ files (sys.Join [sys.Join [home, ".goscribe"], "config.yml"]) = none := by
    rw [hfile]; simp
  have hread : files.read (sys.Join [sys.Join [home, ".goscribe"], "config.yml"]) = .ok data := by
    unfold Files.read; rw [hfile]
  have hstore : storeAPIKey sys files k =
      ⟨none, files.write (sys.Join [sys.Join [home, ".goscribe"], "config.yml"]) updatedData,
        [] ++ [⟨"✓ API key stored successfully in: %s\n",
            [.str (sys.Join [sys.Join [home, ".goscribe"], "config.yml"])]⟩,
          println "\nYou can now use goscribe without the -k flag:",
          println "  goscribe audio.mp3",
          println "  goscribe -action openai-meeting-summary meeting.mp3"]⟩ := by
    unfold storeAPIKey
    rw [hhome]
    simp only
    rw [if_neg hne]
    simp only
    rw [hread]
    simp only
    rw [hparse]
    simp only
    rw [hmarshal]
    simp only
    rw [hwrite]
  rw [hstore]
  have hnew : (files.write (sys.Join [sys.Join [home, ".goscribe"], "config.yml"]) updatedData)
      (sys.Join [sys.Join [home, ".goscribe"], "config.yml"]) = some updatedData := by
    unfold Files.write; rw [if_pos rfl]
  refine ⟨rfl, hnew, ?_⟩
  intro p hp
  show Files.write files _ updatedData p = files p
  unfold Files.write
  rw [if_neg hp]

set_option maxRecDepth 100000 in
theorem storeAPIKey_writes_updated_config_example :
    (storeAPIKey storeSys storeFiles "sk-test-api-key-12345").err = none ∧
    (storeAPIKey storeSys storeFiles "sk-test-api-key-12345").files
      "/home/user/.goscribe/config.yml" = some storedConfigText :=
  have h := storeAPIKey_writes_updated_config storeSys storeFiles "sk-test-api-key-12345"
    "/home/user" testConfigText storedConfigText testConfig rfl (by decide)
    (by dsimp only [storeSys]; rw [if_pos rfl]) (by dsimp only [storeSys]; rw [if_pos rfl]) rfl
  ⟨h.1, h.2.1⟩

set_option maxRecDepth 100000 in
/-- C16 (failing input): the argument `action1 , action2 , action3` splits and trims to
three registered ids, but `main` looks the whole argument up as one id, finds
nothing, and exits with status 1 without applying any action. -/
theorem comma_list_is_one_id :
    splitActionIDs "action1 , action2 , action3" = ["action1", "action2", "action3"] ∧
    (∀ id ∈ splitActionIDs "action1 , action2 , action3",
      findAction numberedRegistry id ≠ none) ∧
    findAction numberedRegistry "action1 , action2 , action3" = none ∧
    mainRun (runEnv answeringNet) numberedRegistry
        (audioFlags "action1 , action2 , action3") "" =
      ⟨1,
       [.printf (println "Transcribing audio..."),
        .printf ⟨"Raw transcript saved to %s\n", [.str "meeting-transcript.txt"]⟩,
        .printf ⟨"Error: Unknown action '%s'. Use -list-actions to see available options.\n",
          [.str "action1 , action2 , action3"]⟩],
       [("meeting-transcript.txt", "Hello.")]⟩ := by
  decide

/-- C17: output file names. The extension `filepath.Ext` computes for a path `p` is
the suffix of `p` from the last dot of its final element (empty if there is
none), and `strings.TrimSuffix` leaves the base, `p` without it. In a run on the
audio file `p` that gets a transcript and applies the action `action`, the
transcript is written to the base followed by `-transcript.txt`, or to the
`-o` path when one is given, and the processed text to the base followed by
`-`, the action id and `.txt`; in a run on the transcript file `p` the processed
text is written to the name built in the same way from `p`. -/
theorem output_file_names (env : RunEnv) (postActions : List PostAction) (flags : Flags)
    (configAPIKey p transcription processed : String) (action : PostAction)
    (hlist : flags.listActions = false) (haction : flags.postAction ≠ "")
    (hfind : derefAction postActions (findAction postActions flags.postAction) = some action)
    (hprocess : processWithOpenAI env.net transcription action
      (effectiveAPIKey flags.apiKey configAPIKey) = .ok processed)
    (hwrite : env.WriteErr (trimSuffix p (filepathExt p) ++ "-" ++ action.ID ++ ".txt") = none) :
    IsExt p (filepathExt p) ∧ trimSuffix p (filepathExt p) ++ filepathExt p = p ∧
    (flags.transcriptFile = "" → (∃ rest, flags.args = p :: rest) → env.Exists p = true →
      env.transcribeAudio p (effectiveAPIKey flags.apiKey configAPIKey) = .ok transcription →
      env.WriteErr (if flags.output = "" then trimSuffix p (filepathExt p) ++ "-transcript.txt"
        else flags.output) = none →
      (mainRun env postActions flags configAPIKey).writes =
        [(if flags.output = "" then trimSuffix p (filepathExt p) ++ "-transcript.txt"
            else flags.output, transcription),
         (trimSuffix p (filepathExt p) ++ "-" ++ action.ID ++ ".txt", processed)]) ∧
    (flags.transcriptFile = p → p ≠ "" → env.Exists p = true →
      env.ReadFile p = .ok transcription →
      (mainRun env postActions flags configAPIKey).writes =
        [(trimSuffix p (filepathExt p) ++ "-" ++ action.ID ++ ".txt", processed)]) := by
  refine ⟨(filepathExt_spec p).1, trimSuffix_append_ext p, ?_, ?_⟩
  · rintro htf ⟨rest, hargs⟩ hex htr hw
    have htf' : ¬ flags.transcriptFile ≠ "" := fun h => h htf
    have hacq : acquireTranscript env flags (effectiveAPIKey flags.apiKey configAPIKey) =
        .ok ⟨transcription, p,
          if flags.output = "" then trimSuffix p (filepathExt p) ++ "-transcript.txt"
            else flags.output,
          [.printf (println "Transcribing audio..."),
           .printf ⟨"Raw transcript saved to %s\n",
             [.str (if flags.output = "" then trimSuffix p (filepathExt p) ++ "-transcript.txt"
               else flags.output)]⟩],
          [(if flags.output = "" then trimSuffix p (filepathExt p) ++ "-transcript.txt"
            else flags.output, transcription)]⟩ := by
      unfold acquireTranscript
      rw [if_neg htf', hargs]
      simp only [hex, Bool.not_true, Bool.false_eq_true, if_false]
      rw [htr]
      simp only
      rw [hw]
    have hpost : postProcess env postActions flags (effectiveAPIKey flags.apiKey configAPIKey)
        transcription p =
        .ok ([.printf ⟨"Applying post-processing: %s...\n", [.str action.Name]⟩,
          .printf ⟨"Post-processed output saved to %s\n",
            [.str (trimSuffix p (filepathExt p) ++ "-" ++ action.ID ++ ".txt")]⟩,
          .printf (println "Post-processing completed successfully!")],
          [(trimSuffix p (filepathExt p) ++ "-" ++ action.ID ++ ".txt", processed)]) := by
      unfold postProcess
      rw [if_pos haction, hfind]
      simp only
      rw [hprocess]
      simp only [processedFilename, if_neg htf']
      rw [hwrite]
    unfold mainRun
    simp only [hlist, Bool.false_eq_true, if_false, hacq, hpost]
    rfl
  · intro htf hp hex hread
    have htf' : flags.transcriptFile ≠ "" := by rw [htf]; exact hp
    have hacq : acquireTranscript env flags (effectiveAPIKey flags.apiKey configAPIKey) =
        .ok ⟨transcription, "", p,
          [.printf ⟨"Loaded transcript from %s\n", [.str p]⟩], []⟩ := by
      unfold acquireTranscript
      rw [if_pos htf', if_neg haction, htf]
      simp only [hex, Bool.not_true, Bool.false_eq_true, if_false]
      rw [hread]
    have hpost : postProcess env postActions flags (effectiveAPIKey flags.apiKey configAPIKey)
        transcription "" =
        .ok ([.printf ⟨"Applying post-processing: %s...\n", [.str action.Name]⟩,
          .printf ⟨"Post-processed output saved to %s\n",
            [.str (trimSuffix p (filepathExt p) ++ "-" ++ action.ID ++ ".txt")]⟩,
          .printf (println "Post-processing completed successfully!")],
          [(trimSuffix p (filepathExt p) ++ "-" ++ action.ID ++ ".txt", processed)]) := by
      unfold postProcess
      rw [if_pos haction, hfind]
      simp only
      rw [hprocess]
      simp only [processedFilename, htf, if_pos hp]
      rw [hwrite]
    unfold mainRun
    simp only [hlist, Bool.false_eq_true, if_false, hacq, hpost]
    rfl

set_option maxRecDepth 100000 in
theorem output_file_names_witness :
    (mainRun (runEnv answeringNet) testRegistry (audioFlags "test-action-2") "").writes =
      [("meeting-transcript.txt", "Hello."), ("meeting-test-action-2.txt", "Summary.")] :=
  (output_file_names (runEnv answeringNet) testRegistry (audioFlags "test-action-2") ""
    "meeting.mp3" "Hello." "Summary."
    { testAction with ID := "test-action-2", Name := "Test Action 2" }
    rfl (by decide) (by decide) (by rfl) rfl).2.2.1 rfl ⟨[], rfl⟩ rfl (by rfl) rfl

set_option maxRecDepth 100000 in
/-- C18 (failing input): the completion call fails for the registered action
`test-action-2`. The run returns normally, prints the warning and
`Only raw transcript was saved.`, writes the transcript only, and its summary
lists the processed file `meeting-test-action-2.txt` all the same. -/
theorem summary_lists_unwritten_file :
    mainRun (runEnv failingNet) testRegistry (audioFlags "test-action-2") "" =
      ⟨0,
       [.printf (println "Transcribing audio..."),
        .printf ⟨"Raw transcript saved to %s\n", [.str "meeting-transcript.txt"]⟩,
        .printf ⟨"Applying post-processing: %s...\n", [.str "Test Action 2"]⟩,
        .printErr "Warning: Post-processing failed: %v\n"
          (.wrap "failed to send request: %w" (.external "dial tcp: connection refused")),
        .printf (println "Only raw transcript was saved."),
        .printf (println (repeat70 '=')),
        .printf ⟨"Summary:\n", []⟩,
        .printf ⟨"  Audio file: %s\n", [.str "meeting.mp3"]⟩,
        .printf ⟨"  Transcript: %s\n", [.str "meeting-transcript.txt"]⟩,
        .printf ⟨"  Processed:  %s (%s)\n",
          [.str "meeting-test-action-2.txt", .str "Test Action 2"]⟩,
        .printf ⟨"  API key:    %s\n", [.str "sk-key"]⟩,
        .printf (println (repeat70 '='))],
       [("meeting-transcript.txt", "Hello.")]⟩ ∧
    (∀ w ∈ (mainRun (runEnv failingNet) testRegistry (audioFlags "test-action-2") "").writes,
      w.1 ≠ "meeting-test-action-2.txt") := by
  decide

/-- C19 (as stated, refuted): a response with the status 201, a body that parses and
one choice makes `processWithOpenAI` fail. -/
theorem processWithOpenAI_rejects_201 :
    (200 ≤ (201 : Int) ∧ (201 : Int) < 300) ∧
    (statusNet 201).UnmarshalChat oneChoiceBody = .ok ⟨[⟨"assistant", "Summary."⟩]⟩ ∧
    processWithOpenAI (statusNet 201) "transcript" testAction "key" =
      .error (.errorf "API request failed with status %d: %s" [.int 201, .str oneChoiceBody]) := by
  refine ⟨by decide, by dsimp only [statusNet]; rw [if_pos rfl], by rfl⟩

/-- C19 (amended): once the request is sent and the body of the response is read,
`processWithOpenAI` fails exactly when the status is not 200, the body cannot be
parsed, or the parsed choice list is empty; for a response with the status 200,
a body that parses and at least one choice it returns the message content of
the first choice. -/
theorem processWithOpenAI_status_body (net : Net) (transcript apiKey : String)
    (action : PostAction) (jsonData : List (String × JSONField)) (resp : HTTPResponse)
    (respBody : String)
    (hmarshal : marshalRequest (requestBody transcript action) = .ok jsonData)
    (hnew : net.NewRequestErr "POST" "https://api.openai.com/v1/chat/completions" = none)
    (hdo : net.Do
      { Method := "POST", URL := "https://api.openai.com/v1/chat/completions",
        Body := jsonData,
        Header := [("Authorization", "Bearer " ++ apiKey),
                   ("Content-Type", "application/json")] } = .ok resp)
    (hbody : resp.Body = .ok respBody) :
    ((∃ e, processWithOpenAI net transcript action apiKey = .error e) ↔
      resp.StatusCode ≠ 200 ∨ (∃ e, net.UnmarshalChat respBody = .error e) ∨
        net.UnmarshalChat respBody = .ok ⟨[]⟩) ∧
    (∀ choice rest, resp.StatusCode = 200 →
      net.UnmarshalChat respBody = .ok ⟨choice :: rest⟩ →
      processWithOpenAI net transcript action apiKey = .ok choice.Content) := by
  rw [processWithOpenAI_of_response hmarshal hnew hdo hbody]
  by_cases hs : resp.StatusCode = 200
  · rw [if_neg (fun h => h hs)]
    cases hu : net.UnmarshalChat respBody with
    | error err =>
      refine ⟨⟨fun _ => Or.inr (Or.inl ⟨err, rfl⟩), fun _ => ⟨_, rfl⟩⟩, ?_⟩
      intro choice rest _ h
      cases h
    | ok chatResp =>
      obtain ⟨choices⟩ := chatResp
      cases choices with
      | nil =>
        refine ⟨⟨fun _ => Or.inr (Or.inr rfl), fun _ => ⟨_, rfl⟩⟩, ?_⟩
        intro choice rest _ h
        cases h
      | cons c cs =>
        refine ⟨⟨?_, ?_⟩, ?_⟩
        · rintro ⟨e, he⟩
          cases he
        · rintro (h | ⟨e, he⟩ | h)
          · exact absurd hs h
          · cases he
          · cases h
        · intro choice rest _ h
          cases h
          rfl
  · rw [if_pos hs]
    exact ⟨⟨fun _ => Or.inl hs, fun _ => ⟨_, rfl⟩⟩, fun _ _ h => absurd h hs⟩

theorem processWithOpenAI_status_body_witness :
    processWithOpenAI (statusNet 200) "transcript" testAction "key" = .ok "Summary." :=
  (processWithOpenAI_status_body (statusNet 200) "transcript" "key" testAction
    [("model", .string "gpt-3.5-turbo"),
      ("messages", .messages (requestBody "transcript" testAction).Messages),
      ("temperature", .number Float64.half), ("max_tokens", .integer 1000)]
    ⟨200, .ok oneChoiceBody⟩ oneChoiceBody (by rfl) rfl rfl rfl).2
    ⟨"assistant", "Summary."⟩ [] rfl (by dsimp only [statusNet]; rw [if_pos rfl])

set_option maxRecDepth 100000 in
/-- C20 (failing input): `validateConfig` accepts the test action with the temperature
0, and the request body built for it has the members `model`, `messages` and
`max_tokens` only: the temperature is not in it. -/
theorem request_body_omits_zero_temperature :
    (validateConfig ⟨"", [zeroTemperatureAction]⟩).1 = none ∧
    (marshalRequest (requestBody "transcript" zeroTemperatureAction)).toOption =
      some [("model", .string "gpt-3.5-turbo"),
        ("messages", .messages (requestBody "transcript" zeroTemperatureAction).Messages),
        ("max_tokens", .integer 1000)] ∧
    ((marshalRequest (requestBody "transcript" zeroTemperatureAction)).toOption.map
      (fun body => body.map Prod.fst)) = some ["model", "messages", "max_tokens"] := by
  decide

/-- C21: the completion request has exactly one message, with the role `user`, whose
content is the prompt of the action, a blank line, the preamble that ends in
`Transcript:` and a newline, the transcript as it is, and the closing sentence.
That content is what `fmt.Sprintf(basePrompt, transcript)` yields after the
prompt, whatever characters the transcript has; the prompt starts the content
and the transcript occurs in it. -/
theorem requestBody_message (transcript : String) (action : PostAction) :
    (requestBody transcript action).Messages =
      [⟨"user", action.Prompt ++ "\n\n" ++ (promptPreamble ++ transcript ++ promptClosing)⟩] ∧
    (requestBody transcript action).Messages =
      [⟨"user", action.Prompt ++ "\n\n" ++ ⟨sprintf basePrompt.data [transcript]⟩⟩] ∧
    (∃ before, promptPreamble = before ++ "Transcript:\n") ∧
    (∀ m ∈ (requestBody transcript action).Messages,
      (∃ rest, m.Content = action.Prompt ++ rest) ∧
      (∃ before after, m.Content = before ++ transcript ++ after)) := by
  have h1 : (requestBody transcript action).Messages =
      [⟨"user", action.Prompt ++ "\n\n" ++ (promptPreamble ++ transcript ++ promptClosing)⟩] :=
    rfl
  refine ⟨h1, ?_, ⟨"You are a helpful assistant that processes transcribed text according to user instructions.\n\n", by decide⟩, ?_⟩
  · rw [h1, sprintf_basePrompt]
    rfl
  · intro m hm
    rw [h1, List.mem_singleton] at hm
    subst hm
    refine ⟨⟨"\n\n" ++ (promptPreamble ++ transcript ++ promptClosing), ?_⟩,
      ⟨action.Prompt ++ "\n\n" ++ promptPreamble, promptClosing, ?_⟩⟩
    · simp only [String.append_assoc]
    · simp only [String.append_assoc]

set_option maxRecDepth 100000 in
theorem requestBody_message_witness :
    sprintf basePrompt.data [percentTranscript] =
      (promptPreamble ++ percentTranscript ++ promptClosing).data ∧
    (requestBody percentTranscript testAction).Messages =
      [⟨"user", testAction.Prompt ++ "\n\n" ++
        (promptPreamble ++ percentTranscript ++ promptClosing)⟩] :=
  ⟨by decide, (requestBody_message percentTranscript testAction).1⟩

/-- C22: credential precedence. The key a run works with is the key of the config
file when the `-k` flag has its default value `XXXX` and the config key is not
empty, and the key of the command line in every other case; so a command-line
key other than `XXXX` always wins, and when the two keys differ the config key
is used exactly in the first case. -/
theorem effectiveAPIKey_precedence (apiKey configAPIKey : String) :
    (apiKey = "XXXX" ∧ configAPIKey ≠ "" → effectiveAPIKey apiKey configAPIKey = configAPIKey) ∧
    (¬ (apiKey = "XXXX" ∧ configAPIKey ≠ "") → effectiveAPIKey apiKey configAPIKey = apiKey) ∧
    (apiKey ≠ "XXXX" → effectiveAPIKey apiKey configAPIKey = apiKey) ∧
    (apiKey ≠ configAPIKey →
      (effectiveAPIKey apiKey configAPIKey = configAPIKey ↔
        apiKey = "XXXX" ∧ configAPIKey ≠ "")) := by
  unfold effectiveAPIKey
  refine ⟨fun h => if_pos h, fun h => if_neg h, fun h => if_neg (fun h' => h h'.1), ?_⟩
  intro hne
  by_cases h : apiKey = "XXXX" ∧ configAPIKey ≠ ""
  · rw [if_pos h]; exact ⟨fun _ => h, fun _ => rfl⟩
  · rw [if_neg h]; exact ⟨fun h' => absurd h' hne, fun h' => absurd h' h⟩

theorem effectiveAPIKey_precedence_witness :
    effectiveAPIKey "XXXX" "sk-config" = "sk-config" ∧
    effectiveAPIKey "XXXX" "" = "XXXX" ∧
    effectiveAPIKey "sk-flag" "sk-config" = "sk-flag" ∧
    (effectiveAPIKey "sk-flag" "sk-config" = "sk-config" ↔
      "sk-flag" = "XXXX" ∧ "sk-config" ≠ "") :=
  ⟨(effectiveAPIKey_precedence "XXXX" "sk-config").1 (by decide),
   (effectiveAPIKey_precedence "XXXX" "").2.1 (by decide),
   (effectiveAPIKey_precedence "sk-flag" "sk-config").2.2.1 (by decide),
   (effectiveAPIKey_precedence "sk-flag" "sk-config").2.2.2 (by decide)⟩

/-- C23: acceptance does not depend on the order of the actions. For a permutation
`l₂` of the action list `l₁`, `validateConfig` accepts the Config with `l₂`
exactly when it accepts the Config with `l₁`. -/
theorem validateConfig_perm (key : String) (l₁ l₂ : List PostAction) (h : l₁.Perm l₂) :
    (validateConfig ⟨key, l₁⟩).1 = none ↔ (validateConfig ⟨key, l₂⟩).1 = none := by
  rw [validateConfig_err_none_iff, validateConfig_err_none_iff]
  simp only
  have hne : l₁ ≠ [] ↔ l₂ ≠ [] := by
    constructor
    · intro h1 h2
      rw [h2] at h
      exact h1 (List.Perm.eq_nil h)
    · intro h1 h2
      rw [h2] at h
      exact h1 (List.Perm.eq_nil h.symm)
  have hall : (∀ a ∈ l₁, fieldsOK a) ↔ (∀ a ∈ l₂, fieldsOK a) :=
    ⟨fun h1 a ha => h1 a (h.mem_iff.2 ha), fun h1 a ha => h1 a (h.mem_iff.1 ha)⟩
  have hpw : l₁.Pairwise (fun a b => a.ID ≠ b.ID) ↔ l₂.Pairwise (fun a b => a.ID ≠ b.ID) :=
    h.pairwise_iff (fun hab => fun h' => hab h'.symm)
  rw [hne, hall, hpw]

theorem validateConfig_perm_witness :
    ((validateConfig ⟨"", [testAction, { testAction with ID := "" }]⟩).1 = none ↔
      (validateConfig ⟨"", [{ testAction with ID := "" }, testAction]⟩).1 = none) ∧
    (validateConfig ⟨"", [{ testAction with ID := "" }, testAction]⟩).1 =
      some (.errorf "action at index %d is missing 'id' field" [.int 0]) ∧
    (validateConfig ⟨"", [testAction, { testAction with ID := "" }]⟩).1 =
      some (.errorf "action at index %d is missing 'id' field" [.int 1]) :=
  ⟨validateConfig_perm "" [testAction, { testAction with ID := "" }]
      [{ testAction with ID := "" }, testAction] (List.Perm.swap _ _ _),
   by decide, by decide⟩

/-- C24: in audio mode without `-o`, the name of the post-processed output of an
action equals the name of the raw transcript exactly when the id of the action
is `transcript`. `validateConfig` accepts that id, and a run that applies such
an action writes the transcript and then the processed text to the same path. -/
theorem processed_overwrites_transcript (env : RunEnv) (postActions : List PostAction)
    (flags : Flags) (configAPIKey p transcription processed : String) (action : PostAction) :
    (processedFilename "" p action = trimSuffix p (filepathExt p) ++ "-transcript.txt" ↔
      action.ID = "transcript") ∧
    (validateConfig ⟨"", [transcriptIDAction]⟩).1 = none ∧
    (action.ID = "transcript" → flags.output = "" → flags.listActions = false →
      flags.postAction ≠ "" → flags.transcriptFile = "" → (∃ rest, flags.args = p :: rest) →
      derefAction postActions (findAction postActions flags.postAction) = some action →
      env.Exists p = true →
      env.transcribeAudio p (effectiveAPIKey flags.apiKey configAPIKey) = .ok transcription →
      processWithOpenAI env.net transcription action
        (effectiveAPIKey flags.apiKey configAPIKey) = .ok processed →
      env.WriteErr (trimSuffix p (filepathExt p) ++ "-transcript.txt") = none →
      (mainRun env postActions flags configAPIKey).writes =
        [(trimSuffix p (filepathExt p) ++ "-transcript.txt", transcription),
         (trimSuffix p (filepathExt p) ++ "-transcript.txt", processed)]) := by
  have hname : processedFilename "" p action =
      trimSuffix p (filepathExt p) ++ "-" ++ action.ID ++ ".txt" := by
    unfold processedFilename
    rw [if_neg (fun h => h rfl)]
  refine ⟨?_, by decide, ?_⟩
  · rw [hname]
    exact processed_eq_transcript_name_iff _ _
  · rintro hid hout hlist haction htf ⟨rest, hargs⟩ hfind hex htr hprocess hw
    have heq := (processed_eq_transcript_name_iff (trimSuffix p (filepathExt p)) action.ID).2 hid
    have hw1 : env.WriteErr (trimSuffix p (filepathExt p) ++ "-" ++ action.ID ++ ".txt") =
        none := by rw [heq]; exact hw
    have hw2 : env.WriteErr (if flags.output = "" then
        trimSuffix p (filepathExt p) ++ "-transcript.txt" else flags.output) = none := by
      rw [if_pos hout]; exact hw
    rw [mainRun_audio_writes hlist haction hfind hprocess hw1 htf hargs hex htr hw2,
      if_pos hout, heq]

set_option maxRecDepth 100000 in
theorem processed_overwrites_transcript_witness :
    (mainRun (runEnv answeringNet) [testAction, transcriptIDAction] (audioFlags "transcript")
        "").writes =
      [("meeting-transcript.txt", "Hello."), ("meeting-transcript.txt", "Summary.")] ∧
    processedFilename "" "meeting.mp3" testAction ≠ "meeting-transcript.txt" :=
  have h := processed_overwrites_transcript (runEnv answeringNet)
    [testAction, transcriptIDAction] (audioFlags "transcript") "" "meeting.mp3" "Hello."
    "Summary." transcriptIDAction
  ⟨h.2.2 rfl rfl rfl (by decide) rfl ⟨[], rfl⟩ (by decide) rfl (by rfl) (by rfl) rfl,
   by decide⟩

set_option maxRecDepth 100000 in
/-- C25: when the config file holds the text of `getDefaultConfigContent` and is
decoded as the YAML library decodes it, loading it succeeds and sets the
registry to the actions of the decoded Config; every action id of the usage
text is then found by `findAction`; every model of that Config is in the
allow-list `validModels`; and the load prints no model warning, only the number
of actions loaded. -/
theorem default_config_usage_ids (env : Env) (old : List PostAction) (path : String)
    (hread : env.ReadFile path = .ok getDefaultConfigContent)
    (hyaml : env.Unmarshal = yamlUnmarshal) :
    ∃ config, yamlUnmarshal getDefaultConfigContent = .ok config ∧
      (loadConfigActions env old path).err = none ∧
      (loadConfigActions env old path).postActions = config.PostActions ∧
      (∀ id ∈ usagePopularActions,
        ∃ a, derefAction (loadConfigActions env old path).postActions
          (findAction (loadConfigActions env old path).postActions id) = some a ∧ a.ID = id) ∧
      (∀ a ∈ config.PostActions, a.Model ∈ validModels) ∧
      (loadConfigActions env old path).stdout =
        [⟨"Loaded %d action(s) from config file\n", [.int 18]⟩] := by
  have hparse : env.Unmarshal getDefaultConfigContent = .ok defaultConfig := by
    rw [hyaml]; exact yamlUnmarshal_getDefaultConfigContent
  obtain ⟨h1, h2, h3⟩ :=
    loadConfigActions_stdout old hread hparse defaultConfig_accepted_silently.1
  refine ⟨defaultConfig, yamlUnmarshal_getDefaultConfigContent, h2, h1, ?_, by decide, ?_⟩
  · rw [h1]; decide
  · rw [h3, defaultConfig_accepted_silently.2]; rfl

theorem default_config_usage_ids_witness :
    (loadConfigActions defaultEnv [] "config.yml").err = none ∧
    (loadConfigActions defaultEnv [] "config.yml").stdout =
      [⟨"Loaded %d action(s) from config file\n", [.int 18]⟩] :=
  match default_config_usage_ids defaultEnv [] "config.yml"
    (by dsimp only [defaultEnv]; rw [if_pos rfl]) rfl with
  | ⟨_, _, h1, _, _, _, h2⟩ => ⟨h1, h2⟩

/-- C26: the summary has the line `API key:` with the key of the run, as it is,
whenever that key is not the placeholder `XXXX`, and has no such line when it
is; two keys other than the placeholder give different summaries; and a run
that returns normally (other than a listing) ends its output with the summary
for its effective key. -/
theorem summary_shows_api_key (env : RunEnv) (postActions : List PostAction) (flags : Flags)
    (configAPIKey audioPath transcriptFilename : String) :
    (∀ apiKey, apiKey ≠ "XXXX" →
      Output.printf ⟨"  API key:    %s\n", [.str apiKey]⟩ ∈
        summary postActions flags apiKey audioPath transcriptFilename) ∧
    (∀ o ∈ summary postActions flags "XXXX" audioPath transcriptFilename,
      ∀ args, o ≠ .printf ⟨"  API key:    %s\n", args⟩) ∧
    (∀ k₁ k₂, k₁ ≠ "XXXX" → k₂ ≠ "XXXX" → k₁ ≠ k₂ →
      summary postActions flags k₁ audioPath transcriptFilename ≠
        summary postActions flags k₂ audioPath transcriptFilename) ∧
    (flags.listActions = false → (mainRun env postActions flags configAPIKey).exitCode = 0 →
      ∃ before audioPath' transcriptFilename',
        (mainRun env postActions flags configAPIKey).stdout =
          before ++ summary postActions flags (effectiveAPIKey flags.apiKey configAPIKey)
            audioPath' transcriptFilename') := by
  obtain ⟨head, hhead, hsum⟩ := summary_eq postActions flags audioPath transcriptFilename
  refine ⟨?_, ?_, ?_, mainRun_stdout_summary env postActions flags configAPIKey⟩
  · intro apiKey hk
    rw [hsum, if_pos hk]
    simp
  · intro o ho args
    rw [hsum, if_neg (fun h => h rfl)] at ho
    simp only [List.append_nil, List.mem_append, List.mem_singleton] at ho
    rcases ho with ho | ho
    · exact hhead o ho args
    · rw [ho]
      intro h
      exact apiKey_line_ne _ _ _ (by decide) h.symm
  · intro k₁ k₂ h1 h2 hne heq
    rw [hsum, hsum, if_pos h1, if_pos h2] at heq
    have h3 := List.append_cancel_left (List.append_cancel_right heq)
    injection h3 with h4 _
    injection h4 with h5
    injection h5 with _ h6
    injection h6 with h7 _
    injection h7 with h8
    exact hne h8

set_option maxRecDepth 100000 in
theorem summary_shows_api_key_witness :
    Output.printf ⟨"  API key:    %s\n", [.str "sk-config"]⟩ ∈
      summary testRegistry defaultKeyFlags "sk-config" "meeting.mp3" "meeting-transcript.txt" ∧
    (∃ before audioPath transcriptFilename,
      (mainRun (runEnv answeringNet) testRegistry defaultKeyFlags "sk-config").stdout =
        before ++ summary testRegistry defaultKeyFlags
          (effectiveAPIKey defaultKeyFlags.apiKey "sk-config") audioPath transcriptFilename) :=
  have h := summary_shows_api_key (runEnv answeringNet) testRegistry defaultKeyFlags
    "sk-config" "meeting.mp3" "meeting-transcript.txt"
  ⟨h.1 "sk-config" (by decide), h.2.2.2 rfl (by decide)⟩

end Goscribe
